import Mathlib

/-! A shallow embedding of `sunxi_cedrus_drv_video.c`

The driver translates VA-API calls into V4L2 memory-to-memory queue operations.
This development embeds the configuration store and the picture submission /
synchronisation state machine as pure functions on an explicit driver state,
and proves properties of them.

Conventions of the embedding:

* every driver entry point takes the driver state and yields an `Outcome`:
  it returns a status (with the values it stored through its output pointers),
  or the process stops at a failed `assert` (or another trap), or a loop of it
  does not terminate within the iterations it is given;
* the V4L2 device behind `mem2mem_fd` is a test double: it records every
  operation issued to it and answers each one from a response function;
* the object heaps (`object_heap.c` is not part of the sources at hand) are
  modelled from the specification.
-/

namespace SunxiCedrus

/-! ## VA-API vocabulary (from `va/va.h`) -/

/-- Return status of a driver entry point (the `VA_STATUS_*` codes the driver uses). -/
inductive VAStatus where
  | VA_STATUS_SUCCESS
  | VA_STATUS_ERROR_OPERATION_FAILED
  | VA_STATUS_ERROR_ALLOCATION_FAILED
  | VA_STATUS_ERROR_INVALID_CONFIG
  | VA_STATUS_ERROR_INVALID_CONTEXT
  | VA_STATUS_ERROR_INVALID_SURFACE
  | VA_STATUS_ERROR_INVALID_BUFFER
  | VA_STATUS_ERROR_MAX_NUM_EXCEEDED
  | VA_STATUS_ERROR_UNSUPPORTED_PROFILE
  | VA_STATUS_ERROR_UNSUPPORTED_ENTRYPOINT
  | VA_STATUS_ERROR_UNSUPPORTED_RT_FORMAT
  | VA_STATUS_ERROR_UNSUPPORTED_BUFFERTYPE
  | VA_STATUS_ERROR_UNIMPLEMENTED
  | VA_STATUS_ERROR_UNKNOWN
  deriving DecidableEq, Repr

open VAStatus

/-- A `VAProfile` is a C enumeration value: any integer can be passed by a caller. -/
abbrev VAProfile := Int

abbrev VAProfileMPEG2Simple : VAProfile := 0
abbrev VAProfileMPEG2Main : VAProfile := 1
abbrev VAProfileMPEG4Simple : VAProfile := 2
abbrev VAProfileMPEG4AdvancedSimple : VAProfile := 3
abbrev VAProfileMPEG4Main : VAProfile := 4
abbrev VAProfileH264Baseline : VAProfile := 5
abbrev VAProfileH264Main : VAProfile := 6
abbrev VAProfileH264High : VAProfile := 7

/-- A `VAEntrypoint` is a C enumeration value. -/
abbrev VAEntrypoint := Int

abbrev VAEntrypointVLD : VAEntrypoint := 1
abbrev VAEntrypointIZZ : VAEntrypoint := 2
abbrev VAEntrypointIDCT : VAEntrypoint := 3
abbrev VAEntrypointMoComp : VAEntrypoint := 4
abbrev VAEntrypointDeblocking : VAEntrypoint := 5

/-- A `VAConfigAttribType` is a C enumeration value. -/
abbrev VAConfigAttribType := Int

abbrev VAConfigAttribRTFormat : VAConfigAttribType := 0

abbrev VA_RT_FORMAT_YUV420 : Nat := 0x00000001

/-- One configuration attribute, `VAConfigAttrib`. -/
structure VAConfigAttrib where
  type : VAConfigAttribType
  value : Nat
  deriving DecidableEq, Repr, Inhabited

/-- A `VABufferType` is a C enumeration value. -/
abbrev VABufferType := Int

abbrev VAPictureParameterBufferType : VABufferType := 0
abbrev VAIQMatrixBufferType : VABufferType := 1
abbrev VASliceParameterBufferType : VABufferType := 4
abbrev VASliceDataBufferType : VABufferType := 5
abbrev VAImageBufferType : VABufferType := 9

/-- The `VASurfaceStatus` enumeration. -/
inductive VASurfaceStatus where
  | VASurfaceRendering
  | VASurfaceDisplaying
  | VASurfaceReady
  | VASurfaceSkipped
  deriving DecidableEq, Repr, Inhabited

open VASurfaceStatus

/-- Object ids as the heaps hand them out (`int configID`, `int surfaceID`, ...). -/
abbrev VAGenericID := Int

/-! ## Driver constants -/

abbrev CONFIG_ID_OFFSET : Nat := 0x01000000
abbrev CONTEXT_ID_OFFSET : Nat := 0x02000000
abbrev SURFACE_ID_OFFSET : Nat := 0x04000000
abbrev BUFFER_ID_OFFSET : Nat := 0x08000000
abbrev IMAGE_ID_OFFSET : Nat := 0x10000000

abbrev INPUT_BUFFER_MAX_SIZE : Nat := 131072
abbrev INPUT_BUFFERS_NUMBER : Nat := 4

/-! ## Object heap -/

/-- Modelled from the spec: the object registry of `object_heap.c`, which is not among
the sources. A heap hands out ids `type_offset | index`; slot `index` holds the payload of
a live object or is free. `capacity` bounds how far the storage can grow (allocation is
`Exhausted` beyond it) and `blank` is the content of a payload right after allocation,
about which the specification says nothing. -/
structure object_heap (α : Type) where
  id_offset : Nat
  capacity : Nat
  blank : α
  slots : List (Option α)

variable {α : Type}

/-- Modelled from the spec: the id of slot `i`, `(type_offset | index)`. -/
def object_heap.id_of (heap : object_heap α) (i : Nat) : VAGenericID :=
  ((heap.id_offset ||| i : Nat) : Int)

/-- Modelled from the spec: the slot an id designates, if the id has the heap's form
`type_offset | index`. -/
def object_heap.index_of (heap : object_heap α) (id : VAGenericID) : Option Nat :=
  if (heap.id_offset : Int) ≤ id then
    if heap.id_of (id - heap.id_offset).toNat = id then some (id - heap.id_offset).toNat
    else none
  else none

/-- Modelled from the spec: `lookup(id) -> payload | None`; a freed or out-of-range id
gives `none`. -/
def object_heap_lookup (heap : object_heap α) (id : VAGenericID) : Option α :=
  match heap.index_of id with
  | some i =>
    match heap.slots[i]? with
    | some (some obj) => some obj
    | _ => none
  | none => none

/-- Modelled from the spec: `allocate(kind) -> id | Exhausted`; returns the next free slot
or grows the storage, and is exhausted when the storage is at capacity. -/
def object_heap_allocate (heap : object_heap α) : Option VAGenericID × object_heap α :=
  let i := heap.slots.findIdx Option.isNone
  if i < heap.slots.length then
    (some (heap.id_of i), { heap with slots := heap.slots.set i (some heap.blank) })
  else if heap.slots.length < heap.capacity then
    (some (heap.id_of i), { heap with slots := heap.slots ++ [some heap.blank] })
  else
    (none, heap)

/-- Modelled from the spec: `free(id)` returns the slot to the free slots; freeing an id
that does not resolve does nothing. -/
def object_heap_free (heap : object_heap α) (id : VAGenericID) : object_heap α :=
  match heap.index_of id with
  | some i => { heap with slots := heap.slots.set i none }
  | none => heap

/-- A store through the pointer that `object_heap_lookup` returned for `id`: the payload of
the live object `id` becomes `obj`. -/
def object_heap.write (heap : object_heap α) (id : VAGenericID) (obj : α) : object_heap α :=
  match heap.index_of id with
  | some i =>
    match heap.slots[i]? with
    | some (some _) => { heap with slots := heap.slots.set i (some obj) }
    | _ => heap
  | none => heap

/-- Lookup of the id an allocation returned: `CONFIG(configID)` right after
`configID = object_heap_allocate(...)`; an exhausted allocation resolves to nothing. -/
def object_heap.lookup_allocated (heap : object_heap α) (id : Option VAGenericID) : Option α :=
  match id with
  | some i => object_heap_lookup heap i
  | none => none

/-- Ids and indices of the heap agree: the type offset has no bit below bit 24 and the
storage never grows to `2^24` slots, so `type_offset | index = type_offset + index`. -/
def object_heap.wf (heap : object_heap α) : Prop :=
  heap.id_offset % 2 ^ 24 = 0 ∧ heap.capacity ≤ 2 ^ 24 ∧ heap.slots.length ≤ heap.capacity

instance (heap : object_heap α) : Decidable heap.wf := by
  unfold object_heap.wf; infer_instance

/-! ## Codec parameter structures and frame headers -/

/-- The `picture_coding_extension.bits` of `VAPictureParameterBufferMPEG2` that the driver reads. -/
structure mpeg2_picture_coding_extension where
  intra_dc_precision : Nat
  picture_structure : Nat
  top_field_first : Nat
  frame_pred_frame_dct : Nat
  concealment_motion_vectors : Nat
  q_scale_type : Nat
  intra_vlc_format : Nat
  alternate_scan : Nat
  deriving DecidableEq, Repr, Inhabited

/-- The fields of `VAPictureParameterBufferMPEG2` that the driver reads. -/
structure VAPictureParameterBufferMPEG2 where
  horizontal_size : Nat
  vertical_size : Nat
  forward_reference_picture : VAGenericID
  backward_reference_picture : VAGenericID
  picture_coding_type : Nat
  f_code : Nat
  picture_coding_extension : mpeg2_picture_coding_extension
  deriving DecidableEq, Repr, Inhabited

/-- The `vol_fields` bits shared by `VAPictureParameterBufferMPEG4` and the MPEG-4 frame header. -/
structure mpeg4_vol_fields where
  short_video_header : Nat
  chroma_format : Nat
  interlaced : Nat
  obmc_disable : Nat
  sprite_enable : Nat
  sprite_warping_accuracy : Nat
  quant_type : Nat
  quarter_sample : Nat
  data_partitioned : Nat
  reversible_vlc : Nat
  resync_marker_disable : Nat
  deriving DecidableEq, Repr, Inhabited

/-- The `vop_fields` bits shared by `VAPictureParameterBufferMPEG4` and the MPEG-4 frame header. -/
structure mpeg4_vop_fields where
  vop_coding_type : Nat
  backward_reference_vop_coding_type : Nat
  vop_rounding_type : Nat
  intra_dc_vlc_thr : Nat
  top_field_first : Nat
  alternate_vertical_scan_flag : Nat
  deriving DecidableEq, Repr, Inhabited

/-- The fields of `VAPictureParameterBufferMPEG4` that the driver reads. -/
structure VAPictureParameterBufferMPEG4 where
  vop_width : Nat
  vop_height : Nat
  forward_reference_picture : VAGenericID
  backward_reference_picture : VAGenericID
  vol_fields : mpeg4_vol_fields
  quant_precision : Nat
  vop_fields : mpeg4_vop_fields
  vop_fcode_forward : Nat
  vop_fcode_backward : Nat
  TRB : Nat
  TRD : Nat
  deriving DecidableEq, Repr, Inhabited

/-- The fields of `VASliceParameterBufferMPEG4` that the driver reads. -/
structure VASliceParameterBufferMPEG4 where
  slice_data_offset : Nat
  slice_data_size : Nat
  deriving DecidableEq, Repr, Inhabited

/-- The `type` member of the MPEG-2 frame header, `enum { MPEG1, MPEG2 }`. -/
inductive mpeg_type where
  | MPEG1
  | MPEG2
  deriving DecidableEq, Repr, Inhabited

/-- The device control `struct v4l2_ctrl_mpeg2_frame_hdr` (the members the driver writes);
`f_code_i_j` is `f_code[i][j]`. -/
structure v4l2_ctrl_mpeg2_frame_hdr where
  slice_len : Nat
  slice_pos : Nat
  type : mpeg_type
  width : Nat
  height : Nat
  picture_coding_type : Nat
  f_code_0_0 : Nat
  f_code_0_1 : Nat
  f_code_1_0 : Nat
  f_code_1_1 : Nat
  intra_dc_precision : Nat
  picture_structure : Nat
  top_field_first : Nat
  frame_pred_frame_dct : Nat
  concealment_motion_vectors : Nat
  q_scale_type : Nat
  intra_vlc_format : Nat
  alternate_scan : Nat
  forward_index : Nat
  backward_index : Nat
  deriving DecidableEq, Repr, Inhabited

/-- The device control `struct v4l2_ctrl_mpeg4_frame_hdr` (the members the driver writes). -/
structure v4l2_ctrl_mpeg4_frame_hdr where
  slice_len : Nat
  slice_pos : Nat
  width : Nat
  height : Nat
  vol_fields : mpeg4_vol_fields
  quant_precision : Nat
  vop_fields : mpeg4_vop_fields
  vop_fcode_forward : Nat
  vop_fcode_backward : Nat
  trb : Nat
  trd : Nat
  forward_index : Nat
  backward_index : Nat
  deriving DecidableEq, Repr, Inhabited

/-! ## The V4L2 device behind `mem2mem_fd` -/

/-- The two queue directions of the memory-to-memory device. -/
inductive v4l2_buf_type where
  | V4L2_BUF_TYPE_VIDEO_OUTPUT_MPLANE
  | V4L2_BUF_TYPE_VIDEO_CAPTURE_MPLANE
  deriving DecidableEq, Repr

open v4l2_buf_type

/-- Pixel formats the driver negotiates. -/
inductive v4l2_pixelformat where
  | V4L2_PIX_FMT_NV12M
  | V4L2_PIX_FMT_MPEG2_FRAME
  | V4L2_PIX_FMT_MPEG4_FRAME
  | V4L2_PIX_FMT_H264_FRAME
  deriving DecidableEq, Repr

/-- An extended control written to the device: its control id with the header it points to. -/
inductive v4l2_ext_control where
  | V4L2_CID_MPEG_VIDEO_MPEG2_FRAME_HDR (hdr : v4l2_ctrl_mpeg2_frame_hdr)
  | V4L2_CID_MPEG_VIDEO_MPEG4_FRAME_HDR (hdr : v4l2_ctrl_mpeg4_frame_hdr)
  deriving DecidableEq, Repr

/-- One operation issued on the device file descriptor, with the arguments the driver
fills in. -/
inductive DeviceOp where
  | VIDIOC_S_FMT (type : v4l2_buf_type) (width height : Int) (pixelformat : v4l2_pixelformat)
      (sizeimage num_planes : Nat)
  | VIDIOC_G_FMT (type : v4l2_buf_type)
  | VIDIOC_CREATE_BUFS (type : v4l2_buf_type) (count : Nat)
  | VIDIOC_QUERYBUF (type : v4l2_buf_type) (index : Nat)
  | mmap (type : v4l2_buf_type) (index plane : Nat)
  | memcpy (type : v4l2_buf_type) (index : Nat) (data : List Nat)
  | VIDIOC_QBUF (type : v4l2_buf_type) (index request : Nat)
  | VIDIOC_DQBUF (type : v4l2_buf_type) (index : Nat)
  | VIDIOC_S_EXT_CTRLS (ctrl : v4l2_ext_control) (request : Nat)
  | VIDIOC_STREAMON (type : v4l2_buf_type)
  | select
  deriving DecidableEq, Repr

/-- What the device answers to one operation: `ok` says that the call succeeded (an `ioctl`
returned 0, `mmap` did not return `MAP_FAILED`); `index` and `count` are the values the
kernel stores back into the argument (`buf.index` of a dequeue, `create_bufs.index` and
`create_bufs.count` of a buffer creation). -/
structure Reply where
  ok : Bool
  index : Nat
  count : Nat
  deriving DecidableEq, Repr

/-- The device as a test double: the operations issued so far, oldest first, and the
function that answers an operation given the operations before it. -/
structure Device where
  trace : List DeviceOp
  respond : List DeviceOp → DeviceOp → Reply

/-- Issue one operation: the device answers and records it. -/
def Device.call (dev : Device) (op : DeviceOp) : Reply × Device :=
  (dev.respond dev.trace op, { dev with trace := dev.trace ++ [op] })

/-! ## Driver objects and driver state -/

/-- A configuration object, `struct object_config`. The attribute array is a map from
index to entry; the entries below `attrib_count` are the attributes of the configuration. -/
structure object_config where
  profile : VAProfile
  entrypoint : VAEntrypoint
  attrib_list : Nat → VAConfigAttrib
  attrib_count : Nat

/-- A surface object, `struct object_surface`. -/
structure object_surface where
  surface_id : VAGenericID
  status : VASurfaceStatus
  width : Int
  height : Int
  input_buf_index : Nat
  output_buf_index : Nat
  request : Nat
  deriving DecidableEq, Repr, Inhabited

/-- A context object, `struct object_context`; `render_targets` is `none` for `NULL`.
`num_rendered_surfaces` is a 32-bit unsigned counter (its declaration is in a header that is
not among the sources): it holds a value below `2^32`. -/
structure object_context where
  context_id : VAGenericID
  config_id : VAGenericID
  current_render_target : VAGenericID
  picture_width : Int
  picture_height : Int
  num_render_targets : Int
  flags : Int
  render_targets : Option (List VAGenericID)
  num_rendered_surfaces : Nat
  mpeg2_frame_hdr : v4l2_ctrl_mpeg2_frame_hdr
  mpeg4_frame_hdr : v4l2_ctrl_mpeg4_frame_hdr
  deriving DecidableEq, Repr, Inhabited

/-- The memory a buffer points to, given by what the driver reads from it: its bytes and
the three parameter structures the driver casts it to. -/
structure buffer_contents where
  bytes : List Nat
  mpeg2_picture_parameter : VAPictureParameterBufferMPEG2
  mpeg4_picture_parameter : VAPictureParameterBufferMPEG4
  mpeg4_slice_parameter : VASliceParameterBufferMPEG4
  deriving DecidableEq, Repr, Inhabited

/-- A buffer object, `struct object_buffer`; `buffer_data` is `none` for `NULL`. -/
structure object_buffer where
  buffer_data : Option buffer_contents
  max_num_elements : Nat
  num_elements : Nat
  size : Nat
  type : VABufferType
  deriving DecidableEq, Repr, Inhabited

/-- An image object, `struct object_image`. -/
structure object_image where
  buf : VAGenericID
  deriving DecidableEq, Repr, Inhabited

/-- The driver state, `struct sunxi_cedrus_driver_data`. -/
structure sunxi_cedrus_driver_data where
  config_heap : object_heap object_config
  context_heap : object_heap object_context
  surface_heap : object_heap object_surface
  buffer_heap : object_heap object_buffer
  image_heap : object_heap object_image
  num_dst_bufs : Nat
  mem2mem_fd : Device

/-- How a call of a driver entry point ends: it returns a status, with the values stored
through its output pointers and the driver state it leaves; or the process stops at a
failed `assert` or a trap, in the given state; or a loop does not end within the
iterations it is given. -/
inductive Outcome (α : Type) where
  | returned (status : VAStatus) (out : α) (driver_data : sunxi_cedrus_driver_data)
  | aborted (driver_data : sunxi_cedrus_driver_data)
  | diverged

/-- `CONFIG(id)`. -/
def CONFIG (driver_data : sunxi_cedrus_driver_data) (id : VAGenericID) : Option object_config :=
  object_heap_lookup driver_data.config_heap id

/-- `CONTEXT(id)`. -/
def CONTEXT (driver_data : sunxi_cedrus_driver_data) (id : VAGenericID) : Option object_context :=
  object_heap_lookup driver_data.context_heap id

/-- `SURFACE(id)`. -/
def SURFACE (driver_data : sunxi_cedrus_driver_data) (id : VAGenericID) : Option object_surface :=
  object_heap_lookup driver_data.surface_heap id

/-- `BUFFER(id)`. -/
def BUFFER (driver_data : sunxi_cedrus_driver_data) (id : VAGenericID) : Option object_buffer :=
  object_heap_lookup driver_data.buffer_heap id

/-! ## Configurations -/

/-- The profile and entrypoint validation of `sunxi_cedrus_CreateConfig` (its `switch`). -/
def sunxi_cedrus_CreateConfig.validate (profile : VAProfile) (entrypoint : VAEntrypoint) :
    VAStatus :=
  if profile = VAProfileMPEG2Simple ∨ profile = VAProfileMPEG2Main then
    if VAEntrypointVLD = entrypoint ∨ VAEntrypointMoComp = entrypoint then VA_STATUS_SUCCESS
    else VA_STATUS_ERROR_UNSUPPORTED_ENTRYPOINT
  else if profile = VAProfileMPEG4Simple ∨ profile = VAProfileMPEG4AdvancedSimple
      ∨ profile = VAProfileMPEG4Main then
    if VAEntrypointVLD = entrypoint then VA_STATUS_SUCCESS
    else VA_STATUS_ERROR_UNSUPPORTED_ENTRYPOINT
  else if profile = VAProfileH264Baseline ∨ profile = VAProfileH264Main
      ∨ profile = VAProfileH264High then
    if VAEntrypointVLD = entrypoint then VA_STATUS_SUCCESS
    else VA_STATUS_ERROR_UNSUPPORTED_ENTRYPOINT
  else VA_STATUS_ERROR_UNSUPPORTED_PROFILE

/-- How the first loop of `sunxi_cedrus_update_attribute` ends. -/
inductive scan_result where
  | updated (obj_config : object_config)
  | not_found
  | out_of_fuel

/-- The loop `for (i = 0; obj_config->attrib_count < i; i++)` of
`sunxi_cedrus_update_attribute`, from index `i`, with the guard as the source has it;
`fuel` bounds the number of guard tests. -/
def sunxi_cedrus_update_attribute.scan (obj_config : object_config) (attrib : VAConfigAttrib) :
    Nat → Nat → scan_result
  | 0, _ => scan_result.out_of_fuel
  | fuel + 1, i =>
    if obj_config.attrib_count < i then
      if (obj_config.attrib_list i).type = attrib.type then
        scan_result.updated { obj_config with
          attrib_list := Function.update obj_config.attrib_list i
            { obj_config.attrib_list i with value := attrib.value } }
      else sunxi_cedrus_update_attribute.scan obj_config attrib fuel (i + 1)
    else scan_result.not_found

/-- The function `sunxi_cedrus_update_attribute`; `none` when its first loop does not end
within `fuel` guard tests. `SUNXI_CEDRUS_MAX_CONFIG_ATTRIBUTES` is the capacity of the
attribute array, a constant of a header that is not among the sources. -/
def sunxi_cedrus_update_attribute (SUNXI_CEDRUS_MAX_CONFIG_ATTRIBUTES fuel : Nat)
    (obj_config : object_config) (attrib : VAConfigAttrib) :
    Option (VAStatus × object_config) :=
  match sunxi_cedrus_update_attribute.scan obj_config attrib fuel 0 with
  | scan_result.updated obj_config => some (VA_STATUS_SUCCESS, obj_config)
  | scan_result.out_of_fuel => none
  | scan_result.not_found =>
    if obj_config.attrib_count < SUNXI_CEDRUS_MAX_CONFIG_ATTRIBUTES then
      let i := obj_config.attrib_count
      some (VA_STATUS_SUCCESS, { obj_config with
        attrib_list := Function.update obj_config.attrib_list i
          { type := attrib.type, value := attrib.value }
        attrib_count := obj_config.attrib_count + 1 })
    else some (VA_STATUS_ERROR_MAX_NUM_EXCEEDED, obj_config)

/-- The loop of `sunxi_cedrus_CreateConfig` that merges the caller's attributes, entered
with the current `vaStatus`; it stops at the first attribute that is not merged. -/
def sunxi_cedrus_CreateConfig.merge (SUNXI_CEDRUS_MAX_CONFIG_ATTRIBUTES fuel : Nat)
    (vaStatus : VAStatus) (obj_config : object_config) :
    List VAConfigAttrib → Option (VAStatus × object_config)
  | [] => some (vaStatus, obj_config)
  | attrib :: attrib_list =>
    match sunxi_cedrus_update_attribute SUNXI_CEDRUS_MAX_CONFIG_ATTRIBUTES fuel obj_config
        attrib with
    | none => none
    | some (vaStatus, obj_config) =>
      if VA_STATUS_SUCCESS ≠ vaStatus then some (vaStatus, obj_config)
      else sunxi_cedrus_CreateConfig.merge SUNXI_CEDRUS_MAX_CONFIG_ATTRIBUTES fuel vaStatus
        obj_config attrib_list

/-- The function `sunxi_cedrus_CreateConfig`. The caller's attribute array is the list
`attrib_list` (`num_attribs` is its length); the output is the id stored to `*config_id`,
`none` when nothing is stored. -/
def sunxi_cedrus_CreateConfig (SUNXI_CEDRUS_MAX_CONFIG_ATTRIBUTES fuel : Nat)
    (driver_data : sunxi_cedrus_driver_data) (profile : VAProfile) (entrypoint : VAEntrypoint)
    (attrib_list : List VAConfigAttrib) : Outcome (Option VAGenericID) :=
  let vaStatus := sunxi_cedrus_CreateConfig.validate profile entrypoint
  if VA_STATUS_SUCCESS ≠ vaStatus then Outcome.returned vaStatus none driver_data
  else
    let alloc := object_heap_allocate driver_data.config_heap
    match alloc.1, alloc.2.lookup_allocated alloc.1 with
    | some configID, some obj_config =>
      let obj_config : object_config :=
        { obj_config with
          profile := profile
          entrypoint := entrypoint
          attrib_list := Function.update obj_config.attrib_list 0
            { type := VAConfigAttribRTFormat, value := VA_RT_FORMAT_YUV420 }
          attrib_count := 1 }
      match sunxi_cedrus_CreateConfig.merge SUNXI_CEDRUS_MAX_CONFIG_ATTRIBUTES fuel vaStatus
          obj_config attrib_list with
      | none => Outcome.diverged
      | some (vaStatus, obj_config) =>
        let config_heap := alloc.2.write configID obj_config
        if VA_STATUS_SUCCESS ≠ vaStatus then
          Outcome.returned vaStatus none
            { driver_data with config_heap := object_heap_free config_heap configID }
        else
          Outcome.returned vaStatus (some configID) { driver_data with config_heap := config_heap }
    | _, _ =>
      Outcome.returned VA_STATUS_ERROR_ALLOCATION_FAILED none
        { driver_data with config_heap := alloc.2 }

/-- What `sunxi_cedrus_QueryConfigAttributes` stores through its output pointers. -/
structure config_attributes where
  profile : VAProfile
  entrypoint : VAEntrypoint
  attrib_list : List VAConfigAttrib
  num_attribs : Nat
  deriving DecidableEq, Repr

/-- The function `sunxi_cedrus_QueryConfigAttributes`. -/
def sunxi_cedrus_QueryConfigAttributes (driver_data : sunxi_cedrus_driver_data)
    (config_id : VAGenericID) : Outcome config_attributes :=
  match CONFIG driver_data config_id with
  | none => Outcome.aborted driver_data
  | some obj_config =>
    Outcome.returned VA_STATUS_SUCCESS
      { profile := obj_config.profile
        entrypoint := obj_config.entrypoint
        attrib_list := (List.range obj_config.attrib_count).map obj_config.attrib_list
        num_attribs := obj_config.attrib_count }
      driver_data

/-! ## Device calls on the driver state -/

/-- An operation on `driver_data->mem2mem_fd`: the answer and the driver state after it. -/
def sunxi_cedrus_driver_data.issue (driver_data : sunxi_cedrus_driver_data) (op : DeviceOp) :
    Reply × sunxi_cedrus_driver_data :=
  ((driver_data.mem2mem_fd.call op).1,
    { driver_data with mem2mem_fd := (driver_data.mem2mem_fd.call op).2 })

/-- The pattern `assert(ioctl(driver_data->mem2mem_fd, op, ...)==0)` followed by the rest
`k` of the function: the process stops when the operation fails. -/
def sunxi_cedrus_driver_data.assert_issue {β : Type} (driver_data : sunxi_cedrus_driver_data)
    (op : DeviceOp) (k : Reply → sunxi_cedrus_driver_data → Outcome β) : Outcome β :=
  if (driver_data.issue op).1.ok then k (driver_data.issue op).1 (driver_data.issue op).2
  else Outcome.aborted (driver_data.issue op).2

/-! ## Synchronisation and status -/

/-- The function `sunxi_cedrus_SyncSurface`. The readiness wait `select` is recorded and
its result is ignored, as in the source. The capture buffer that is re-queued is the
`buf` the dequeue filled in, so its index is the one the device answered. -/
def sunxi_cedrus_SyncSurface (driver_data : sunxi_cedrus_driver_data)
    (render_target : VAGenericID) : Outcome Unit :=
  let driver_data := (driver_data.issue DeviceOp.select).2
  match SURFACE driver_data render_target with
  | none => Outcome.aborted driver_data
  | some obj_surface =>
    let dq_in := driver_data.issue
      (DeviceOp.VIDIOC_DQBUF V4L2_BUF_TYPE_VIDEO_OUTPUT_MPLANE obj_surface.input_buf_index)
    if !dq_in.1.ok then Outcome.returned VA_STATUS_ERROR_UNKNOWN () dq_in.2
    else
      let driver_data : sunxi_cedrus_driver_data :=
        { dq_in.2 with
          surface_heap := dq_in.2.surface_heap.write render_target
            { obj_surface with status := VASurfaceReady } }
      let dq_out := driver_data.issue
        (DeviceOp.VIDIOC_DQBUF V4L2_BUF_TYPE_VIDEO_CAPTURE_MPLANE obj_surface.output_buf_index)
      if !dq_out.1.ok then Outcome.returned VA_STATUS_ERROR_UNKNOWN () dq_out.2
      else
        let q_out := dq_out.2.issue
          (DeviceOp.VIDIOC_QBUF V4L2_BUF_TYPE_VIDEO_CAPTURE_MPLANE dq_out.1.index 0)
        if !q_out.1.ok then Outcome.returned VA_STATUS_ERROR_UNKNOWN () q_out.2
        else Outcome.returned VA_STATUS_SUCCESS () q_out.2

/-- The function `sunxi_cedrus_QuerySurfaceStatus`; the output is the value stored to
`*status`. -/
def sunxi_cedrus_QuerySurfaceStatus (driver_data : sunxi_cedrus_driver_data)
    (render_target : VAGenericID) : Outcome VASurfaceStatus :=
  match SURFACE driver_data render_target with
  | none => Outcome.aborted driver_data
  | some obj_surface => Outcome.returned VA_STATUS_SUCCESS obj_surface.status driver_data

/-! ## Begin picture -/

/-- The assignments of `sunxi_cedrus_BeginPicture` after its optional synchronisation,
through the pointers `obj_context` and `obj_surface` obtained at its start. The counter
`num_rendered_surfaces` is a 32-bit unsigned integer, so its increment wraps at `2^32`. A zero `num_dst_bufs` makes the modulo trap,
after the three stores before it. -/
def sunxi_cedrus_BeginPicture.assign (driver_data : sunxi_cedrus_driver_data)
    (context render_target : VAGenericID) : Outcome Unit :=
  match CONTEXT driver_data context, SURFACE driver_data render_target with
  | some obj_context, some obj_surface =>
    let obj_surface : object_surface :=
      { obj_surface with
        status := VASurfaceRendering
        request := obj_context.num_rendered_surfaces % INPUT_BUFFERS_NUMBER + 1
        input_buf_index := obj_context.num_rendered_surfaces % INPUT_BUFFERS_NUMBER }
    if driver_data.num_dst_bufs = 0 then
      Outcome.aborted
        { driver_data with
          surface_heap := driver_data.surface_heap.write render_target obj_surface }
    else
      let obj_surface : object_surface :=
        { obj_surface with
          output_buf_index := obj_context.num_rendered_surfaces % driver_data.num_dst_bufs }
      let obj_context : object_context :=
        { obj_context with
          num_rendered_surfaces := (obj_context.num_rendered_surfaces + 1) % 2 ^ 32
          current_render_target := render_target }
      Outcome.returned VA_STATUS_SUCCESS ()
        { driver_data with
          surface_heap := driver_data.surface_heap.write render_target obj_surface
          context_heap := driver_data.context_heap.write context obj_context }
  | _, _ => Outcome.aborted driver_data

/-- The function `sunxi_cedrus_BeginPicture`. The status that `sunxi_cedrus_SyncSurface`
returns is dropped, as in the source; `obj_surface->base.id` is the id `render_target`
that resolved to the surface. -/
def sunxi_cedrus_BeginPicture (driver_data : sunxi_cedrus_driver_data)
    (context render_target : VAGenericID) : Outcome Unit :=
  match CONTEXT driver_data context with
  | none => Outcome.aborted driver_data
  | some _ =>
    match SURFACE driver_data render_target with
    | none => Outcome.aborted driver_data
    | some obj_surface =>
      if obj_surface.status = VASurfaceRendering then
        match sunxi_cedrus_SyncSurface driver_data render_target with
        | Outcome.returned _ _ driver_data =>
          sunxi_cedrus_BeginPicture.assign driver_data context render_target
        | Outcome.aborted driver_data => Outcome.aborted driver_data
        | Outcome.diverged => Outcome.diverged
      else sunxi_cedrus_BeginPicture.assign driver_data context render_target

/-! ## Render picture -/

/-- The function `sunxi_cedrus_render_mpeg2_slice_data`, on the context `context` that
`obj_context` points to. Reading a `NULL` `buffer_data` traps. -/
def sunxi_cedrus_render_mpeg2_slice_data (driver_data : sunxi_cedrus_driver_data)
    (context : VAGenericID) (obj_surface : object_surface) (obj_buffer : object_buffer) :
    Outcome Unit :=
  driver_data.assert_issue
    (DeviceOp.VIDIOC_QUERYBUF V4L2_BUF_TYPE_VIDEO_OUTPUT_MPLANE obj_surface.input_buf_index)
    fun _ driver_data =>
  driver_data.assert_issue
    (DeviceOp.mmap V4L2_BUF_TYPE_VIDEO_OUTPUT_MPLANE obj_surface.input_buf_index 0)
    fun _ driver_data =>
  match obj_buffer.buffer_data, CONTEXT driver_data context with
  | some buffer_data, some obj_context =>
    let driver_data := (driver_data.issue
      (DeviceOp.memcpy V4L2_BUF_TYPE_VIDEO_OUTPUT_MPLANE obj_surface.input_buf_index
        (buffer_data.bytes.take obj_buffer.size))).2
    let mpeg2_frame_hdr : v4l2_ctrl_mpeg2_frame_hdr :=
      { obj_context.mpeg2_frame_hdr with
        slice_pos := 0
        slice_len := obj_buffer.size
        type := mpeg_type.MPEG2 }
    let driver_data : sunxi_cedrus_driver_data :=
      { driver_data with
        context_heap := driver_data.context_heap.write context
          { obj_context with mpeg2_frame_hdr := mpeg2_frame_hdr } }
    driver_data.assert_issue
      (DeviceOp.VIDIOC_S_EXT_CTRLS
        (v4l2_ext_control.V4L2_CID_MPEG_VIDEO_MPEG2_FRAME_HDR mpeg2_frame_hdr)
        obj_surface.request)
      fun _ driver_data =>
    driver_data.assert_issue
      (DeviceOp.VIDIOC_QBUF V4L2_BUF_TYPE_VIDEO_OUTPUT_MPLANE obj_surface.input_buf_index
        obj_surface.request)
      fun _ driver_data =>
    Outcome.returned VA_STATUS_SUCCESS () driver_data
  | _, _ => Outcome.aborted driver_data

/-- The function `sunxi_cedrus_render_mpeg2_picture_parameter`. -/
def sunxi_cedrus_render_mpeg2_picture_parameter (driver_data : sunxi_cedrus_driver_data)
    (context : VAGenericID) (obj_surface : object_surface) (obj_buffer : object_buffer) :
    Outcome Unit :=
  match obj_buffer.buffer_data, CONTEXT driver_data context with
  | some buffer_data, some obj_context =>
    let pic_param := buffer_data.mpeg2_picture_parameter
    let mpeg2_frame_hdr : v4l2_ctrl_mpeg2_frame_hdr :=
      { obj_context.mpeg2_frame_hdr with
        width := pic_param.horizontal_size
        height := pic_param.vertical_size
        picture_coding_type := pic_param.picture_coding_type
        f_code_0_0 := (pic_param.f_code >>> 12) &&& 0xf
        f_code_0_1 := (pic_param.f_code >>> 8) &&& 0xf
        f_code_1_0 := (pic_param.f_code >>> 4) &&& 0xf
        f_code_1_1 := pic_param.f_code &&& 0xf
        intra_dc_precision := pic_param.picture_coding_extension.intra_dc_precision
        picture_structure := pic_param.picture_coding_extension.picture_structure
        top_field_first := pic_param.picture_coding_extension.top_field_first
        frame_pred_frame_dct := pic_param.picture_coding_extension.frame_pred_frame_dct
        concealment_motion_vectors :=
          pic_param.picture_coding_extension.concealment_motion_vectors
        q_scale_type := pic_param.picture_coding_extension.q_scale_type
        intra_vlc_format := pic_param.picture_coding_extension.intra_vlc_format
        alternate_scan := pic_param.picture_coding_extension.alternate_scan
        forward_index :=
          match SURFACE driver_data pic_param.forward_reference_picture with
          | some fwd_surface => fwd_surface.output_buf_index
          | none => obj_surface.output_buf_index
        backward_index :=
          match SURFACE driver_data pic_param.backward_reference_picture with
          | some bwd_surface => bwd_surface.output_buf_index
          | none => obj_surface.output_buf_index }
    Outcome.returned VA_STATUS_SUCCESS ()
      { driver_data with
        context_heap := driver_data.context_heap.write context
          { obj_context with mpeg2_frame_hdr := mpeg2_frame_hdr } }
  | _, _ => Outcome.aborted driver_data

/-- The function `sunxi_cedrus_render_mpeg4_slice_data`. -/
def sunxi_cedrus_render_mpeg4_slice_data (driver_data : sunxi_cedrus_driver_data)
    (context : VAGenericID) (obj_surface : object_surface) (obj_buffer : object_buffer) :
    Outcome Unit :=
  driver_data.assert_issue
    (DeviceOp.VIDIOC_QUERYBUF V4L2_BUF_TYPE_VIDEO_OUTPUT_MPLANE obj_surface.input_buf_index)
    fun _ driver_data =>
  driver_data.assert_issue
    (DeviceOp.mmap V4L2_BUF_TYPE_VIDEO_OUTPUT_MPLANE obj_surface.input_buf_index 0)
    fun _ driver_data =>
  match obj_buffer.buffer_data, CONTEXT driver_data context with
  | some buffer_data, some obj_context =>
    let driver_data := (driver_data.issue
      (DeviceOp.memcpy V4L2_BUF_TYPE_VIDEO_OUTPUT_MPLANE obj_surface.input_buf_index
        (buffer_data.bytes.take obj_buffer.size))).2
    driver_data.assert_issue
      (DeviceOp.VIDIOC_S_EXT_CTRLS
        (v4l2_ext_control.V4L2_CID_MPEG_VIDEO_MPEG4_FRAME_HDR obj_context.mpeg4_frame_hdr)
        obj_surface.request)
      fun _ driver_data =>
    driver_data.assert_issue
      (DeviceOp.VIDIOC_QBUF V4L2_BUF_TYPE_VIDEO_OUTPUT_MPLANE obj_surface.input_buf_index
        obj_surface.request)
      fun _ driver_data =>
    Outcome.returned VA_STATUS_SUCCESS () driver_data
  | _, _ => Outcome.aborted driver_data

/-- The function `sunxi_cedrus_render_mpeg4_picture_parameter`. -/
def sunxi_cedrus_render_mpeg4_picture_parameter (driver_data : sunxi_cedrus_driver_data)
    (context : VAGenericID) (obj_surface : object_surface) (obj_buffer : object_buffer) :
    Outcome Unit :=
  match obj_buffer.buffer_data, CONTEXT driver_data context with
  | some buffer_data, some obj_context =>
    let pic_param := buffer_data.mpeg4_picture_parameter
    let mpeg4_frame_hdr : v4l2_ctrl_mpeg4_frame_hdr :=
      { obj_context.mpeg4_frame_hdr with
        width := pic_param.vop_width
        height := pic_param.vop_height
        vol_fields :=
          { short_video_header := pic_param.vol_fields.short_video_header
            chroma_format := pic_param.vol_fields.chroma_format
            interlaced := pic_param.vol_fields.interlaced
            obmc_disable := pic_param.vol_fields.obmc_disable
            sprite_enable := pic_param.vol_fields.sprite_enable
            sprite_warping_accuracy := pic_param.vol_fields.sprite_warping_accuracy
            quant_type := pic_param.vol_fields.quant_type
            quarter_sample := pic_param.vol_fields.quarter_sample
            data_partitioned := pic_param.vol_fields.data_partitioned
            reversible_vlc := pic_param.vol_fields.reversible_vlc
            resync_marker_disable := pic_param.vol_fields.resync_marker_disable }
        quant_precision := pic_param.quant_precision
        vop_fields :=
          { vop_coding_type := pic_param.vop_fields.vop_coding_type
            backward_reference_vop_coding_type :=
              pic_param.vop_fields.backward_reference_vop_coding_type
            vop_rounding_type := pic_param.vop_fields.vop_rounding_type
            intra_dc_vlc_thr := pic_param.vop_fields.intra_dc_vlc_thr
            top_field_first := pic_param.vop_fields.top_field_first
            alternate_vertical_scan_flag := pic_param.vop_fields.alternate_vertical_scan_flag }
        vop_fcode_forward := pic_param.vop_fcode_forward
        vop_fcode_backward := pic_param.vop_fcode_backward
        trb := pic_param.TRB
        trd := pic_param.TRD
        forward_index :=
          match SURFACE driver_data pic_param.forward_reference_picture with
          | some fwd_surface => fwd_surface.output_buf_index
          | none => obj_surface.output_buf_index
        backward_index :=
          match SURFACE driver_data pic_param.backward_reference_picture with
          | some bwd_surface => bwd_surface.output_buf_index
          | none => obj_surface.output_buf_index }
    Outcome.returned VA_STATUS_SUCCESS ()
      { driver_data with
        context_heap := driver_data.context_heap.write context
          { obj_context with mpeg4_frame_hdr := mpeg4_frame_hdr } }
  | _, _ => Outcome.aborted driver_data

/-- The function `sunxi_cedrus_render_mpeg4_slice_parameter`. -/
def sunxi_cedrus_render_mpeg4_slice_parameter (driver_data : sunxi_cedrus_driver_data)
    (context : VAGenericID) (_obj_surface : object_surface) (obj_buffer : object_buffer) :
    Outcome Unit :=
  match obj_buffer.buffer_data, CONTEXT driver_data context with
  | some buffer_data, some obj_context =>
    let slice_param := buffer_data.mpeg4_slice_parameter
    Outcome.returned VA_STATUS_SUCCESS ()
      { driver_data with
        context_heap := driver_data.context_heap.write context
          { obj_context with
            mpeg4_frame_hdr :=
              { obj_context.mpeg4_frame_hdr with
                slice_pos := slice_param.slice_data_offset
                slice_len := slice_param.slice_data_size } } }
  | _, _ => Outcome.aborted driver_data

/-- The function `sunxi_cedrus_render_h264_slice_data`. -/
def sunxi_cedrus_render_h264_slice_data (driver_data : sunxi_cedrus_driver_data)
    (_context : VAGenericID) (_obj_surface : object_surface) (_obj_buffer : object_buffer) :
    Outcome Unit :=
  Outcome.returned VA_STATUS_SUCCESS () driver_data

/-- The function `sunxi_cedrus_render_h264_picture_parameter`. -/
def sunxi_cedrus_render_h264_picture_parameter (driver_data : sunxi_cedrus_driver_data)
    (_context : VAGenericID) (_obj_surface : object_surface) (_obj_buffer : object_buffer) :
    Outcome Unit :=
  Outcome.returned VA_STATUS_SUCCESS () driver_data

/-- The `switch` in the loop of `sunxi_cedrus_RenderPicture`: the handler for one buffer,
chosen by the profile of the configuration and the type of the buffer. A buffer without a
handler leaves `vaStatus` as it is. -/
def sunxi_cedrus_RenderPicture.dispatch (driver_data : sunxi_cedrus_driver_data)
    (vaStatus : VAStatus) (profile : VAProfile) (context : VAGenericID)
    (obj_surface : object_surface) (obj_buffer : object_buffer) : Outcome Unit :=
  if profile = VAProfileMPEG2Simple ∨ profile = VAProfileMPEG2Main then
    if obj_buffer.type = VASliceDataBufferType then
      sunxi_cedrus_render_mpeg2_slice_data driver_data context obj_surface obj_buffer
    else if obj_buffer.type = VAPictureParameterBufferType then
      sunxi_cedrus_render_mpeg2_picture_parameter driver_data context obj_surface obj_buffer
    else Outcome.returned vaStatus () driver_data
  else if profile = VAProfileMPEG4Simple ∨ profile = VAProfileMPEG4AdvancedSimple
      ∨ profile = VAProfileMPEG4Main then
    if obj_buffer.type = VASliceDataBufferType then
      sunxi_cedrus_render_mpeg4_slice_data driver_data context obj_surface obj_buffer
    else if obj_buffer.type = VAPictureParameterBufferType then
      sunxi_cedrus_render_mpeg4_picture_parameter driver_data context obj_surface obj_buffer
    else if obj_buffer.type = VASliceParameterBufferType then
      sunxi_cedrus_render_mpeg4_slice_parameter driver_data context obj_surface obj_buffer
    else Outcome.returned vaStatus () driver_data
  else if profile = VAProfileH264Baseline ∨ profile = VAProfileH264Main
      ∨ profile = VAProfileH264High then
    if obj_buffer.type = VASliceDataBufferType then
      sunxi_cedrus_render_h264_slice_data driver_data context obj_surface obj_buffer
    else if obj_buffer.type = VAPictureParameterBufferType then
      sunxi_cedrus_render_h264_picture_parameter driver_data context obj_surface obj_buffer
    else Outcome.returned vaStatus () driver_data
  else Outcome.returned vaStatus () driver_data

/-- The loop of `sunxi_cedrus_RenderPicture` over the caller's buffer ids; a buffer id
that does not resolve fails the `assert`. -/
def sunxi_cedrus_RenderPicture.loop (profile : VAProfile) (context : VAGenericID)
    (obj_surface : object_surface) :
    sunxi_cedrus_driver_data → VAStatus → List VAGenericID → Outcome Unit
  | driver_data, vaStatus, [] => Outcome.returned vaStatus () driver_data
  | driver_data, vaStatus, buffer :: buffers =>
    match BUFFER driver_data buffer with
    | none => Outcome.aborted driver_data
    | some obj_buffer =>
      match sunxi_cedrus_RenderPicture.dispatch driver_data vaStatus profile context
          obj_surface obj_buffer with
      | Outcome.returned vaStatus _ driver_data =>
        sunxi_cedrus_RenderPicture.loop profile context obj_surface driver_data vaStatus buffers
      | Outcome.aborted driver_data => Outcome.aborted driver_data
      | Outcome.diverged => Outcome.diverged

/-- The function `sunxi_cedrus_RenderPicture`; the caller's buffer array is the list
`buffers`. -/
def sunxi_cedrus_RenderPicture (driver_data : sunxi_cedrus_driver_data)
    (context : VAGenericID) (buffers : List VAGenericID) : Outcome Unit :=
  match CONTEXT driver_data context with
  | none => Outcome.aborted driver_data
  | some obj_context =>
    match CONFIG driver_data obj_context.config_id with
    | none => Outcome.returned VA_STATUS_ERROR_INVALID_CONFIG () driver_data
    | some obj_config =>
      match SURFACE driver_data obj_context.current_render_target with
      | none => Outcome.aborted driver_data
      | some obj_surface =>
        sunxi_cedrus_RenderPicture.loop obj_config.profile context obj_surface driver_data
          VA_STATUS_SUCCESS buffers

/-! ## End picture -/

/-- The function `sunxi_cedrus_EndPicture`. -/
def sunxi_cedrus_EndPicture (driver_data : sunxi_cedrus_driver_data) (context : VAGenericID) :
    Outcome Unit :=
  match CONTEXT driver_data context with
  | none => Outcome.aborted driver_data
  | some obj_context =>
    match SURFACE driver_data obj_context.current_render_target with
    | none => Outcome.aborted driver_data
    | some _ =>
      let driver_data : sunxi_cedrus_driver_data :=
        { driver_data with
          context_heap := driver_data.context_heap.write context
            { obj_context with current_render_target := -1 } }
      driver_data.assert_issue (DeviceOp.VIDIOC_STREAMON V4L2_BUF_TYPE_VIDEO_OUTPUT_MPLANE)
        fun _ driver_data =>
      driver_data.assert_issue (DeviceOp.VIDIOC_STREAMON V4L2_BUF_TYPE_VIDEO_CAPTURE_MPLANE)
        fun _ driver_data =>
      Outcome.returned VA_STATUS_SUCCESS () driver_data

/-! ## Vocabulary of the properties -/

/-- The profile and entrypoint pairs that the specification calls legal: MPEG-2
(Simple, Main) with VLD or MoComp, and MPEG-4 (Simple, AdvancedSimple, Main) or H.264
(Baseline, Main, High) with VLD. -/
def legal_pair (profile : VAProfile) (entrypoint : VAEntrypoint) : Prop :=
  ((profile = VAProfileMPEG2Simple ∨ profile = VAProfileMPEG2Main) ∧
      (entrypoint = VAEntrypointVLD ∨ entrypoint = VAEntrypointMoComp)) ∨
  ((profile = VAProfileMPEG4Simple ∨ profile = VAProfileMPEG4AdvancedSimple ∨
      profile = VAProfileMPEG4Main ∨ profile = VAProfileH264Baseline ∨
      profile = VAProfileH264Main ∨ profile = VAProfileH264High) ∧
    entrypoint = VAEntrypointVLD)

instance (profile : VAProfile) (entrypoint : VAEntrypoint) :
    Decidable (legal_pair profile entrypoint) := by
  unfold legal_pair; infer_instance

/-- The eight profiles the driver knows. -/
def known_profile (profile : VAProfile) : Prop :=
  profile = VAProfileMPEG2Simple ∨ profile = VAProfileMPEG2Main ∨
  profile = VAProfileMPEG4Simple ∨ profile = VAProfileMPEG4AdvancedSimple ∨
  profile = VAProfileMPEG4Main ∨ profile = VAProfileH264Baseline ∨
  profile = VAProfileH264Main ∨ profile = VAProfileH264High

instance (profile : VAProfile) : Decidable (known_profile profile) := by
  unfold known_profile; infer_instance

/-- Modelled from the spec: a heap right after `object_heap_init`, with no live object. -/
def object_heap_init (id_offset capacity : Nat) (blank : α) : object_heap α :=
  { id_offset := id_offset, capacity := capacity, blank := blank, slots := [] }

/-- A device that has seen no operation and answers success to every operation; a dequeue
returns the buffer asked for and a buffer creation grants the count asked for. -/
def Device.willing : Device :=
  { trace := []
    respond := fun _ op =>
      match op with
      | DeviceOp.VIDIOC_DQBUF _ index => { ok := true, index := index, count := 0 }
      | DeviceOp.VIDIOC_CREATE_BUFS _ count => { ok := true, index := 0, count := count }
      | _ => { ok := true, index := 0, count := 0 } }

/-- The driver state that the heap initialisations of `VA_DRIVER_INIT_FUNC` leave, with
room for 16 objects of each kind, on a willing device. -/
def fresh_driver_data : sunxi_cedrus_driver_data :=
  { config_heap := object_heap_init CONFIG_ID_OFFSET 16
      { profile := 0, entrypoint := 0, attrib_list := fun _ => default, attrib_count := 0 }
    context_heap := object_heap_init CONTEXT_ID_OFFSET 16 default
    surface_heap := object_heap_init SURFACE_ID_OFFSET 16 default
    buffer_heap := object_heap_init BUFFER_ID_OFFSET 16 default
    image_heap := object_heap_init IMAGE_ID_OFFSET 16 default
    num_dst_bufs := 0
    mem2mem_fd := Device.willing }


/-- The state in which a call ended has the property `P`: the state it returned in, or
the state in which it stopped. -/
def Outcome.ends_in {β : Type} (o : Outcome β) (P : sunxi_cedrus_driver_data → Prop) : Prop :=
  match o with
  | Outcome.returned _ _ driver_data => P driver_data
  | Outcome.aborted driver_data => P driver_data
  | Outcome.diverged => True

/-- The surfaces and the submission counters of `after` are those of `before`: the surface
heap and `num_dst_bufs` are the same, and every context id resolves in both or in neither,
with the same `num_rendered_surfaces`. -/
def keeps_surfaces (before after : sunxi_cedrus_driver_data) : Prop :=
  after.surface_heap = before.surface_heap ∧ after.num_dst_bufs = before.num_dst_bufs ∧
  ∀ context, (CONTEXT after context).map object_context.num_rendered_surfaces =
    (CONTEXT before context).map object_context.num_rendered_surfaces

/-- The device answers success to every operation. -/
def Device.all_ok (dev : Device) : Prop :=
  ∀ trace op, (dev.respond trace op).ok = true

/-- Successive `sunxi_cedrus_BeginPicture` calls on one context, one for each render
target of the list, with no other call in between: the target surfaces as each call left
its own, in call order, and the final driver state; `none` when a call does not return. -/
def begin_pictures (context : VAGenericID) :
    sunxi_cedrus_driver_data → List VAGenericID →
      Option (List object_surface × sunxi_cedrus_driver_data)
  | driver_data, [] => some ([], driver_data)
  | driver_data, render_target :: render_targets =>
    match sunxi_cedrus_BeginPicture driver_data context render_target with
    | Outcome.returned _ _ driver_data =>
      match SURFACE driver_data render_target, begin_pictures context driver_data render_targets with
      | some obj_surface, some (assigned, final) => some (obj_surface :: assigned, final)
      | _, _ => none
    | _ => none

/-- One call of the picture pipeline on a context. -/
inductive PictureCall where
  | begin_picture (render_target : VAGenericID)
  | render_picture (buffers : List VAGenericID)
  | end_picture
  | sync_surface (render_target : VAGenericID)

/-- The driver entry point that a pipeline call on `context` invokes. -/
def PictureCall.invoke (driver_data : sunxi_cedrus_driver_data) (context : VAGenericID) :
    PictureCall → Outcome Unit
  | PictureCall.begin_picture render_target =>
    sunxi_cedrus_BeginPicture driver_data context render_target
  | PictureCall.render_picture buffers => sunxi_cedrus_RenderPicture driver_data context buffers
  | PictureCall.end_picture => sunxi_cedrus_EndPicture driver_data context
  | PictureCall.sync_surface render_target => sunxi_cedrus_SyncSurface driver_data render_target

/-- The driver state after a sequence of pipeline calls on `context`, each of which
returned (with whatever status); `none` when one of them does not return. -/
def run_calls (context : VAGenericID) :
    sunxi_cedrus_driver_data → List PictureCall → Option sunxi_cedrus_driver_data
  | driver_data, [] => some driver_data
  | driver_data, call :: calls =>
    match call.invoke driver_data context with
    | Outcome.returned _ _ driver_data => run_calls context driver_data calls
    | _ => none

/-- No surface is being rendered, as after `sunxi_cedrus_CreateSurfaces`, which leaves
every surface it creates with status `VASurfaceReady`. -/
def no_surface_rendering (driver_data : sunxi_cedrus_driver_data) : Prop :=
  ∀ id obj_surface, SURFACE driver_data id = some obj_surface →
    obj_surface.status ≠ VASurfaceRendering

/-- At most one decode in flight per input slot: no two distinct surfaces with status
`VASurfaceRendering` hold the same `input_buf_index`. -/
def one_in_flight_per_input_slot (driver_data : sunxi_cedrus_driver_data) : Prop :=
  ∀ id1 id2 surface1 surface2, SURFACE driver_data id1 = some surface1 →
    SURFACE driver_data id2 = some surface2 → id1 ≠ id2 →
    surface1.status = VASurfaceRendering → surface2.status = VASurfaceRendering →
    surface1.input_buf_index ≠ surface2.input_buf_index

/-- The submission counter of a context, `num_rendered_surfaces`, if the context resolves. -/
def submission_count (driver_data : sunxi_cedrus_driver_data) (context : VAGenericID) :
    Option Nat :=
  (CONTEXT driver_data context).map object_context.num_rendered_surfaces

/-- The surface with device buffer `i` as `sunxi_cedrus_CreateSurfaces` leaves it, at
1920x1080. -/
def session_surface (i : Nat) : object_surface :=
  { surface_id := ((SURFACE_ID_OFFSET + i : Nat) : Int)
    status := VASurfaceReady
    width := 1920
    height := 1080
    input_buf_index := 0
    output_buf_index := 0
    request := 0 }

/-- The id of the `i`-th surface of the example session. -/
def session_surface_id (i : Nat) : VAGenericID := ((SURFACE_ID_OFFSET + i : Nat) : Int)

/-- The id of the context of the example session. -/
def session_context_id : VAGenericID := (CONTEXT_ID_OFFSET : Int)

/-- An example session ready to decode: one MPEG-2 configuration, six surfaces as freshly
created for six capture buffers, and one freshly created context on them, on a willing
device. -/
def session_driver_data : sunxi_cedrus_driver_data :=
  { fresh_driver_data with
    config_heap :=
      { fresh_driver_data.config_heap with
        slots := [some
          { profile := VAProfileMPEG2Main
            entrypoint := VAEntrypointVLD
            attrib_list := fun _ =>
              { type := VAConfigAttribRTFormat, value := VA_RT_FORMAT_YUV420 }
            attrib_count := 1 }] }
    context_heap :=
      { fresh_driver_data.context_heap with
        slots := [some
          { context_id := session_context_id
            config_id := (CONFIG_ID_OFFSET : Int)
            current_render_target := -1
            picture_width := 1920
            picture_height := 1080
            num_render_targets := 6
            flags := 0
            render_targets := some ((List.range 6).map session_surface_id)
            num_rendered_surfaces := 0
            mpeg2_frame_hdr := default
            mpeg4_frame_hdr := default }] }
    surface_heap :=
      { fresh_driver_data.surface_heap with
        slots := (List.range 6).map fun i => some (session_surface i) }
    num_dst_bufs := 6 }

/-- The example session after a first `sunxi_cedrus_BeginPicture` on its surface 0. -/
def session_rendering : sunxi_cedrus_driver_data :=
  match sunxi_cedrus_BeginPicture session_driver_data session_context_id
      (session_surface_id 0) with
  | Outcome.returned _ _ driver_data => driver_data
  | _ => session_driver_data

/-- The invariant behind the input-slot ring, for a context whose counter was `start` when
no surface was being rendered and which has begun `begun` pictures since: the counter is
`start + begun` modulo 4 (also after the 32-bit counter has wrapped, as 4 divides `2^32`),
every surface being rendered holds the input slot `(start + i) mod 4` of one of these
pictures, `i < begun`, and while at most four pictures were begun, no two surfaces being
rendered share an input slot. -/
def ring_invariant (start begun : Nat) (context : VAGenericID)
    (driver_data : sunxi_cedrus_driver_data) : Prop :=
  (∀ n, submission_count driver_data context = some n →
    n % INPUT_BUFFERS_NUMBER = (start + begun) % INPUT_BUFFERS_NUMBER) ∧
  (∀ id obj_surface, SURFACE driver_data id = some obj_surface →
    obj_surface.status = VASurfaceRendering →
    ∃ i, i < begun ∧ obj_surface.input_buf_index = (start + i) % INPUT_BUFFERS_NUMBER) ∧
  (begun ≤ INPUT_BUFFERS_NUMBER → one_in_flight_per_input_slot driver_data)

/-- A call that begins a picture. -/
def PictureCall.is_begin_picture : PictureCall → Bool
  | PictureCall.begin_picture _ => true
  | _ => false

/-- The input slot that the next `sunxi_cedrus_BeginPicture` on `context` assigns, the
counter of the context modulo 4, is free for `render_target`: no other surface that is being
rendered holds it. -/
def input_slot_free (driver_data : sunxi_cedrus_driver_data)
    (context render_target : VAGenericID) : Prop :=
  ∀ n id obj_surface, submission_count driver_data context = some n → id ≠ render_target →
    SURFACE driver_data id = some obj_surface → obj_surface.status = VASurfaceRendering →
    obj_surface.input_buf_index ≠ n % INPUT_BUFFERS_NUMBER

/-- A sequence of pipeline calls on `context` from `driver_data` in which every picture is
begun when its input slot is free: the caller has synchronised the surface that held the
slot before. -/
def slots_respected (context : VAGenericID) :
    sunxi_cedrus_driver_data → List PictureCall → Prop
  | _, [] => True
  | driver_data, call :: calls =>
    (match call with
      | PictureCall.begin_picture render_target =>
        input_slot_free driver_data context render_target
      | _ => True) ∧
    match call.invoke driver_data context with
    | Outcome.returned _ _ driver_data => slots_respected context driver_data calls
    | _ => True

/-- A check of `input_slot_free` that runs over the slots of the surface heap. -/
def input_slot_free_check (driver_data : sunxi_cedrus_driver_data)
    (context render_target : VAGenericID) : Bool :=
  match submission_count driver_data context with
  | none => true
  | some n =>
    (List.range driver_data.surface_heap.slots.length).all fun i =>
      match driver_data.surface_heap.slots[i]? with
      | some (some obj_surface) =>
        decide (driver_data.surface_heap.id_of i = render_target) ||
          (decide (obj_surface.status ≠ VASurfaceRendering) ||
            decide (obj_surface.input_buf_index ≠ n % INPUT_BUFFERS_NUMBER))
      | _ => true

/-- A check of `slots_respected` that runs the calls. -/
def slots_respected_check (context : VAGenericID) :
    sunxi_cedrus_driver_data → List PictureCall → Bool
  | _, [] => true
  | driver_data, call :: calls =>
    (match call with
      | PictureCall.begin_picture render_target =>
        input_slot_free_check driver_data context render_target
      | _ => true) &&
    match call.invoke driver_data context with
    | Outcome.returned _ _ driver_data => slots_respected_check context driver_data calls
    | _ => true

/-- The example session with the counter of its context at `2^32 - 1`, the last value
before the counter wraps. -/
def session_wrapping : sunxi_cedrus_driver_data :=
  match CONTEXT session_driver_data session_context_id with
  | some obj_context =>
    { session_driver_data with
      context_heap := session_driver_data.context_heap.write session_context_id
        { obj_context with num_rendered_surfaces := 4294967295 } }
  | none => session_driver_data

/-- Five pictures on the example session, the fifth begun after the surface of the first,
which held input slot 0, has been synchronised. -/
def session_pipelined_calls : List PictureCall :=
  [PictureCall.begin_picture (session_surface_id 0),
    PictureCall.end_picture,
    PictureCall.begin_picture (session_surface_id 1),
    PictureCall.begin_picture (session_surface_id 2),
    PictureCall.begin_picture (session_surface_id 3),
    PictureCall.sync_surface (session_surface_id 0),
    PictureCall.begin_picture (session_surface_id 4)]

/-! ## Surfaces and contexts -/

/-- The marker `VA_INVALID_SURFACE` (`VA_INVALID_ID`, from `va/va.h`). -/
abbrev VA_INVALID_SURFACE : VAGenericID := 0xffffffff

/-- The number of allocations a heap can still serve: its free slots and the slots its
storage can still grow by. -/
def object_heap.room (heap : object_heap α) : Nat :=
  heap.slots.countP Option.isNone + (heap.capacity - heap.slots.length)

/-- The loop of `sunxi_cedrus_CreateSurfaces` over the device buffers, entered at buffer
`i` with `remaining` buffers to go (`create_bufs.count - i`); `index` is
`create_bufs.index` and `surfaces` the caller's id array. It stops with
`ALLOCATION_FAILED` at the first surface that cannot be allocated. The output is the value
of `i` at which the loop ended and the caller's array. A store outside the caller's array
traps. The pointers stored to `luma_bufs` and `chroma_bufs` are not represented. -/
def sunxi_cedrus_CreateSurfaces.loop (width height : Int) (index : Nat) :
    Nat → Nat → sunxi_cedrus_driver_data → List VAGenericID →
      Outcome (Nat × List VAGenericID)
  | 0, i, driver_data, surfaces => Outcome.returned VA_STATUS_SUCCESS (i, surfaces) driver_data
  | remaining + 1, i, driver_data, surfaces =>
    let alloc := object_heap_allocate driver_data.surface_heap
    let driver_data : sunxi_cedrus_driver_data := { driver_data with surface_heap := alloc.2 }
    match alloc.1, alloc.2.lookup_allocated alloc.1 with
    | some surfaceID, some obj_surface =>
      let obj_surface : object_surface := { obj_surface with surface_id := surfaceID }
      let driver_data : sunxi_cedrus_driver_data :=
        { driver_data with
          surface_heap := driver_data.surface_heap.write surfaceID obj_surface }
      if i < surfaces.length then
        let surfaces := surfaces.set i surfaceID
        driver_data.assert_issue
          (DeviceOp.VIDIOC_QUERYBUF V4L2_BUF_TYPE_VIDEO_CAPTURE_MPLANE (index + i))
          fun _ driver_data =>
        driver_data.assert_issue
          (DeviceOp.mmap V4L2_BUF_TYPE_VIDEO_CAPTURE_MPLANE (index + i) 0)
          fun _ driver_data =>
        driver_data.assert_issue
          (DeviceOp.mmap V4L2_BUF_TYPE_VIDEO_CAPTURE_MPLANE (index + i) 1)
          fun _ driver_data =>
        let obj_surface : object_surface :=
          { obj_surface with
            input_buf_index := 0
            output_buf_index := 0
            width := width
            height := height
            status := VASurfaceReady }
        let driver_data : sunxi_cedrus_driver_data :=
          { driver_data with
            surface_heap := driver_data.surface_heap.write surfaceID obj_surface }
        driver_data.assert_issue
          (DeviceOp.VIDIOC_QBUF V4L2_BUF_TYPE_VIDEO_CAPTURE_MPLANE (index + i) 0)
          fun _ driver_data =>
        sunxi_cedrus_CreateSurfaces.loop width height index remaining (i + 1) driver_data
          surfaces
      else Outcome.aborted driver_data
    | _, _ =>
      Outcome.returned VA_STATUS_ERROR_ALLOCATION_FAILED (i, surfaces) driver_data

/-- The error recovery loop `for(; i--;)` of `sunxi_cedrus_CreateSurfaces`, entered with
`i`; the output is the caller's array. A read outside the caller's array traps. -/
def sunxi_cedrus_CreateSurfaces.recover :
    Nat → sunxi_cedrus_driver_data → List VAGenericID → Outcome (List VAGenericID)
  | 0, driver_data, surfaces => Outcome.returned VA_STATUS_SUCCESS surfaces driver_data
  | i + 1, driver_data, surfaces =>
    match surfaces[i]? with
    | none => Outcome.aborted driver_data
    | some surfaceID =>
      match SURFACE driver_data surfaceID with
      | none => Outcome.aborted driver_data
      | some _ =>
        sunxi_cedrus_CreateSurfaces.recover i
          { driver_data with
            surface_heap := object_heap_free driver_data.surface_heap surfaceID }
          (surfaces.set i VA_INVALID_SURFACE)

/-- The function `sunxi_cedrus_CreateSurfaces`; `surfaces` is the caller's id array and
the output is that array after the call. -/
def sunxi_cedrus_CreateSurfaces (driver_data : sunxi_cedrus_driver_data) (width height : Int)
    (format num_surfaces : Nat) (surfaces : List VAGenericID) : Outcome (List VAGenericID) :=
  if VA_RT_FORMAT_YUV420 ≠ format then
    Outcome.returned VA_STATUS_ERROR_UNSUPPORTED_RT_FORMAT surfaces driver_data
  else
    driver_data.assert_issue
      (DeviceOp.VIDIOC_S_FMT V4L2_BUF_TYPE_VIDEO_CAPTURE_MPLANE width height
        v4l2_pixelformat.V4L2_PIX_FMT_NV12M 0 2)
      fun _ driver_data =>
    driver_data.assert_issue (DeviceOp.VIDIOC_G_FMT V4L2_BUF_TYPE_VIDEO_CAPTURE_MPLANE)
      fun _ driver_data =>
    driver_data.assert_issue
      (DeviceOp.VIDIOC_CREATE_BUFS V4L2_BUF_TYPE_VIDEO_CAPTURE_MPLANE num_surfaces)
      fun create_bufs driver_data =>
    let driver_data : sunxi_cedrus_driver_data :=
      { driver_data with num_dst_bufs := create_bufs.count }
    match sunxi_cedrus_CreateSurfaces.loop width height create_bufs.index create_bufs.count 0
        driver_data surfaces with
    | Outcome.returned vaStatus (i, surfaces) driver_data =>
      if VA_STATUS_SUCCESS ≠ vaStatus then
        match sunxi_cedrus_CreateSurfaces.recover i driver_data surfaces with
        | Outcome.returned _ surfaces driver_data =>
          Outcome.returned vaStatus surfaces driver_data
        | Outcome.aborted driver_data => Outcome.aborted driver_data
        | Outcome.diverged => Outcome.diverged
      else Outcome.returned vaStatus surfaces driver_data
    | Outcome.aborted driver_data => Outcome.aborted driver_data
    | Outcome.diverged => Outcome.diverged

/-- The C allocator behind `malloc` and `free`, as a test double: `live` counts the blocks
handed out and not yet freed, `refuses` says that the next `malloc` returns `NULL`, and
`junk` is the content of fresh memory. -/
structure Allocator where
  live : Nat
  refuses : Bool
  junk : VAGenericID
  deriving DecidableEq, Repr

/-- The call `malloc(n * sizeof(VASurfaceID))`: `none` for `NULL`, else a fresh array of `n`
entries. -/
def Allocator.malloc (libc : Allocator) (n : Nat) : Option (List VAGenericID) × Allocator :=
  if libc.refuses then (none, libc)
  else (some (List.replicate n libc.junk), { libc with live := libc.live + 1 })

/-- The call `free(p)`; freeing `NULL` does nothing. -/
def Allocator.free (libc : Allocator) (p : Option (List VAGenericID)) : Allocator :=
  match p with
  | some _ => { libc with live := libc.live - 1 }
  | none => libc

/-- What `sunxi_cedrus_CreateContext` leaves outside the driver state: the id stored to
`*context` (`none` when nothing is stored) and the C allocator. -/
structure create_context_out where
  context : Option VAGenericID
  libc : Allocator
  deriving DecidableEq, Repr

/-- The loop of `sunxi_cedrus_CreateContext` that validates and copies the caller's render
targets, entered at index `i` with the current `vaStatus`; it stops at the first render
target that does not resolve. -/
def sunxi_cedrus_CreateContext.copy (driver_data : sunxi_cedrus_driver_data) :
    List VAGenericID → Nat → VAStatus → List VAGenericID → VAStatus × List VAGenericID
  | [], _, vaStatus, owned => (vaStatus, owned)
  | render_target :: render_targets, i, vaStatus, owned =>
    match SURFACE driver_data render_target with
    | none => (VA_STATUS_ERROR_INVALID_SURFACE, owned)
    | some _ =>
      sunxi_cedrus_CreateContext.copy driver_data render_targets (i + 1) vaStatus
        (owned.set i render_target)

/-- The second half of `sunxi_cedrus_CreateContext`, after the error recovery block: the
negotiation of the output format for the profile of the configuration and the creation of
the input buffers. It is reached with whatever `vaStatus` the first half left. -/
def sunxi_cedrus_CreateContext.negotiate (driver_data : sunxi_cedrus_driver_data)
    (vaStatus : VAStatus) (out : create_context_out) (obj_config : object_config)
    (picture_width picture_height : Int) : Outcome create_context_out :=
  let format (pixelformat : v4l2_pixelformat) : Outcome create_context_out :=
    driver_data.assert_issue
      (DeviceOp.VIDIOC_S_FMT V4L2_BUF_TYPE_VIDEO_OUTPUT_MPLANE picture_width picture_height
        pixelformat INPUT_BUFFER_MAX_SIZE 1)
      fun _ driver_data =>
    driver_data.assert_issue (DeviceOp.VIDIOC_G_FMT V4L2_BUF_TYPE_VIDEO_OUTPUT_MPLANE)
      fun _ driver_data =>
    driver_data.assert_issue
      (DeviceOp.VIDIOC_CREATE_BUFS V4L2_BUF_TYPE_VIDEO_OUTPUT_MPLANE INPUT_BUFFERS_NUMBER)
      fun _ driver_data =>
    Outcome.returned vaStatus out driver_data
  if obj_config.profile = VAProfileMPEG2Simple ∨ obj_config.profile = VAProfileMPEG2Main then
    format v4l2_pixelformat.V4L2_PIX_FMT_MPEG2_FRAME
  else if obj_config.profile = VAProfileMPEG4Simple
      ∨ obj_config.profile = VAProfileMPEG4AdvancedSimple
      ∨ obj_config.profile = VAProfileMPEG4Main then
    format v4l2_pixelformat.V4L2_PIX_FMT_MPEG4_FRAME
  else if obj_config.profile = VAProfileH264Baseline ∨ obj_config.profile = VAProfileH264Main
      ∨ obj_config.profile = VAProfileH264High then
    format v4l2_pixelformat.V4L2_PIX_FMT_H264_FRAME
  else Outcome.returned VA_STATUS_ERROR_UNSUPPORTED_PROFILE out driver_data

/-- The function `sunxi_cedrus_CreateContext`. The caller's render target array is the
list `render_targets` (`num_render_targets` is its length) and `libc` is the C allocator
before the call. -/
def sunxi_cedrus_CreateContext (driver_data : sunxi_cedrus_driver_data) (libc : Allocator)
    (config_id : VAGenericID) (picture_width picture_height flag : Int)
    (render_targets : List VAGenericID) : Outcome create_context_out :=
  match CONFIG driver_data config_id with
  | none =>
    Outcome.returned VA_STATUS_ERROR_INVALID_CONFIG { context := none, libc := libc } driver_data
  | some obj_config =>
    let alloc := object_heap_allocate driver_data.context_heap
    let driver_data : sunxi_cedrus_driver_data := { driver_data with context_heap := alloc.2 }
    match alloc.1, alloc.2.lookup_allocated alloc.1 with
    | some contextID, some obj_context =>
      let owned := libc.malloc render_targets.length
      let obj_context : object_context :=
        { obj_context with
          context_id := contextID
          current_render_target := -1
          config_id := config_id
          picture_width := picture_width
          picture_height := picture_height
          num_render_targets := (render_targets.length : Int)
          render_targets := owned.1
          num_rendered_surfaces := 0 }
      let driver_data : sunxi_cedrus_driver_data :=
        { driver_data with
          context_heap := driver_data.context_heap.write contextID obj_context }
      match owned.1 with
      | none =>
        Outcome.returned VA_STATUS_ERROR_ALLOCATION_FAILED
          { context := some contextID, libc := owned.2 } driver_data
      | some block =>
        let copied := sunxi_cedrus_CreateContext.copy driver_data render_targets 0
          VA_STATUS_SUCCESS block
        let obj_context : object_context :=
          { obj_context with render_targets := some copied.2, flags := flag }
        let driver_data : sunxi_cedrus_driver_data :=
          { driver_data with
            context_heap := driver_data.context_heap.write contextID obj_context }
        if VA_STATUS_SUCCESS ≠ copied.1 then
          let obj_context : object_context :=
            { obj_context with
              context_id := -1
              config_id := -1
              render_targets := none
              num_render_targets := 0
              flags := 0 }
          let driver_data : sunxi_cedrus_driver_data :=
            { driver_data with
              context_heap :=
                object_heap_free (driver_data.context_heap.write contextID obj_context)
                  contextID }
          sunxi_cedrus_CreateContext.negotiate driver_data copied.1
            { context := some contextID, libc := owned.2.free (some copied.2) } obj_config
            picture_width picture_height
        else
          sunxi_cedrus_CreateContext.negotiate driver_data copied.1
            { context := some contextID, libc := owned.2 } obj_config
            picture_width picture_height
    | _, _ =>
      Outcome.returned VA_STATUS_ERROR_ALLOCATION_FAILED { context := none, libc := libc }
        driver_data

/-- A device like `Device.willing` that refuses the operation issued when `n` operations
have been issued before it. -/
def Device.refusing_at (n : Nat) : Device :=
  { trace := []
    respond := fun trace op =>
      { Device.willing.respond trace op with ok := decide (trace.length ≠ n) } }

/-- The example session with surface 0 being rendered, on a device that refuses the
operation number `n` (counted from 0). -/
def session_rendering_refused (n : Nat) : sunxi_cedrus_driver_data :=
  { session_rendering with mem2mem_fd := Device.refusing_at n }

/-- A buffer type for which `sunxi_cedrus_RenderPicture` has no handler under a profile, in
the words of the specification: for MPEG-2 any type that is neither SliceData nor
PictureParameter, for MPEG-4 any type that is none of SliceData, PictureParameter and
SliceParameter, and for H.264 any type, its handlers being stubs. -/
def unhandled_buffer (profile : VAProfile) (type : VABufferType) : Prop :=
  ((profile = VAProfileMPEG2Simple ∨ profile = VAProfileMPEG2Main) ∧
    type ≠ VASliceDataBufferType ∧ type ≠ VAPictureParameterBufferType) ∨
  ((profile = VAProfileMPEG4Simple ∨ profile = VAProfileMPEG4AdvancedSimple ∨
      profile = VAProfileMPEG4Main) ∧
    type ≠ VASliceDataBufferType ∧ type ≠ VAPictureParameterBufferType ∧
    type ≠ VASliceParameterBufferType) ∨
  (profile = VAProfileH264Baseline ∨ profile = VAProfileH264Main ∨
    profile = VAProfileH264High)

instance (profile : VAProfile) (type : VABufferType) :
    Decidable (unhandled_buffer profile type) := by
  unfold unhandled_buffer; infer_instance

/-- The id of the `i`-th buffer of the example session. -/
def session_buffer_id (i : Nat) : VAGenericID := ((BUFFER_ID_OFFSET + i : Nat) : Int)

/-- The example session with three buffers, an IQ matrix, MPEG-2 picture parameters whose
forward reference is surface 1 and whose backward reference is no surface, and four bytes
of slice data, after a picture was begun on surface 1 and then one on surface 0: surface 0
is the current render target, with input slot 1, output slot 1 and request id 2, and
surface 1 has output slot 0. -/
def session_decoding : sunxi_cedrus_driver_data :=
  match run_calls session_context_id
      { session_driver_data with
        buffer_heap :=
          { session_driver_data.buffer_heap with
            slots :=
              [some
                { buffer_data := some default
                  max_num_elements := 1
                  num_elements := 1
                  size := 64
                  type := VAIQMatrixBufferType },
                some
                { buffer_data := some
                    { (default : buffer_contents) with
                      mpeg2_picture_parameter :=
                        { (default : VAPictureParameterBufferMPEG2) with
                          horizontal_size := 1920
                          vertical_size := 1080
                          forward_reference_picture := session_surface_id 1
                          backward_reference_picture := VA_INVALID_SURFACE } }
                  max_num_elements := 1
                  num_elements := 1
                  size := 40
                  type := VAPictureParameterBufferType },
                some
                { buffer_data := some
                    { (default : buffer_contents) with bytes := [0, 0, 1, 179, 7, 7] }
                  max_num_elements := 1
                  num_elements := 1
                  size := 4
                  type := VASliceDataBufferType }] } }
      [PictureCall.begin_picture (session_surface_id 1),
        PictureCall.begin_picture (session_surface_id 0)] with
  | some driver_data => driver_data
  | none => session_driver_data

/-- The device operations that the loop of `sunxi_cedrus_CreateSurfaces` issues for `n`
capture buffers from buffer `i` on, when every one of them succeeds: for each buffer the
query, the mapping of its two planes and its enqueue on the capture queue. -/
def capture_buffer_setup (index : Nat) : Nat → Nat → List DeviceOp
  | 0, _ => []
  | n + 1, i =>
    [DeviceOp.VIDIOC_QUERYBUF V4L2_BUF_TYPE_VIDEO_CAPTURE_MPLANE (index + i),
      DeviceOp.mmap V4L2_BUF_TYPE_VIDEO_CAPTURE_MPLANE (index + i) 0,
      DeviceOp.mmap V4L2_BUF_TYPE_VIDEO_CAPTURE_MPLANE (index + i) 1,
      DeviceOp.VIDIOC_QBUF V4L2_BUF_TYPE_VIDEO_CAPTURE_MPLANE (index + i) 0] ++
    capture_buffer_setup index n (i + 1)

/-- An enqueue on the capture queue. -/
def DeviceOp.is_capture_enqueue : DeviceOp → Bool
  | DeviceOp.VIDIOC_QBUF v4l2_buf_type.V4L2_BUF_TYPE_VIDEO_CAPTURE_MPLANE _ _ => true
  | _ => false

/-- The answer of the device to the buffer creation of `sunxi_cedrus_CreateSurfaces` and
the driver state in which the function enters its loop, when the three device calls before
the loop succeed. -/
def sunxi_cedrus_CreateSurfaces.entry (driver_data : sunxi_cedrus_driver_data)
    (width height : Int) (num_surfaces : Nat) : Reply × sunxi_cedrus_driver_data :=
  let format_set := (driver_data.issue
    (DeviceOp.VIDIOC_S_FMT V4L2_BUF_TYPE_VIDEO_CAPTURE_MPLANE width height
      v4l2_pixelformat.V4L2_PIX_FMT_NV12M 0 2)).2
  let format_read := (format_set.issue
    (DeviceOp.VIDIOC_G_FMT V4L2_BUF_TYPE_VIDEO_CAPTURE_MPLANE)).2
  let created := format_read.issue
    (DeviceOp.VIDIOC_CREATE_BUFS V4L2_BUF_TYPE_VIDEO_CAPTURE_MPLANE num_surfaces)
  (created.1, { created.2 with num_dst_bufs := created.1.count })

/-- The fresh driver state with a surface heap that has room for two surfaces only. -/
def cramped_driver_data : sunxi_cedrus_driver_data :=
  { fresh_driver_data with surface_heap := object_heap_init SURFACE_ID_OFFSET 2 default }

/-! ## Queries of the supported profiles and entrypoints -/

/-- The function `sunxi_cedrus_QueryConfigProfiles`; the output is the profiles stored to
`profile_list`, `*num_profiles` is their number. `SUNXI_CEDRUS_MAX_PROFILES` is a constant
of a header that is not among the sources. -/
def sunxi_cedrus_QueryConfigProfiles (SUNXI_CEDRUS_MAX_PROFILES : Nat)
    (driver_data : sunxi_cedrus_driver_data) : Outcome (List VAProfile) :=
  let profile_list : List VAProfile :=
    [VAProfileMPEG2Simple, VAProfileMPEG2Main, VAProfileMPEG4Simple,
      VAProfileMPEG4AdvancedSimple, VAProfileMPEG4Main, VAProfileH264Baseline,
      VAProfileH264Main, VAProfileH264High]
  let i := profile_list.length
  if i ≤ SUNXI_CEDRUS_MAX_PROFILES then
    Outcome.returned VA_STATUS_SUCCESS profile_list driver_data
  else Outcome.aborted driver_data

/-- The function `sunxi_cedrus_QueryConfigEntrypoints`; the output is the entrypoints
stored to `entrypoint_list`, `*num_entrypoints` is their number.
`SUNXI_CEDRUS_MAX_ENTRYPOINTS` is a constant of a header that is not among the sources. -/
def sunxi_cedrus_QueryConfigEntrypoints (SUNXI_CEDRUS_MAX_ENTRYPOINTS : Nat)
    (driver_data : sunxi_cedrus_driver_data) (profile : VAProfile) :
    Outcome (List VAEntrypoint) :=
  let entrypoint_list : List VAEntrypoint :=
    if profile = VAProfileMPEG2Simple ∨ profile = VAProfileMPEG2Main then
      [VAEntrypointVLD, VAEntrypointMoComp]
    else if profile = VAProfileMPEG4Simple ∨ profile = VAProfileMPEG4AdvancedSimple
        ∨ profile = VAProfileMPEG4Main then
      [VAEntrypointVLD]
    else if profile = VAProfileH264Baseline ∨ profile = VAProfileH264Main
        ∨ profile = VAProfileH264High then
      [VAEntrypointVLD]
    else []
  let num_entrypoints := entrypoint_list.length
  if num_entrypoints ≤ SUNXI_CEDRUS_MAX_ENTRYPOINTS then
    Outcome.returned VA_STATUS_SUCCESS entrypoint_list driver_data
  else Outcome.aborted driver_data

/-! ## Accesses to the attribute array -/

/-- The indices at which the first loop of `sunxi_cedrus_update_attribute` reads or writes
`attrib_list`, in order, from index `i`: a read of the type at each index the guard lets
in, and a write of the value where the type matches. -/
def sunxi_cedrus_update_attribute.scan_accesses (obj_config : object_config)
    (attrib : VAConfigAttrib) : Nat → Nat → List Nat
  | 0, _ => []
  | fuel + 1, i =>
    if obj_config.attrib_count < i then
      if (obj_config.attrib_list i).type = attrib.type then [i, i]
      else i :: sunxi_cedrus_update_attribute.scan_accesses obj_config attrib fuel (i + 1)
    else []

/-- The indices at which `sunxi_cedrus_update_attribute` reads or writes `attrib_list`, in
order: those of its first loop, then the two stores at `attrib_count` of the append. -/
def sunxi_cedrus_update_attribute.accesses (SUNXI_CEDRUS_MAX_CONFIG_ATTRIBUTES fuel : Nat)
    (obj_config : object_config) (attrib : VAConfigAttrib) : List Nat :=
  sunxi_cedrus_update_attribute.scan_accesses obj_config attrib fuel 0 ++
    match sunxi_cedrus_update_attribute.scan obj_config attrib fuel 0 with
    | scan_result.not_found =>
      if obj_config.attrib_count < SUNXI_CEDRUS_MAX_CONFIG_ATTRIBUTES then
        [obj_config.attrib_count, obj_config.attrib_count]
      else []
    | _ => []

/-- The merge steps of the loop of `sunxi_cedrus_CreateConfig`, in order: for each call of
`sunxi_cedrus_update_attribute` the loop makes, the indices of `attrib_list` the call
accesses and the `attrib_count` of the configuration after it. -/
def sunxi_cedrus_CreateConfig.merge_steps (SUNXI_CEDRUS_MAX_CONFIG_ATTRIBUTES fuel : Nat)
    (obj_config : object_config) : List VAConfigAttrib → List (List Nat × Nat)
  | [] => []
  | attrib :: attrib_list =>
    match sunxi_cedrus_update_attribute SUNXI_CEDRUS_MAX_CONFIG_ATTRIBUTES fuel obj_config
        attrib with
    | none =>
      [(sunxi_cedrus_update_attribute.accesses SUNXI_CEDRUS_MAX_CONFIG_ATTRIBUTES fuel
        obj_config attrib, obj_config.attrib_count)]
    | some (vaStatus, updated) =>
      (sunxi_cedrus_update_attribute.accesses SUNXI_CEDRUS_MAX_CONFIG_ATTRIBUTES fuel
        obj_config attrib, updated.attrib_count) ::
        if VA_STATUS_SUCCESS ≠ vaStatus then []
        else sunxi_cedrus_CreateConfig.merge_steps SUNXI_CEDRUS_MAX_CONFIG_ATTRIBUTES fuel
          updated attrib_list

/-- The configuration with which `sunxi_cedrus_CreateConfig` enters its merge loop, from
the payload `obj_config` that the allocation handed out. -/
def seeded_config (obj_config : object_config) (profile : VAProfile)
    (entrypoint : VAEntrypoint) : object_config :=
  { obj_config with
    profile := profile
    entrypoint := entrypoint
    attrib_list := Function.update obj_config.attrib_list 0
      { type := VAConfigAttribRTFormat, value := VA_RT_FORMAT_YUV420 }
    attrib_count := 1 }

/-! ## Vocabulary of the later properties -/

/-- The five type offsets that `VA_DRIVER_INIT_FUNC` gives to `object_heap_init`: config,
context, surface, buffer, image. -/
def type_offsets : List Nat :=
  [CONFIG_ID_OFFSET, CONTEXT_ID_OFFSET, SURFACE_ID_OFFSET, BUFFER_ID_OFFSET, IMAGE_ID_OFFSET]

/-- A stream-start command. -/
def DeviceOp.is_stream_start : DeviceOp → Bool
  | DeviceOp.VIDIOC_STREAMON _ => true
  | _ => false

/-- An enqueue, on either queue. -/
def DeviceOp.is_enqueue : DeviceOp → Bool
  | DeviceOp.VIDIOC_QBUF _ _ _ => true
  | _ => false

/-- The example session after a first picture on its surface 0 (begin, end) and the begin
of a second picture on its surface 1. -/
def session_second_picture : sunxi_cedrus_driver_data :=
  (run_calls session_context_id session_driver_data
    [PictureCall.begin_picture (session_surface_id 0), PictureCall.end_picture,
      PictureCall.begin_picture (session_surface_id 1)]).getD session_driver_data

/-! # Theorems -/

/-! ## Facts about the object heap -/

theorem object_heap.index_of_some {heap : object_heap α} {id : VAGenericID} {i : Nat}
    (h : heap.index_of id = some i) : heap.id_of i = id := by
  unfold object_heap.index_of at h
  split at h
  · split at h
    · cases h; assumption
    · cases h
  · cases h

theorem object_heap.index_of_congr (heap heap2 : object_heap α)
    (h : heap2.id_offset = heap.id_offset) (id : VAGenericID) :
    heap2.index_of id = heap.index_of id := by
  simp [object_heap.index_of, object_heap.id_of, h]

theorem object_heap.write_id_offset (heap : object_heap α) (id : VAGenericID) (obj : α) :
    (heap.write id obj).id_offset = heap.id_offset := by
  unfold object_heap.write
  split
  · split <;> rfl
  · rfl

theorem object_heap.free_id_offset (heap : object_heap α) (id : VAGenericID) :
    (object_heap_free heap id).id_offset = heap.id_offset := by
  unfold object_heap_free
  split <;> rfl

theorem object_heap.lookup_write (heap : object_heap α) (id id2 : VAGenericID) (obj : α) :
    object_heap_lookup (heap.write id obj) id2 =
      if id2 = id ∧ (object_heap_lookup heap id).isSome then some obj
      else object_heap_lookup heap id2 := by
  unfold object_heap_lookup
  rw [object_heap.index_of_congr _ _ (object_heap.write_id_offset heap id obj)]
  unfold object_heap.write
  cases hi : heap.index_of id with
  | none =>
    by_cases hne : id2 = id
    · subst hne; simp [hi]
    · simp [hne]
  | some i =>
    cases hi2 : heap.index_of id2 with
    | none =>
      have hne : id2 ≠ id := by rintro rfl; simp [hi] at hi2
      simp [hne]
    | some j =>
      by_cases hij : j = i
      · subst hij
        have hid : id2 = id := by
          rw [← object_heap.index_of_some hi, ← object_heap.index_of_some hi2]
        subst hid
        rcases hs : heap.slots[j]? with _ | _ | a <;> simp [hs]
        have hlt : j < heap.slots.length := by
          rcases Nat.lt_or_ge j heap.slots.length with h | h
          · exact h
          · simp [List.getElem?_eq_none h] at hs
        simp [List.getElem?_set, hlt]
      · have hne : id2 ≠ id := by
          rintro rfl
          rw [hi] at hi2; cases hi2; exact hij rfl
        simp only [hne, false_and, if_false]
        rcases hs : heap.slots[i]? with _ | _ | a <;> simp only []
        simp [List.getElem?_set, Ne.symm hij]

theorem object_heap.lookup_free (heap : object_heap α) (id id2 : VAGenericID) :
    object_heap_lookup (object_heap_free heap id) id2 =
      if id2 = id then none else object_heap_lookup heap id2 := by
  unfold object_heap_lookup
  rw [object_heap.index_of_congr _ _ (object_heap.free_id_offset heap id)]
  unfold object_heap_free
  cases hi : heap.index_of id with
  | none =>
    by_cases hne : id2 = id
    · subst hne; simp [hi]
    · simp [hne]
  | some i =>
    cases hi2 : heap.index_of id2 with
    | none =>
      simp only []
      split <;> rfl
    | some j =>
      by_cases hij : j = i
      · subst hij
        have hid : id2 = id := by
          rw [← object_heap.index_of_some hi, ← object_heap.index_of_some hi2]
        subst hid
        simp only [if_true]
        by_cases hlt : j < heap.slots.length
        · simp [List.getElem?_set, hlt]
        · have hge : (heap.slots.set j none).length ≤ j := by
            simpa using Nat.le_of_not_lt hlt
          rw [List.getElem?_eq_none hge]
      · have hne : id2 ≠ id := by
          rintro rfl
          rw [hi] at hi2; cases hi2; exact hij rfl
        simp [hne, List.getElem?_set, Ne.symm hij]

theorem object_heap.id_of_eq_add {heap : object_heap α} (hwf : heap.wf) {i : Nat}
    (hi : i < 2 ^ 24) : heap.id_of i = (heap.id_offset : Int) + (i : Int) := by
  unfold object_heap.id_of
  have h0 : heap.id_offset = 2 ^ 24 * (heap.id_offset / 2 ^ 24) := by
    have := Nat.div_add_mod heap.id_offset (2 ^ 24)
    rw [hwf.1] at this
    omega
  have h1 : heap.id_offset ||| i = heap.id_offset + i := by
    rw [h0]
    exact (Nat.mul_add_lt_is_or hi _).symm
  rw [h1]
  push_cast
  rfl

theorem object_heap.index_of_id_of {heap : object_heap α} (hwf : heap.wf) {i : Nat}
    (hi : i < 2 ^ 24) : heap.index_of (heap.id_of i) = some i := by
  have hadd := object_heap.id_of_eq_add hwf hi
  unfold object_heap.index_of
  have h1 : (heap.id_offset : Int) ≤ heap.id_of i := by rw [hadd]; omega
  have h2 : (heap.id_of i - (heap.id_offset : Int)).toNat = i := by rw [hadd]; omega
  simp [h1, h2]

theorem object_heap.allocate_spec {heap : object_heap α} (hwf : heap.wf) {id : VAGenericID}
    (h : (object_heap_allocate heap).1 = some id) :
    (object_heap_allocate heap).2.wf ∧
    (object_heap_allocate heap).2.id_offset = heap.id_offset ∧
    object_heap_lookup heap id = none ∧
    object_heap_lookup (object_heap_allocate heap).2 id = some heap.blank ∧
    ∀ id2, id2 ≠ id →
      object_heap_lookup (object_heap_allocate heap).2 id2 = object_heap_lookup heap id2 := by
  obtain ⟨hoff, hcap, hlen⟩ := hwf
  have hwf0 : heap.wf := ⟨hoff, hcap, hlen⟩
  have hle : heap.slots.findIdx Option.isNone ≤ heap.slots.length := List.findIdx_le_length _
  by_cases hlt : heap.slots.findIdx Option.isNone < heap.slots.length
  · have hA : object_heap_allocate heap =
        (some (heap.id_of (heap.slots.findIdx Option.isNone)),
          { heap with
            slots := heap.slots.set (heap.slots.findIdx Option.isNone) (some heap.blank) }) := by
      unfold object_heap_allocate
      simp only [hlt, if_true]
    rw [hA] at h ⊢
    cases h
    have hi24 : heap.slots.findIdx Option.isNone < 2 ^ 24 := by omega
    have hidx := object_heap.index_of_id_of hwf0 hi24
    have hfree : heap.slots[heap.slots.findIdx Option.isNone]? = some none := by
      have := @List.findIdx_getElem _ Option.isNone heap.slots hlt
      rw [List.getElem?_eq_getElem hlt]
      rcases hx : heap.slots[heap.slots.findIdx Option.isNone] with _ | a
      · rfl
      · rw [hx] at this; simp at this
    refine ⟨⟨hoff, hcap, by simpa using hlen⟩, rfl, ?_, ?_, ?_⟩
    · unfold object_heap_lookup
      rw [hidx]
      simp [hfree]
    · unfold object_heap_lookup
      rw [object_heap.index_of_congr heap _ (by rfl), hidx]
      simp [List.getElem?_set, hlt]
    · intro id2 hne
      unfold object_heap_lookup
      rw [object_heap.index_of_congr heap _ (by rfl)]
      cases hj : heap.index_of id2 with
      | none => rfl
      | some j =>
        have hji : heap.slots.findIdx Option.isNone ≠ j := by
          intro hEq
          apply hne
          rw [← object_heap.index_of_some hj, ← hEq]
        simp [List.getElem?_set, hji]
  · have hEq : heap.slots.findIdx Option.isNone = heap.slots.length := by omega
    by_cases hroom : heap.slots.length < heap.capacity
    · have hA : object_heap_allocate heap =
          (some (heap.id_of (heap.slots.findIdx Option.isNone)),
            { heap with slots := heap.slots ++ [some heap.blank] }) := by
        unfold object_heap_allocate
        simp only [hlt, if_false, hroom, if_true]
      rw [hA] at h ⊢
      cases h
      have hi24 : heap.slots.findIdx Option.isNone < 2 ^ 24 := by omega
      have hidx := object_heap.index_of_id_of hwf0 hi24
      refine ⟨⟨hoff, hcap, by simp; omega⟩, rfl, ?_, ?_, ?_⟩
      · unfold object_heap_lookup
        rw [hidx, hEq]
        simp
      · unfold object_heap_lookup
        rw [object_heap.index_of_congr heap _ (by rfl), hidx, hEq]
        simp
      · intro id2 hne
        unfold object_heap_lookup
        rw [object_heap.index_of_congr heap _ (by rfl)]
        cases hj : heap.index_of id2 with
        | none => rfl
        | some j =>
          have hji : j ≠ heap.slots.length := by
            intro hEq2
            apply hne
            rw [← object_heap.index_of_some hj, hEq2, ← hEq]
          simp only []
          rcases Nat.lt_or_ge j heap.slots.length with hjl | hjl
          · rw [List.getElem?_append_left hjl]
          · have h1 : (heap.slots ++ [some heap.blank])[j]? = none := by
              apply List.getElem?_eq_none
              simp; omega
            have h2 : heap.slots[j]? = none := List.getElem?_eq_none hjl
            rw [h1, h2]
    · unfold object_heap_allocate at h
      simp [hlt, hroom] at h

/-! ## Configurations -/

theorem sunxi_cedrus_update_attribute.scan_zero (obj_config : object_config)
    (attrib : VAConfigAttrib) (fuel : Nat) :
    sunxi_cedrus_update_attribute.scan obj_config attrib (fuel + 1) 0 =
      scan_result.not_found := by
  simp [sunxi_cedrus_update_attribute.scan]

/-- The first loop of `sunxi_cedrus_update_attribute` never runs its body: every call
either appends the attribute or reports that the array is full. -/
theorem sunxi_cedrus_update_attribute_eq (MAX fuel : Nat) (obj_config : object_config)
    (attrib : VAConfigAttrib) :
    sunxi_cedrus_update_attribute MAX (fuel + 1) obj_config attrib =
      some (if obj_config.attrib_count < MAX then
        (VA_STATUS_SUCCESS, { obj_config with
          attrib_list := Function.update obj_config.attrib_list obj_config.attrib_count attrib
          attrib_count := obj_config.attrib_count + 1 })
      else (VA_STATUS_ERROR_MAX_NUM_EXCEEDED, obj_config)) := by
  unfold sunxi_cedrus_update_attribute
  rw [sunxi_cedrus_update_attribute.scan_zero]
  simp only []
  split <;> rfl

theorem sunxi_cedrus_CreateConfig.merge_exceeds (MAX fuel : Nat) :
    ∀ (attrib_list : List VAConfigAttrib) (vaStatus : VAStatus) (obj_config : object_config),
      attrib_list ≠ [] → MAX < obj_config.attrib_count + attrib_list.length →
      ∃ obj, sunxi_cedrus_CreateConfig.merge MAX (fuel + 1) vaStatus obj_config attrib_list =
        some (VA_STATUS_ERROR_MAX_NUM_EXCEEDED, obj) := by
  intro attrib_list
  induction attrib_list with
  | nil => intro _ _ h; exact absurd rfl h
  | cons a rest ih =>
    intro vaStatus obj_config _ hlen
    unfold sunxi_cedrus_CreateConfig.merge
    rw [sunxi_cedrus_update_attribute_eq]
    by_cases hroom : obj_config.attrib_count < MAX
    · simp only [hroom, if_true, ne_eq, not_true_eq_false, if_false]
      apply ih
      · rintro rfl
        simp at hlen
        omega
      · simp at hlen ⊢
        omega
    · simp only [hroom, if_false]
      exact ⟨obj_config, by simp⟩

theorem sunxi_cedrus_CreateConfig.validate_eq (profile : VAProfile) (entrypoint : VAEntrypoint) :
    sunxi_cedrus_CreateConfig.validate profile entrypoint =
      if legal_pair profile entrypoint then VA_STATUS_SUCCESS
      else if known_profile profile then VA_STATUS_ERROR_UNSUPPORTED_ENTRYPOINT
      else VA_STATUS_ERROR_UNSUPPORTED_PROFILE := by
  unfold sunxi_cedrus_CreateConfig.validate legal_pair known_profile
  simp only [VAProfileMPEG2Simple, VAProfileMPEG2Main, VAProfileMPEG4Simple,
    VAProfileMPEG4AdvancedSimple, VAProfileMPEG4Main, VAProfileH264Baseline,
    VAProfileH264Main, VAProfileH264High, VAEntrypointVLD, VAEntrypointMoComp]
  repeat' split
  all_goals first | rfl | (exfalso; simp only [VAProfile, VAEntrypoint] at *; omega)

/-- C1: `sunxi_cedrus_CreateConfig` passes its validation exactly for the legal pairs
(MPEG-2 with VLD or MoComp; MPEG-4 and H.264 with VLD); for every other pair it returns
`UNSUPPORTED_ENTRYPOINT` when the profile is one of the eight known ones and
`UNSUPPORTED_PROFILE` otherwise, stores no config id and leaves the driver state, hence the
config heap, as it was. -/
theorem C1_create_config_validation (MAX fuel : Nat) (driver_data : sunxi_cedrus_driver_data)
    (profile : VAProfile) (entrypoint : VAEntrypoint) (attrib_list : List VAConfigAttrib) :
    (sunxi_cedrus_CreateConfig.validate profile entrypoint = VA_STATUS_SUCCESS ↔
      legal_pair profile entrypoint) ∧
    (¬ legal_pair profile entrypoint →
      sunxi_cedrus_CreateConfig MAX fuel driver_data profile entrypoint attrib_list =
        Outcome.returned
          (if known_profile profile then VA_STATUS_ERROR_UNSUPPORTED_ENTRYPOINT
           else VA_STATUS_ERROR_UNSUPPORTED_PROFILE)
          none driver_data) := by
  constructor
  · rw [sunxi_cedrus_CreateConfig.validate_eq]
    by_cases h : legal_pair profile entrypoint
    · simp [h]
    · by_cases hk : known_profile profile <;> simp [h, hk]
  · intro h
    unfold sunxi_cedrus_CreateConfig
    rw [sunxi_cedrus_CreateConfig.validate_eq]
    by_cases hk : known_profile profile <;> simp [h, hk]

/-- C1, at the example of the specification: MPEG4Main with MoComp is not legal and is
answered with `UNSUPPORTED_ENTRYPOINT`; an unknown profile is answered with
`UNSUPPORTED_PROFILE`. -/
theorem C1_create_config_validation_witness :
    (¬ legal_pair VAProfileMPEG4Main VAEntrypointMoComp ∧
      sunxi_cedrus_CreateConfig 10 1 fresh_driver_data VAProfileMPEG4Main VAEntrypointMoComp [] =
        Outcome.returned VA_STATUS_ERROR_UNSUPPORTED_ENTRYPOINT none fresh_driver_data) ∧
    (¬ legal_pair 8 VAEntrypointVLD ∧
      sunxi_cedrus_CreateConfig 10 1 fresh_driver_data 8 VAEntrypointVLD [] =
        Outcome.returned VA_STATUS_ERROR_UNSUPPORTED_PROFILE none fresh_driver_data) :=
  ⟨⟨by decide,
      (C1_create_config_validation 10 1 fresh_driver_data VAProfileMPEG4Main
        VAEntrypointMoComp []).2 (by decide)⟩,
    ⟨by decide,
      (C1_create_config_validation 10 1 fresh_driver_data 8 VAEntrypointVLD []).2
        (by decide)⟩⟩

theorem sunxi_cedrus_CreateConfig.after_validation (MAX fuel : Nat)
    (driver_data : sunxi_cedrus_driver_data) (profile : VAProfile) (entrypoint : VAEntrypoint)
    (attrib_list : List VAConfigAttrib) (hlegal : legal_pair profile entrypoint)
    (hwf : driver_data.config_heap.wf) {configID : VAGenericID}
    (hroom : (object_heap_allocate driver_data.config_heap).1 = some configID) :
    sunxi_cedrus_CreateConfig MAX fuel driver_data profile entrypoint attrib_list =
      match sunxi_cedrus_CreateConfig.merge MAX fuel VA_STATUS_SUCCESS
          { profile := profile
            entrypoint := entrypoint
            attrib_list := Function.update driver_data.config_heap.blank.attrib_list 0
              { type := VAConfigAttribRTFormat, value := VA_RT_FORMAT_YUV420 }
            attrib_count := 1 } attrib_list with
      | none => Outcome.diverged
      | some (vaStatus, obj_config) =>
        if VA_STATUS_SUCCESS ≠ vaStatus then
          Outcome.returned vaStatus none
            { driver_data with
              config_heap := object_heap_free
                ((object_heap_allocate driver_data.config_heap).2.write configID obj_config)
                configID }
        else
          Outcome.returned vaStatus (some configID)
            { driver_data with
              config_heap :=
                (object_heap_allocate driver_data.config_heap).2.write configID obj_config } := by
  obtain ⟨_, _, _, hnew, _⟩ := object_heap.allocate_spec hwf hroom
  have hv : sunxi_cedrus_CreateConfig.validate profile entrypoint = VA_STATUS_SUCCESS := by
    rw [sunxi_cedrus_CreateConfig.validate_eq]; simp [hlegal]
  unfold sunxi_cedrus_CreateConfig
  simp only [hv, hroom, object_heap.lookup_allocated, hnew, ne_eq, not_true_eq_false, if_false]

/-- C2: for every legal pair, `sunxi_cedrus_CreateConfig` with an empty attribute list, on
a config heap that can still allocate, succeeds, and `sunxi_cedrus_QueryConfigAttributes`
on the id it stored yields the same profile, the same entrypoint and exactly the attribute
list `[(RTFormat, YUV420)]`. -/
theorem C2_create_then_query (MAX fuel : Nat) (driver_data : sunxi_cedrus_driver_data)
    (profile : VAProfile) (entrypoint : VAEntrypoint)
    (hlegal : legal_pair profile entrypoint) (hwf : driver_data.config_heap.wf)
    (hroom : (object_heap_allocate driver_data.config_heap).1 ≠ none) :
    ∃ (config_id : VAGenericID) (created : sunxi_cedrus_driver_data),
      sunxi_cedrus_CreateConfig MAX fuel driver_data profile entrypoint [] =
        Outcome.returned VA_STATUS_SUCCESS (some config_id) created ∧
      sunxi_cedrus_QueryConfigAttributes created config_id =
        Outcome.returned VA_STATUS_SUCCESS
          { profile := profile
            entrypoint := entrypoint
            attrib_list := [{ type := VAConfigAttribRTFormat, value := VA_RT_FORMAT_YUV420 }]
            num_attribs := 1 }
          created := by
  obtain ⟨configID, hid⟩ := Option.ne_none_iff_exists'.mp hroom
  obtain ⟨_, _, _, hnew, _⟩ := object_heap.allocate_spec hwf hid
  refine ⟨configID,
    { driver_data with
      config_heap := (object_heap_allocate driver_data.config_heap).2.write configID
        { profile := profile
          entrypoint := entrypoint
          attrib_list := Function.update driver_data.config_heap.blank.attrib_list 0
            { type := VAConfigAttribRTFormat, value := VA_RT_FORMAT_YUV420 }
          attrib_count := 1 } }, ?_, ?_⟩
  · rw [sunxi_cedrus_CreateConfig.after_validation MAX fuel driver_data profile entrypoint []
      hlegal hwf hid]
    simp only [sunxi_cedrus_CreateConfig.merge, ne_eq, not_true_eq_false, if_false]
  · unfold sunxi_cedrus_QueryConfigAttributes CONFIG
    simp only [object_heap.lookup_write, hnew, Option.isSome_some, and_self, if_true]
    simp [List.range_succ]

/-- C2, at the example of the specification: profile MPEG2Main with entrypoint VLD on the
freshly initialised driver. -/
theorem C2_create_then_query_witness :
    legal_pair VAProfileMPEG2Main VAEntrypointVLD ∧ fresh_driver_data.config_heap.wf ∧
    (object_heap_allocate fresh_driver_data.config_heap).1 ≠ none ∧
    ∃ (config_id : VAGenericID) (created : sunxi_cedrus_driver_data),
      sunxi_cedrus_CreateConfig 10 1 fresh_driver_data VAProfileMPEG2Main VAEntrypointVLD [] =
        Outcome.returned VA_STATUS_SUCCESS (some config_id) created ∧
      sunxi_cedrus_QueryConfigAttributes created config_id =
        Outcome.returned VA_STATUS_SUCCESS
          { profile := VAProfileMPEG2Main
            entrypoint := VAEntrypointVLD
            attrib_list := [{ type := VAConfigAttribRTFormat, value := VA_RT_FORMAT_YUV420 }]
            num_attribs := 1 }
          created :=
  ⟨by decide, by decide, by decide,
    C2_create_then_query 10 1 fresh_driver_data VAProfileMPEG2Main VAEntrypointVLD
      (by decide) (by decide) (by decide)⟩

/-- C3, the code at the failing input: creating a configuration for MPEG2Main and VLD with
the caller attribute `(RTFormat, 2)`, whose type is the one of the seeded attribute, does
not overwrite the seeded entry: the configuration then holds the two attributes
`(RTFormat, YUV420)` and `(RTFormat, 2)`, and its attribute count is 2. -/
theorem C3_existing_type_is_appended :
    ∃ (config_id : VAGenericID) (created : sunxi_cedrus_driver_data),
      sunxi_cedrus_CreateConfig 10 1 fresh_driver_data VAProfileMPEG2Main VAEntrypointVLD
          [{ type := VAConfigAttribRTFormat, value := 2 }] =
        Outcome.returned VA_STATUS_SUCCESS (some config_id) created ∧
      sunxi_cedrus_QueryConfigAttributes created config_id =
        Outcome.returned VA_STATUS_SUCCESS
          { profile := VAProfileMPEG2Main
            entrypoint := VAEntrypointVLD
            attrib_list := [{ type := VAConfigAttribRTFormat, value := VA_RT_FORMAT_YUV420 },
              { type := VAConfigAttribRTFormat, value := 2 }]
            num_attribs := 2 }
          created :=
  ⟨_, _, rfl, rfl⟩

/-- C4: for every legal pair and every caller attribute list that does not fit into the
attribute array (it has at least `MAX` entries, each of which the merge appends), on a config
heap that can still allocate, `sunxi_cedrus_CreateConfig` returns `MAX_NUM_EXCEEDED`, stores
no config id, and leaves a driver state in which every id resolves to the same configuration
as before the call, or to none as before; nothing but the config heap is touched. -/
theorem C4_create_config_atomic (MAX fuel : Nat) (driver_data : sunxi_cedrus_driver_data)
    (profile : VAProfile) (entrypoint : VAEntrypoint) (attrib_list : List VAConfigAttrib)
    (hlegal : legal_pair profile entrypoint) (hwf : driver_data.config_heap.wf)
    (hroom : (object_heap_allocate driver_data.config_heap).1 ≠ none)
    (hne : attrib_list ≠ []) (hexceeds : MAX ≤ attrib_list.length) :
    ∃ after : sunxi_cedrus_driver_data,
      sunxi_cedrus_CreateConfig MAX (fuel + 1) driver_data profile entrypoint attrib_list =
        Outcome.returned VA_STATUS_ERROR_MAX_NUM_EXCEEDED none after ∧
      (∀ id, CONFIG after id = CONFIG driver_data id) ∧
      after = { driver_data with config_heap := after.config_heap } := by
  obtain ⟨configID, hid⟩ := Option.ne_none_iff_exists'.mp hroom
  obtain ⟨_, _, hold, hnew, hother⟩ := object_heap.allocate_spec hwf hid
  obtain ⟨obj, hmerge⟩ := sunxi_cedrus_CreateConfig.merge_exceeds MAX fuel attrib_list
    VA_STATUS_SUCCESS
    { profile := profile
      entrypoint := entrypoint
      attrib_list := Function.update driver_data.config_heap.blank.attrib_list 0
        { type := VAConfigAttribRTFormat, value := VA_RT_FORMAT_YUV420 }
      attrib_count := 1 } hne (by simp only []; omega)
  refine ⟨{ driver_data with
      config_heap := object_heap_free
        ((object_heap_allocate driver_data.config_heap).2.write configID obj) configID },
    ?_, ?_, rfl⟩
  · rw [sunxi_cedrus_CreateConfig.after_validation MAX (fuel + 1) driver_data profile entrypoint
      attrib_list hlegal hwf hid, hmerge]
    simp
  · intro id
    unfold CONFIG
    simp only [object_heap.lookup_free, object_heap.lookup_write]
    by_cases h : id = configID
    · subst h; simp [hold]
    · simp [h, hother id h]

/-- C4, at an example: an attribute array of capacity 2 and two caller attributes of new
types on the freshly initialised driver. -/
theorem C4_create_config_atomic_witness :
    legal_pair VAProfileMPEG2Main VAEntrypointVLD ∧ fresh_driver_data.config_heap.wf ∧
    (object_heap_allocate fresh_driver_data.config_heap).1 ≠ none ∧
    ∃ after : sunxi_cedrus_driver_data,
      sunxi_cedrus_CreateConfig 2 1 fresh_driver_data VAProfileMPEG2Main VAEntrypointVLD
          [{ type := 1, value := 0 }, { type := 2, value := 0 }] =
        Outcome.returned VA_STATUS_ERROR_MAX_NUM_EXCEEDED none after ∧
      (∀ id, CONFIG after id = CONFIG fresh_driver_data id) ∧
      after = { fresh_driver_data with config_heap := after.config_heap } :=
  ⟨by decide, by decide, by decide,
    C4_create_config_atomic 2 0 fresh_driver_data VAProfileMPEG2Main VAEntrypointVLD
      [{ type := 1, value := 0 }, { type := 2, value := 0 }]
      (by decide) (by decide) (by decide) (by decide) (by decide)⟩

/-! ## The picture pipeline -/

theorem SURFACE_write (driver_data after : sunxi_cedrus_driver_data)
    (id id2 : VAGenericID) (obj : object_surface)
    (h : after.surface_heap = driver_data.surface_heap.write id obj) :
    SURFACE after id2 =
      if id2 = id ∧ (SURFACE driver_data id).isSome then some obj
      else SURFACE driver_data id2 := by
  unfold SURFACE
  rw [h, object_heap.lookup_write]

theorem CONTEXT_write (driver_data after : sunxi_cedrus_driver_data)
    (id id2 : VAGenericID) (obj : object_context)
    (h : after.context_heap = driver_data.context_heap.write id obj) :
    CONTEXT after id2 =
      if id2 = id ∧ (CONTEXT driver_data id).isSome then some obj
      else CONTEXT driver_data id2 := by
  unfold CONTEXT
  rw [h, object_heap.lookup_write]

theorem SURFACE_congr {driver_data after : sunxi_cedrus_driver_data}
    (h : after.surface_heap = driver_data.surface_heap) (id : VAGenericID) :
    SURFACE after id = SURFACE driver_data id := by
  unfold SURFACE; rw [h]

theorem CONTEXT_congr {driver_data after : sunxi_cedrus_driver_data}
    (h : after.context_heap = driver_data.context_heap) (id : VAGenericID) :
    CONTEXT after id = CONTEXT driver_data id := by
  unfold CONTEXT; rw [h]

/-- What `sunxi_cedrus_SyncSurface` does on a surface that resolves: it returns, touches
nothing but the device and the status of that surface, and the status is either left as it
was or set to `VASurfaceReady`, the latter whenever the first dequeue succeeds. -/
theorem sunxi_cedrus_SyncSurface_spec (driver_data : sunxi_cedrus_driver_data)
    (render_target : VAGenericID) (obj_surface : object_surface)
    (h : SURFACE driver_data render_target = some obj_surface) :
    ∃ (vaStatus : VAStatus) (after : sunxi_cedrus_driver_data),
      sunxi_cedrus_SyncSurface driver_data render_target = Outcome.returned vaStatus () after ∧
      after.context_heap = driver_data.context_heap ∧
      after.config_heap = driver_data.config_heap ∧
      after.buffer_heap = driver_data.buffer_heap ∧
      after.image_heap = driver_data.image_heap ∧
      after.num_dst_bufs = driver_data.num_dst_bufs ∧
      (∀ id, id ≠ render_target → SURFACE after id = SURFACE driver_data id) ∧
      (SURFACE after render_target = some obj_surface ∨
        SURFACE after render_target = some { obj_surface with status := VASurfaceReady }) ∧
      (vaStatus = VA_STATUS_SUCCESS →
        SURFACE after render_target = some { obj_surface with status := VASurfaceReady }) := by
  have h1 : SURFACE (driver_data.issue DeviceOp.select).2 render_target = some obj_surface := h
  have hw : ∀ (d : sunxi_cedrus_driver_data), d.surface_heap = driver_data.surface_heap →
      (∀ id, id ≠ render_target →
        SURFACE { d with
            surface_heap := d.surface_heap.write render_target
              ({ obj_surface with status := VASurfaceReady }) } id =
          SURFACE driver_data id) ∧
      SURFACE { d with
          surface_heap := d.surface_heap.write render_target
            ({ obj_surface with status := VASurfaceReady }) } render_target =
        some { obj_surface with status := VASurfaceReady } := by
    intro d hd
    constructor
    · intro id hne
      rw [SURFACE_write d _ render_target id _ rfl]
      simp [hne, SURFACE_congr hd]
    · rw [SURFACE_write d _ render_target render_target _ rfl]
      simp [SURFACE_congr hd, h]
  unfold sunxi_cedrus_SyncSurface
  simp only [h1]
  split
  · exact ⟨_, _, rfl, rfl, rfl, rfl, rfl, rfl, fun id _ => rfl, Or.inl h, fun hc => by cases hc⟩
  · split
    · refine ⟨_, _, rfl, rfl, rfl, rfl, rfl, rfl, ?_, Or.inr ?_, fun hc => by cases hc⟩
      · exact (hw _ rfl).1
      · exact (hw _ rfl).2
    · split
      · refine ⟨_, _, rfl, rfl, rfl, rfl, rfl, rfl, ?_, Or.inr ?_, fun hc => by cases hc⟩
        · exact (hw _ rfl).1
        · exact (hw _ rfl).2
      · refine ⟨_, _, rfl, rfl, rfl, rfl, rfl, rfl, ?_, Or.inr ?_, fun _ => ?_⟩
        · exact (hw _ rfl).1
        · exact (hw _ rfl).2
        · exact (hw _ rfl).2

/-- The surface that `sunxi_cedrus_BeginPicture` leaves for its render target, from the
surface `obj_surface` before the call, the submission counter `n` of the context before the
call and the number of capture buffers. -/
theorem sunxi_cedrus_BeginPicture.assign_spec (driver_data : sunxi_cedrus_driver_data)
    (context render_target : VAGenericID) (obj_context : object_context)
    (obj_surface : object_surface) (hc : CONTEXT driver_data context = some obj_context)
    (hs : SURFACE driver_data render_target = some obj_surface)
    (hN : driver_data.num_dst_bufs ≠ 0) :
    ∃ after : sunxi_cedrus_driver_data,
      sunxi_cedrus_BeginPicture.assign driver_data context render_target =
        Outcome.returned VA_STATUS_SUCCESS () after ∧
      after.config_heap = driver_data.config_heap ∧
      after.buffer_heap = driver_data.buffer_heap ∧
      after.image_heap = driver_data.image_heap ∧
      after.num_dst_bufs = driver_data.num_dst_bufs ∧
      after.mem2mem_fd = driver_data.mem2mem_fd ∧
      (∀ id, CONTEXT after id =
        if id = context then
          some { obj_context with
            num_rendered_surfaces := (obj_context.num_rendered_surfaces + 1) % 2 ^ 32
            current_render_target := render_target }
        else CONTEXT driver_data id) ∧
      (∀ id, SURFACE after id =
        if id = render_target then
          some { obj_surface with
            status := VASurfaceRendering
            request := obj_context.num_rendered_surfaces % INPUT_BUFFERS_NUMBER + 1
            input_buf_index := obj_context.num_rendered_surfaces % INPUT_BUFFERS_NUMBER
            output_buf_index := obj_context.num_rendered_surfaces % driver_data.num_dst_bufs }
        else SURFACE driver_data id) := by
  unfold sunxi_cedrus_BeginPicture.assign
  simp only [hc, hs, hN, if_false]
  refine ⟨_, rfl, rfl, rfl, rfl, rfl, rfl, ?_, ?_⟩
  · intro id
    rw [CONTEXT_write driver_data _ context id _ rfl]
    simp [hc]
  · intro id
    rw [SURFACE_write driver_data _ render_target id _ rfl]
    simp [hs]

/-- What `sunxi_cedrus_BeginPicture` does when both handles resolve and there is at least
one capture buffer: it returns success; the target surface gets status, request and the two
slots from the counter of the context; the counter grows by one; no other surface and no
other context changes; the device is not touched when the target was not being rendered,
and is touched only by the synchronisation otherwise. -/
theorem sunxi_cedrus_BeginPicture_spec (driver_data : sunxi_cedrus_driver_data)
    (context render_target : VAGenericID) (obj_context : object_context)
    (obj_surface : object_surface) (hc : CONTEXT driver_data context = some obj_context)
    (hs : SURFACE driver_data render_target = some obj_surface)
    (hN : driver_data.num_dst_bufs ≠ 0) :
    ∃ after : sunxi_cedrus_driver_data,
      sunxi_cedrus_BeginPicture driver_data context render_target =
        Outcome.returned VA_STATUS_SUCCESS () after ∧
      after.config_heap = driver_data.config_heap ∧
      after.buffer_heap = driver_data.buffer_heap ∧
      after.image_heap = driver_data.image_heap ∧
      after.num_dst_bufs = driver_data.num_dst_bufs ∧
      (∀ id, CONTEXT after id =
        if id = context then
          some { obj_context with
            num_rendered_surfaces := (obj_context.num_rendered_surfaces + 1) % 2 ^ 32
            current_render_target := render_target }
        else CONTEXT driver_data id) ∧
      (∀ id, SURFACE after id =
        if id = render_target then
          some { obj_surface with
            status := VASurfaceRendering
            request := obj_context.num_rendered_surfaces % INPUT_BUFFERS_NUMBER + 1
            input_buf_index := obj_context.num_rendered_surfaces % INPUT_BUFFERS_NUMBER
            output_buf_index := obj_context.num_rendered_surfaces % driver_data.num_dst_bufs }
        else SURFACE driver_data id) ∧
      (obj_surface.status ≠ VASurfaceRendering → after.mem2mem_fd = driver_data.mem2mem_fd) ∧
      (obj_surface.status = VASurfaceRendering →
        ∃ vaStatus synced, sunxi_cedrus_SyncSurface driver_data render_target =
          Outcome.returned vaStatus () synced ∧ after.mem2mem_fd = synced.mem2mem_fd) := by
  unfold sunxi_cedrus_BeginPicture
  simp only [hc, hs]
  by_cases hr : obj_surface.status = VASurfaceRendering
  · rw [if_pos hr]
    obtain ⟨vaStatus, synced, hsync, hctx, hcfg, hbuf, himg, hnum, hothers, hself, _⟩ :=
      sunxi_cedrus_SyncSurface_spec driver_data render_target obj_surface hs
    rw [hsync]
    simp only []
    have hc2 : CONTEXT synced context = some obj_context := by
      rw [CONTEXT_congr hctx, hc]
    have hN2 : synced.num_dst_bufs ≠ 0 := by rw [hnum]; exact hN
    rcases hself with hself | hself
    · obtain ⟨after, hret, h1, h2, h3, h4, h5, h6, h7⟩ :=
        sunxi_cedrus_BeginPicture.assign_spec synced context render_target obj_context
          obj_surface hc2 hself hN2
      refine ⟨after, hret, h1.trans hcfg, h2.trans hbuf, h3.trans himg, h4.trans hnum, ?_, ?_,
        fun hne => absurd hr hne, fun _ => ⟨vaStatus, synced, rfl, h5⟩⟩
      · intro id
        rw [h6 id, CONTEXT_congr hctx]
      · intro id
        rw [h7 id, hnum]
        by_cases hid : id = render_target
        · simp [hid]
        · simp [hid, hothers id hid]
    · obtain ⟨after, hret, h1, h2, h3, h4, h5, h6, h7⟩ :=
        sunxi_cedrus_BeginPicture.assign_spec synced context render_target obj_context
          _ hc2 hself hN2
      refine ⟨after, hret, h1.trans hcfg, h2.trans hbuf, h3.trans himg, h4.trans hnum, ?_, ?_,
        fun hne => absurd hr hne, fun _ => ⟨vaStatus, synced, rfl, h5⟩⟩
      · intro id
        rw [h6 id, CONTEXT_congr hctx]
      · intro id
        rw [h7 id, hnum]
        by_cases hid : id = render_target
        · simp [hid]
        · simp [hid, hothers id hid]
  · rw [if_neg hr]
    obtain ⟨after, hret, h1, h2, h3, h4, h5, h6, h7⟩ :=
      sunxi_cedrus_BeginPicture.assign_spec driver_data context render_target obj_context
        obj_surface hc hs hN
    exact ⟨after, hret, h1, h2, h3, h4, h6, h7, fun _ => h5, fun h => absurd h hr⟩

/-! ### Calls that keep the surfaces -/

theorem keeps_surfaces.refl (driver_data : sunxi_cedrus_driver_data) :
    keeps_surfaces driver_data driver_data :=
  ⟨rfl, rfl, fun _ => rfl⟩

theorem keeps_surfaces.trans {a b c : sunxi_cedrus_driver_data} (hab : keeps_surfaces a b)
    (hbc : keeps_surfaces b c) : keeps_surfaces a c :=
  ⟨hbc.1.trans hab.1, hbc.2.1.trans hab.2.1, fun id => (hbc.2.2 id).trans (hab.2.2 id)⟩

theorem keeps_surfaces.of_context_eq {before after : sunxi_cedrus_driver_data}
    (hsurf : after.surface_heap = before.surface_heap)
    (hnum : after.num_dst_bufs = before.num_dst_bufs)
    (hctx : after.context_heap = before.context_heap) : keeps_surfaces before after :=
  ⟨hsurf, hnum, fun id => by rw [CONTEXT_congr hctx]⟩

theorem keeps_surfaces.of_context_write {before after : sunxi_cedrus_driver_data}
    {context : VAGenericID} {obj_context updated : object_context}
    (hsurf : after.surface_heap = before.surface_heap)
    (hnum : after.num_dst_bufs = before.num_dst_bufs)
    (hctx : after.context_heap = before.context_heap.write context updated)
    (hc : CONTEXT before context = some obj_context)
    (hn : updated.num_rendered_surfaces = obj_context.num_rendered_surfaces) :
    keeps_surfaces before after := by
  refine ⟨hsurf, hnum, fun id => ?_⟩
  rw [CONTEXT_write before after context id updated hctx]
  by_cases hid : id = context
  · subst hid; simp [hc, hn]
  · simp [hid]

theorem Outcome.ends_in_mono {β : Type} {o : Outcome β}
    {P Q : sunxi_cedrus_driver_data → Prop} (h : o.ends_in P) (hPQ : ∀ d, P d → Q d) :
    o.ends_in Q := by
  cases o with
  | returned st out d => exact hPQ d h
  | aborted d => exact hPQ d h
  | diverged => trivial

theorem sunxi_cedrus_driver_data.assert_issue_ends_in {β : Type}
    (P : sunxi_cedrus_driver_data → Prop) (driver_data : sunxi_cedrus_driver_data)
    (op : DeviceOp) (k : Reply → sunxi_cedrus_driver_data → Outcome β)
    (hP : P (driver_data.issue op).2)
    (hk : ∀ r, (k r (driver_data.issue op).2).ends_in P) :
    (driver_data.assert_issue op k).ends_in P := by
  unfold sunxi_cedrus_driver_data.assert_issue
  split
  · exact hk _
  · exact hP

theorem sunxi_cedrus_render_mpeg2_slice_data_keeps (driver_data : sunxi_cedrus_driver_data)
    (context : VAGenericID) (obj_surface : object_surface) (obj_buffer : object_buffer) :
    (sunxi_cedrus_render_mpeg2_slice_data driver_data context obj_surface
      obj_buffer).ends_in (keeps_surfaces driver_data) := by
  unfold sunxi_cedrus_render_mpeg2_slice_data
  apply sunxi_cedrus_driver_data.assert_issue_ends_in
  · exact keeps_surfaces.of_context_eq rfl rfl rfl
  intro _
  apply sunxi_cedrus_driver_data.assert_issue_ends_in
  · exact keeps_surfaces.of_context_eq rfl rfl rfl
  intro _
  split
  · rename_i buffer_data obj_context _ hctx
    have hkeep : ∀ d : sunxi_cedrus_driver_data, d.surface_heap = driver_data.surface_heap →
        d.num_dst_bufs = driver_data.num_dst_bufs →
        d.context_heap = driver_data.context_heap.write context
          { obj_context with
            mpeg2_frame_hdr :=
              { obj_context.mpeg2_frame_hdr with
                slice_pos := 0
                slice_len := obj_buffer.size
                type := mpeg_type.MPEG2 } } →
        keeps_surfaces driver_data d := fun d h1 h2 h3 =>
      keeps_surfaces.of_context_write h1 h2 h3 hctx rfl
    apply sunxi_cedrus_driver_data.assert_issue_ends_in
    · exact hkeep _ rfl rfl rfl
    intro _
    apply sunxi_cedrus_driver_data.assert_issue_ends_in
    · exact hkeep _ rfl rfl rfl
    intro _
    exact hkeep _ rfl rfl rfl
  · exact keeps_surfaces.of_context_eq rfl rfl rfl

theorem sunxi_cedrus_render_mpeg4_slice_data_keeps (driver_data : sunxi_cedrus_driver_data)
    (context : VAGenericID) (obj_surface : object_surface) (obj_buffer : object_buffer) :
    (sunxi_cedrus_render_mpeg4_slice_data driver_data context obj_surface
      obj_buffer).ends_in (keeps_surfaces driver_data) := by
  unfold sunxi_cedrus_render_mpeg4_slice_data
  apply sunxi_cedrus_driver_data.assert_issue_ends_in
  · exact keeps_surfaces.of_context_eq rfl rfl rfl
  intro _
  apply sunxi_cedrus_driver_data.assert_issue_ends_in
  · exact keeps_surfaces.of_context_eq rfl rfl rfl
  intro _
  split
  · apply sunxi_cedrus_driver_data.assert_issue_ends_in
    · exact keeps_surfaces.of_context_eq rfl rfl rfl
    intro _
    apply sunxi_cedrus_driver_data.assert_issue_ends_in
    · exact keeps_surfaces.of_context_eq rfl rfl rfl
    intro _
    exact keeps_surfaces.of_context_eq rfl rfl rfl
  · exact keeps_surfaces.of_context_eq rfl rfl rfl

theorem sunxi_cedrus_render_mpeg2_picture_parameter_keeps
    (driver_data : sunxi_cedrus_driver_data) (context : VAGenericID)
    (obj_surface : object_surface) (obj_buffer : object_buffer) :
    (sunxi_cedrus_render_mpeg2_picture_parameter driver_data context obj_surface
      obj_buffer).ends_in (keeps_surfaces driver_data) := by
  unfold sunxi_cedrus_render_mpeg2_picture_parameter
  split
  · rename_i buffer_data obj_context _ hctx
    exact keeps_surfaces.of_context_write rfl rfl rfl hctx rfl
  · exact keeps_surfaces.refl _

theorem sunxi_cedrus_render_mpeg4_picture_parameter_keeps
    (driver_data : sunxi_cedrus_driver_data) (context : VAGenericID)
    (obj_surface : object_surface) (obj_buffer : object_buffer) :
    (sunxi_cedrus_render_mpeg4_picture_parameter driver_data context obj_surface
      obj_buffer).ends_in (keeps_surfaces driver_data) := by
  unfold sunxi_cedrus_render_mpeg4_picture_parameter
  split
  · rename_i buffer_data obj_context _ hctx
    exact keeps_surfaces.of_context_write rfl rfl rfl hctx rfl
  · exact keeps_surfaces.refl _

theorem sunxi_cedrus_render_mpeg4_slice_parameter_keeps
    (driver_data : sunxi_cedrus_driver_data) (context : VAGenericID)
    (obj_surface : object_surface) (obj_buffer : object_buffer) :
    (sunxi_cedrus_render_mpeg4_slice_parameter driver_data context obj_surface
      obj_buffer).ends_in (keeps_surfaces driver_data) := by
  unfold sunxi_cedrus_render_mpeg4_slice_parameter
  split
  · rename_i buffer_data obj_context _ hctx
    exact keeps_surfaces.of_context_write rfl rfl rfl hctx rfl
  · exact keeps_surfaces.refl _

theorem sunxi_cedrus_RenderPicture.dispatch_keeps (driver_data : sunxi_cedrus_driver_data)
    (vaStatus : VAStatus) (profile : VAProfile) (context : VAGenericID)
    (obj_surface : object_surface) (obj_buffer : object_buffer) :
    (sunxi_cedrus_RenderPicture.dispatch driver_data vaStatus profile context obj_surface
      obj_buffer).ends_in (keeps_surfaces driver_data) := by
  unfold sunxi_cedrus_RenderPicture.dispatch
  repeat' split
  all_goals first
    | exact sunxi_cedrus_render_mpeg2_slice_data_keeps _ _ _ _
    | exact sunxi_cedrus_render_mpeg2_picture_parameter_keeps _ _ _ _
    | exact sunxi_cedrus_render_mpeg4_slice_data_keeps _ _ _ _
    | exact sunxi_cedrus_render_mpeg4_picture_parameter_keeps _ _ _ _
    | exact sunxi_cedrus_render_mpeg4_slice_parameter_keeps _ _ _ _
    | exact keeps_surfaces.refl _

theorem sunxi_cedrus_RenderPicture.loop_keeps (profile : VAProfile) (context : VAGenericID)
    (obj_surface : object_surface) :
    ∀ (buffers : List VAGenericID) (driver_data : sunxi_cedrus_driver_data)
      (vaStatus : VAStatus),
      (sunxi_cedrus_RenderPicture.loop profile context obj_surface driver_data vaStatus
        buffers).ends_in (keeps_surfaces driver_data) := by
  intro buffers
  induction buffers with
  | nil => intro driver_data vaStatus; exact keeps_surfaces.refl _
  | cons buffer buffers ih =>
    intro driver_data vaStatus
    unfold sunxi_cedrus_RenderPicture.loop
    split
    · exact keeps_surfaces.refl _
    · rename_i obj_buffer _
      have hd := sunxi_cedrus_RenderPicture.dispatch_keeps driver_data vaStatus profile
        context obj_surface obj_buffer
      split
      · rename_i st _ d heq
        rw [heq] at hd
        exact Outcome.ends_in_mono (ih d st) fun _ h => keeps_surfaces.trans hd h
      · rename_i d heq
        rw [heq] at hd
        exact hd
      · trivial

/-- `sunxi_cedrus_RenderPicture` keeps the surfaces and the submission counters, however
it ends. -/
theorem sunxi_cedrus_RenderPicture_keeps (driver_data : sunxi_cedrus_driver_data)
    (context : VAGenericID) (buffers : List VAGenericID) :
    (sunxi_cedrus_RenderPicture driver_data context buffers).ends_in
      (keeps_surfaces driver_data) := by
  unfold sunxi_cedrus_RenderPicture
  repeat' split
  all_goals first
    | exact keeps_surfaces.refl _
    | exact sunxi_cedrus_RenderPicture.loop_keeps _ _ _ _ _ _

/-- `sunxi_cedrus_EndPicture` keeps the surfaces and the submission counters, however it
ends. -/
theorem sunxi_cedrus_EndPicture_keeps (driver_data : sunxi_cedrus_driver_data)
    (context : VAGenericID) :
    (sunxi_cedrus_EndPicture driver_data context).ends_in (keeps_surfaces driver_data) := by
  unfold sunxi_cedrus_EndPicture
  split
  · exact keeps_surfaces.refl _
  · rename_i obj_context hctx
    split
    · exact keeps_surfaces.refl _
    · have hkeep : ∀ d : sunxi_cedrus_driver_data,
          d.surface_heap = driver_data.surface_heap →
          d.num_dst_bufs = driver_data.num_dst_bufs →
          d.context_heap = driver_data.context_heap.write context
            { obj_context with current_render_target := -1 } →
          keeps_surfaces driver_data d := fun d h1 h2 h3 =>
        keeps_surfaces.of_context_write h1 h2 h3 hctx rfl
      apply sunxi_cedrus_driver_data.assert_issue_ends_in
      · exact hkeep _ rfl rfl rfl
      intro _
      apply sunxi_cedrus_driver_data.assert_issue_ends_in
      · exact hkeep _ rfl rfl rfl
      intro _
      exact hkeep _ rfl rfl rfl

/-! ### Begin picture -/

theorem sunxi_cedrus_BeginPicture.assign_traps (driver_data : sunxi_cedrus_driver_data)
    (context render_target : VAGenericID) (h0 : driver_data.num_dst_bufs = 0) :
    ∃ stopped, sunxi_cedrus_BeginPicture.assign driver_data context render_target =
      Outcome.aborted stopped := by
  unfold sunxi_cedrus_BeginPicture.assign
  split
  · rw [if_pos h0]; exact ⟨_, rfl⟩
  · exact ⟨_, rfl⟩

/-- A call of `sunxi_cedrus_BeginPicture` that returns had handles that resolve and at
least one capture buffer. -/
theorem sunxi_cedrus_BeginPicture_returned_inv {driver_data after : sunxi_cedrus_driver_data}
    {context render_target : VAGenericID} {vaStatus : VAStatus} {out : Unit}
    (h : sunxi_cedrus_BeginPicture driver_data context render_target =
      Outcome.returned vaStatus out after) :
    ∃ obj_context obj_surface, CONTEXT driver_data context = some obj_context ∧
      SURFACE driver_data render_target = some obj_surface ∧
      driver_data.num_dst_bufs ≠ 0 := by
  cases hc : CONTEXT driver_data context with
  | none =>
    unfold sunxi_cedrus_BeginPicture at h
    simp only [hc] at h
    cases h
  | some obj_context =>
    cases hs : SURFACE driver_data render_target with
    | none =>
      unfold sunxi_cedrus_BeginPicture at h
      simp only [hc, hs] at h
      cases h
    | some obj_surface =>
      refine ⟨obj_context, obj_surface, rfl, rfl, fun h0 => ?_⟩
      unfold sunxi_cedrus_BeginPicture at h
      simp only [hc, hs] at h
      split at h
      · obtain ⟨st, synced, hsync, _, _, _, _, hnum, _⟩ :=
          sunxi_cedrus_SyncSurface_spec driver_data render_target obj_surface hs
        rw [hsync] at h
        simp only [] at h
        obtain ⟨stopped, hstop⟩ := sunxi_cedrus_BeginPicture.assign_traps synced context
          render_target (hnum.trans h0)
        rw [hstop] at h
        cases h
      · obtain ⟨stopped, hstop⟩ := sunxi_cedrus_BeginPicture.assign_traps driver_data context
          render_target h0
        rw [hstop] at h
        cases h

theorem begin_pictures_spec (context : VAGenericID) :
    ∀ (render_targets : List VAGenericID) (driver_data : sunxi_cedrus_driver_data)
      (obj_context : object_context),
      CONTEXT driver_data context = some obj_context → driver_data.num_dst_bufs ≠ 0 →
      obj_context.num_rendered_surfaces < 2 ^ 32 →
      (∀ id ∈ render_targets, (SURFACE driver_data id).isSome) →
      ∃ assigned final,
        begin_pictures context driver_data render_targets = some (assigned, final) ∧
        assigned.map object_surface.input_buf_index =
          (List.range render_targets.length).map
            (fun k => (obj_context.num_rendered_surfaces + k) % INPUT_BUFFERS_NUMBER) ∧
        assigned.map object_surface.output_buf_index =
          (List.range render_targets.length).map
            (fun k => (obj_context.num_rendered_surfaces + k) % 2 ^ 32 %
              driver_data.num_dst_bufs) ∧
        assigned.map object_surface.request =
          (List.range render_targets.length).map
            (fun k => (obj_context.num_rendered_surfaces + k) % INPUT_BUFFERS_NUMBER + 1) ∧
        submission_count final context =
          some ((obj_context.num_rendered_surfaces + render_targets.length) % 2 ^ 32) := by
  intro render_targets
  induction render_targets with
  | nil =>
    intro driver_data obj_context hc _ hwidth _
    refine ⟨[], driver_data, rfl, rfl, rfl, rfl, ?_⟩
    simp only [submission_count, hc, Option.map_some', List.length_nil, Nat.add_zero,
      Nat.mod_eq_of_lt hwidth]
  | cons render_target rest ih =>
    intro driver_data obj_context hc hN hwidth hres
    obtain ⟨obj_surface, hs⟩ :=
      Option.isSome_iff_exists.mp (hres render_target (List.mem_cons_self _ _))
    obtain ⟨after, hret, _, _, _, hnum, hctx, hsurf, _, _⟩ :=
      sunxi_cedrus_BeginPicture_spec driver_data context render_target obj_context
        obj_surface hc hs hN
    have hc2 := hctx context
    rw [if_pos rfl] at hc2
    have hs2 := hsurf render_target
    rw [if_pos rfl] at hs2
    have hres2 : ∀ id ∈ rest, (SURFACE after id).isSome := by
      intro id hid
      rw [hsurf id]
      split
      · rfl
      · exact hres id (List.mem_cons_of_mem _ hid)
    obtain ⟨assigned, final, hrun, hin, hout, hreq, hcount⟩ :=
      ih after _ hc2 (by rw [hnum]; exact hN) (Nat.mod_lt _ (by decide)) hres2
    refine ⟨({ obj_surface with
        status := VASurfaceRendering
        request := obj_context.num_rendered_surfaces % INPUT_BUFFERS_NUMBER + 1
        input_buf_index := obj_context.num_rendered_surfaces % INPUT_BUFFERS_NUMBER
        output_buf_index := obj_context.num_rendered_surfaces % driver_data.num_dst_bufs }
          : object_surface) :: assigned, final, ?_, ?_, ?_, ?_, ?_⟩
    · unfold begin_pictures
      rw [hret]
      simp only [hs2, hrun]
    · simp only [List.map_cons, List.length_cons, List.range_succ_eq_map, List.map_map, hin]
      refine congrArg₂ _ rfl (List.map_congr_left fun k _ => ?_)
      simp only [Function.comp, INPUT_BUFFERS_NUMBER, Nat.succ_eq_add_one]
      omega
    · simp only [List.map_cons, List.length_cons, List.range_succ_eq_map, List.map_map, hout,
        hnum]
      refine congrArg₂ _ ?_ (List.map_congr_left fun k _ => ?_)
      · rw [Nat.add_zero, Nat.mod_eq_of_lt hwidth]
      · simp only [Function.comp, Nat.succ_eq_add_one]
        congr 1; omega
    · simp only [List.map_cons, List.length_cons, List.range_succ_eq_map, List.map_map, hreq]
      refine congrArg₂ _ rfl (List.map_congr_left fun k _ => ?_)
      simp only [Function.comp, INPUT_BUFFERS_NUMBER, Nat.succ_eq_add_one]
      omega
    · rw [hcount]
      simp only [List.length_cons]
      congr 1; omega

/-- C5, counterexample: on the example session with the counter of its context at
`n = 4294967295`, `sunxi_cedrus_BeginPicture` returns and leaves the counter at 0, not at
`n + 1 = 4294967296`: the counter is a 32-bit unsigned integer and wraps. -/
theorem C5_counter_wraps :
    submission_count session_wrapping session_context_id = some 4294967295 ∧
    session_wrapping.num_dst_bufs ≠ 0 ∧
    ∃ after,
      sunxi_cedrus_BeginPicture session_wrapping session_context_id (session_surface_id 0) =
        Outcome.returned VA_STATUS_SUCCESS () after ∧
      submission_count after session_context_id = some 0 ∧
      submission_count after session_context_id ≠ some (4294967295 + 1) := by
  refine ⟨rfl, by decide, ?_⟩
  obtain ⟨after, hret, _, _, _, _, hctx, _, _, _⟩ :=
    sunxi_cedrus_BeginPicture_spec session_wrapping session_context_id (session_surface_id 0)
      _ _ rfl rfl (by decide)
  have hcount : submission_count after session_context_id = some 0 := by
    unfold submission_count
    rw [hctx session_context_id, if_pos rfl]
    rfl
  refine ⟨after, hret, hcount, ?_⟩
  rw [hcount]
  decide

/-- C5, amended: the `n`-th `sunxi_cedrus_BeginPicture` on a context (`n` is the counter
`num_rendered_surfaces` of the context before the call), with at least one capture buffer,
returns and leaves the target surface with `input_buf_index = n mod 4` and
`output_buf_index = n mod num_dst_bufs`, and the counter at `(n + 1) mod 2^32`, which is
`n + 1` as long as `n + 1 < 2^32`; successive calls on any render targets that resolve are
assigned the input slots `(n + k) mod 4`, `k = 0, 1, ...`, a sequence of period 4, also
across the wrap of the counter, and the output slots `((n + k) mod 2^32) mod num_dst_bufs`. -/
theorem C5_ring_slots (driver_data : sunxi_cedrus_driver_data) (context : VAGenericID)
    (obj_context : object_context) (hc : CONTEXT driver_data context = some obj_context)
    (hN : driver_data.num_dst_bufs ≠ 0) :
    (∀ render_target obj_surface, SURFACE driver_data render_target = some obj_surface →
      ∃ after, sunxi_cedrus_BeginPicture driver_data context render_target =
          Outcome.returned VA_STATUS_SUCCESS () after ∧
        (SURFACE after render_target).map object_surface.input_buf_index =
          some (obj_context.num_rendered_surfaces % INPUT_BUFFERS_NUMBER) ∧
        (SURFACE after render_target).map object_surface.output_buf_index =
          some (obj_context.num_rendered_surfaces % driver_data.num_dst_bufs) ∧
        submission_count after context =
          some ((obj_context.num_rendered_surfaces + 1) % 2 ^ 32) ∧
        (obj_context.num_rendered_surfaces + 1 < 2 ^ 32 →
          submission_count after context = some (obj_context.num_rendered_surfaces + 1))) ∧
    (∀ render_targets : List VAGenericID,
      obj_context.num_rendered_surfaces < 2 ^ 32 →
      (∀ id ∈ render_targets, (SURFACE driver_data id).isSome) →
      ∃ assigned final,
        begin_pictures context driver_data render_targets = some (assigned, final) ∧
        assigned.map object_surface.input_buf_index =
          (List.range render_targets.length).map
            (fun k => (obj_context.num_rendered_surfaces + k) % INPUT_BUFFERS_NUMBER) ∧
        assigned.map object_surface.output_buf_index =
          (List.range render_targets.length).map
            (fun k => (obj_context.num_rendered_surfaces + k) % 2 ^ 32 %
              driver_data.num_dst_bufs) ∧
        submission_count final context =
          some ((obj_context.num_rendered_surfaces + render_targets.length) % 2 ^ 32)) ∧
    (∀ k, (obj_context.num_rendered_surfaces + (k + INPUT_BUFFERS_NUMBER)) %
        INPUT_BUFFERS_NUMBER =
      (obj_context.num_rendered_surfaces + k) % INPUT_BUFFERS_NUMBER) := by
  refine ⟨?_, ?_, ?_⟩
  · intro render_target obj_surface hs
    obtain ⟨after, hret, _, _, _, _, hctx, hsurf, _, _⟩ :=
      sunxi_cedrus_BeginPicture_spec driver_data context render_target obj_context
        obj_surface hc hs hN
    have hcount : submission_count after context =
        some ((obj_context.num_rendered_surfaces + 1) % 2 ^ 32) := by
      unfold submission_count
      rw [hctx context, if_pos rfl]; rfl
    refine ⟨after, hret, ?_, ?_, hcount, ?_⟩
    · rw [hsurf render_target, if_pos rfl]; rfl
    · rw [hsurf render_target, if_pos rfl]; rfl
    · intro hlt
      rw [hcount, Nat.mod_eq_of_lt hlt]
  · intro render_targets hwidth hres
    obtain ⟨assigned, final, hrun, hin, hout, _, hcount⟩ :=
      begin_pictures_spec context render_targets driver_data obj_context hc hN hwidth hres
    exact ⟨assigned, final, hrun, hin, hout, hcount⟩
  · intro k
    simp only [INPUT_BUFFERS_NUMBER]
    omega

/-- C5, amended, at the scenario of the specification: six `sunxi_cedrus_BeginPicture`
calls on the six distinct surfaces of the freshly created context of the example session
are assigned the input slots `[0, 1, 2, 3, 0, 1]`; and two calls on the example session with
the counter at `2^32 - 1` are assigned the input slots `[3, 0]` and the output slots
`[3, 0]`, and leave the counter at 1. -/
theorem C5_ring_slots_witness :
    CONTEXT session_driver_data session_context_id ≠ none ∧
    session_driver_data.num_dst_bufs ≠ 0 ∧
    ((List.range 6).map session_surface_id).Nodup ∧
    (∃ assigned final,
      begin_pictures session_context_id session_driver_data
        ((List.range 6).map session_surface_id) = some (assigned, final) ∧
      assigned.map object_surface.input_buf_index = [0, 1, 2, 3, 0, 1] ∧
      assigned.map object_surface.output_buf_index = [0, 1, 2, 3, 4, 5] ∧
      submission_count final session_context_id = some 6) ∧
    (∃ assigned final,
      begin_pictures session_context_id session_wrapping
        ((List.range 2).map session_surface_id) = some (assigned, final) ∧
      assigned.map object_surface.input_buf_index = [3, 0] ∧
      assigned.map object_surface.output_buf_index = [3, 0] ∧
      submission_count final session_context_id = some 1) := by
  refine ⟨by decide, by decide, by decide, ?_, ?_⟩
  · obtain ⟨assigned, final, hrun, hin, hout, hcount⟩ :=
      (C5_ring_slots session_driver_data session_context_id _ rfl (by decide)).2.1
        ((List.range 6).map session_surface_id) (by decide) (by decide)
    exact ⟨assigned, final, hrun, hin, hout, hcount⟩
  · obtain ⟨assigned, final, hrun, hin, hout, hcount⟩ :=
      (C5_ring_slots session_wrapping session_context_id _ rfl (by decide)).2.1
        ((List.range 2).map session_surface_id) (by decide) (by decide)
    exact ⟨assigned, final, hrun, hin, hout, hcount⟩

/-- C6, counterexample: five successive `sunxi_cedrus_BeginPicture` calls on the fresh
context of the example session are assigned the request ids `[1, 2, 3, 4, 1]`: the call with
`n = 4` gets request id 1, not `n + 1 = 5`, and it is the id the first call got. -/
theorem C6_request_id_wraps :
    ∃ assigned final,
      begin_pictures session_context_id session_driver_data
        ((List.range 5).map session_surface_id) = some (assigned, final) ∧
      assigned.map object_surface.request = [1, 2, 3, 4, 1] ∧
      assigned.map object_surface.request ≠ (List.range 5).map (fun n => n + 1) ∧
      ¬ (assigned.map object_surface.request).Nodup := by
  obtain ⟨assigned, final, hrun, _, _, hreq, _⟩ :=
    begin_pictures_spec session_context_id ((List.range 5).map session_surface_id)
      session_driver_data _ rfl (by decide) (by decide) (by decide)
  refine ⟨assigned, final, hrun, hreq, ?_, ?_⟩
  · rw [hreq]; decide
  · rw [hreq]; decide

/-- C6, amended: the `n`-th `sunxi_cedrus_BeginPicture` on a context assigns the request id
`(n mod 4) + 1` to the target surface; this is `n + 1` for `n < 4`, it lies between 1 and 4,
and it differs from the request ids `((n - k) mod 4) + 1` of the three submissions before
it. -/
theorem C6_request_id (driver_data : sunxi_cedrus_driver_data)
    (context render_target : VAGenericID) (obj_context : object_context)
    (obj_surface : object_surface) (hc : CONTEXT driver_data context = some obj_context)
    (hs : SURFACE driver_data render_target = some obj_surface)
    (hN : driver_data.num_dst_bufs ≠ 0) :
    ∃ after request,
      sunxi_cedrus_BeginPicture driver_data context render_target =
        Outcome.returned VA_STATUS_SUCCESS () after ∧
      (SURFACE after render_target).map object_surface.request = some request ∧
      request = obj_context.num_rendered_surfaces % INPUT_BUFFERS_NUMBER + 1 ∧
      (obj_context.num_rendered_surfaces < INPUT_BUFFERS_NUMBER →
        request = obj_context.num_rendered_surfaces + 1) ∧
      1 ≤ request ∧ request ≤ INPUT_BUFFERS_NUMBER ∧
      (∀ k, 1 ≤ k → k < INPUT_BUFFERS_NUMBER → k ≤ obj_context.num_rendered_surfaces →
        (obj_context.num_rendered_surfaces - k) % INPUT_BUFFERS_NUMBER + 1 ≠ request) := by
  obtain ⟨after, hret, _, _, _, _, _, hsurf, _, _⟩ :=
    sunxi_cedrus_BeginPicture_spec driver_data context render_target obj_context
      obj_surface hc hs hN
  refine ⟨after, obj_context.num_rendered_surfaces % INPUT_BUFFERS_NUMBER + 1, hret, ?_, rfl,
    ?_, ?_, ?_, ?_⟩
  · rw [hsurf render_target, if_pos rfl]; rfl
  · intro h; simp only [INPUT_BUFFERS_NUMBER] at h ⊢; omega
  · omega
  · simp only [INPUT_BUFFERS_NUMBER]; omega
  · intro k h1 h2 h3
    simp only [INPUT_BUFFERS_NUMBER] at h2 ⊢
    omega

/-- C6, amended, at an example: the first `sunxi_cedrus_BeginPicture` of the example
session. -/
theorem C6_request_id_witness :
    CONTEXT session_driver_data session_context_id ≠ none ∧
    SURFACE session_driver_data (session_surface_id 0) ≠ none ∧
    session_driver_data.num_dst_bufs ≠ 0 ∧
    ∃ after request,
      sunxi_cedrus_BeginPicture session_driver_data session_context_id (session_surface_id 0) =
        Outcome.returned VA_STATUS_SUCCESS () after ∧
      (SURFACE after (session_surface_id 0)).map object_surface.request = some request ∧
      request = 1 := by
  refine ⟨by decide, by decide, by decide, ?_⟩
  obtain ⟨after, request, hret, hreq, heq, _⟩ :=
    C6_request_id session_driver_data session_context_id (session_surface_id 0) _ _ rfl rfl
      (by decide)
  exact ⟨after, request, hret, hreq, heq⟩

/-- C9, counterexample: on the example session, `sunxi_cedrus_BeginPicture` with a context
id that does not resolve, or with a surface id that does not resolve, stops at the failed
`assert`; it does not return `INVALID_CONTEXT` or `INVALID_SURFACE`, nor any other
status. -/
theorem C9_begin_picture_asserts :
    CONTEXT session_driver_data 0 = none ∧
    sunxi_cedrus_BeginPicture session_driver_data 0 (session_surface_id 0) =
      Outcome.aborted session_driver_data ∧
    SURFACE session_driver_data 0 = none ∧
    sunxi_cedrus_BeginPicture session_driver_data session_context_id 0 =
      Outcome.aborted session_driver_data :=
  ⟨rfl, rfl, rfl, rfl⟩

/-- C9, amended: `sunxi_cedrus_BeginPicture` with a context id or a surface id that does
not resolve stops at the failed `assert`, in the state in which it was called (nothing is
changed and no device operation is issued before); it never returns a status other than
success. -/
theorem C9_begin_picture_invalid_handles (driver_data : sunxi_cedrus_driver_data)
    (context render_target : VAGenericID) :
    (CONTEXT driver_data context = none →
      sunxi_cedrus_BeginPicture driver_data context render_target =
        Outcome.aborted driver_data) ∧
    (SURFACE driver_data render_target = none →
      sunxi_cedrus_BeginPicture driver_data context render_target =
        Outcome.aborted driver_data) ∧
    (∀ vaStatus out after,
      sunxi_cedrus_BeginPicture driver_data context render_target =
        Outcome.returned vaStatus out after → vaStatus = VA_STATUS_SUCCESS) := by
  refine ⟨?_, ?_, ?_⟩
  · intro hc
    unfold sunxi_cedrus_BeginPicture
    simp only [hc]
  · intro hs
    unfold sunxi_cedrus_BeginPicture
    cases hc : CONTEXT driver_data context <;> simp only [hs]
  · intro vaStatus out after h
    obtain ⟨obj_context, obj_surface, hc, hs, hN⟩ := sunxi_cedrus_BeginPicture_returned_inv h
    obtain ⟨after2, hret, _⟩ :=
      sunxi_cedrus_BeginPicture_spec driver_data context render_target obj_context
        obj_surface hc hs hN
    rw [hret] at h
    cases h
    rfl

/-- C9, amended, at an example: the two unresolvable handles on the example session. -/
theorem C9_begin_picture_invalid_handles_witness :
    (CONTEXT session_driver_data 0 = none ∧
      sunxi_cedrus_BeginPicture session_driver_data 0 (session_surface_id 0) =
        Outcome.aborted session_driver_data) ∧
    (SURFACE session_driver_data 0 = none ∧
      sunxi_cedrus_BeginPicture session_driver_data session_context_id 0 =
        Outcome.aborted session_driver_data) :=
  ⟨⟨rfl, (C9_begin_picture_invalid_handles session_driver_data 0 (session_surface_id 0)).1 rfl⟩,
    ⟨rfl, (C9_begin_picture_invalid_handles session_driver_data session_context_id 0).2.1 rfl⟩⟩

/-! ### Synchronisation inside begin picture -/

/-- On a device that answers success to everything, `sunxi_cedrus_SyncSurface` on a
surface that resolves returns success after exactly the readiness wait, the dequeue of the
input buffer at the `input_buf_index` of the surface, the dequeue of the capture buffer at
its `output_buf_index`, and the re-queue of the capture buffer the device handed back. -/
theorem sunxi_cedrus_SyncSurface_trace (driver_data : sunxi_cedrus_driver_data)
    (render_target : VAGenericID) (obj_surface : object_surface)
    (h : SURFACE driver_data render_target = some obj_surface)
    (hok : driver_data.mem2mem_fd.all_ok) :
    ∃ after, sunxi_cedrus_SyncSurface driver_data render_target =
        Outcome.returned VA_STATUS_SUCCESS () after ∧
      after.mem2mem_fd.respond = driver_data.mem2mem_fd.respond ∧
      after.mem2mem_fd.trace = driver_data.mem2mem_fd.trace ++
        [DeviceOp.select,
          DeviceOp.VIDIOC_DQBUF V4L2_BUF_TYPE_VIDEO_OUTPUT_MPLANE obj_surface.input_buf_index,
          DeviceOp.VIDIOC_DQBUF V4L2_BUF_TYPE_VIDEO_CAPTURE_MPLANE obj_surface.output_buf_index,
          DeviceOp.VIDIOC_QBUF V4L2_BUF_TYPE_VIDEO_CAPTURE_MPLANE
            (driver_data.mem2mem_fd.respond
              (driver_data.mem2mem_fd.trace ++
                [DeviceOp.select,
                  DeviceOp.VIDIOC_DQBUF V4L2_BUF_TYPE_VIDEO_OUTPUT_MPLANE
                    obj_surface.input_buf_index])
              (DeviceOp.VIDIOC_DQBUF V4L2_BUF_TYPE_VIDEO_CAPTURE_MPLANE
                obj_surface.output_buf_index)).index 0] := by
  have h1 : SURFACE (driver_data.issue DeviceOp.select).2 render_target = some obj_surface := h
  unfold sunxi_cedrus_SyncSurface
  simp only [h1]
  simp only [sunxi_cedrus_driver_data.issue, Device.call, hok _ _, Bool.not_true,
    Bool.false_eq_true, if_false]
  refine ⟨_, rfl, rfl, ?_⟩
  simp only [List.append_assoc, List.singleton_append, List.cons_append, List.nil_append]

/-- The device operations of `sunxi_cedrus_SyncSurface` on a surface that resolves: the
readiness wait and the dequeue of the input buffer; then, when that dequeue succeeded, the
dequeue of the capture buffer; then, when that dequeue succeeded too, the re-queue of the
capture buffer the device handed back. -/
theorem sunxi_cedrus_SyncSurface_traces (driver_data : sunxi_cedrus_driver_data)
    (render_target : VAGenericID) (obj_surface : object_surface)
    (h : SURFACE driver_data render_target = some obj_surface) :
    ∃ (vaStatus : VAStatus) (after : sunxi_cedrus_driver_data),
      sunxi_cedrus_SyncSurface driver_data render_target =
        Outcome.returned vaStatus () after ∧
      ((driver_data.mem2mem_fd.respond (driver_data.mem2mem_fd.trace ++ [DeviceOp.select])
          (DeviceOp.VIDIOC_DQBUF V4L2_BUF_TYPE_VIDEO_OUTPUT_MPLANE
            obj_surface.input_buf_index)).ok = true →
        (driver_data.mem2mem_fd.respond
          (driver_data.mem2mem_fd.trace ++
            [DeviceOp.select,
              DeviceOp.VIDIOC_DQBUF V4L2_BUF_TYPE_VIDEO_OUTPUT_MPLANE
                obj_surface.input_buf_index])
          (DeviceOp.VIDIOC_DQBUF V4L2_BUF_TYPE_VIDEO_CAPTURE_MPLANE
            obj_surface.output_buf_index)).ok = true →
        after.mem2mem_fd.trace = driver_data.mem2mem_fd.trace ++
          [DeviceOp.select,
            DeviceOp.VIDIOC_DQBUF V4L2_BUF_TYPE_VIDEO_OUTPUT_MPLANE
              obj_surface.input_buf_index,
            DeviceOp.VIDIOC_DQBUF V4L2_BUF_TYPE_VIDEO_CAPTURE_MPLANE
              obj_surface.output_buf_index,
            DeviceOp.VIDIOC_QBUF V4L2_BUF_TYPE_VIDEO_CAPTURE_MPLANE
              (driver_data.mem2mem_fd.respond
                (driver_data.mem2mem_fd.trace ++
                  [DeviceOp.select,
                    DeviceOp.VIDIOC_DQBUF V4L2_BUF_TYPE_VIDEO_OUTPUT_MPLANE
                      obj_surface.input_buf_index])
                (DeviceOp.VIDIOC_DQBUF V4L2_BUF_TYPE_VIDEO_CAPTURE_MPLANE
                  obj_surface.output_buf_index)).index 0]) ∧
      ((driver_data.mem2mem_fd.respond (driver_data.mem2mem_fd.trace ++ [DeviceOp.select])
          (DeviceOp.VIDIOC_DQBUF V4L2_BUF_TYPE_VIDEO_OUTPUT_MPLANE
            obj_surface.input_buf_index)).ok = true →
        (driver_data.mem2mem_fd.respond
          (driver_data.mem2mem_fd.trace ++
            [DeviceOp.select,
              DeviceOp.VIDIOC_DQBUF V4L2_BUF_TYPE_VIDEO_OUTPUT_MPLANE
                obj_surface.input_buf_index])
          (DeviceOp.VIDIOC_DQBUF V4L2_BUF_TYPE_VIDEO_CAPTURE_MPLANE
            obj_surface.output_buf_index)).ok = false →
        after.mem2mem_fd.trace = driver_data.mem2mem_fd.trace ++
          [DeviceOp.select,
            DeviceOp.VIDIOC_DQBUF V4L2_BUF_TYPE_VIDEO_OUTPUT_MPLANE
              obj_surface.input_buf_index,
            DeviceOp.VIDIOC_DQBUF V4L2_BUF_TYPE_VIDEO_CAPTURE_MPLANE
              obj_surface.output_buf_index]) ∧
      ((driver_data.mem2mem_fd.respond (driver_data.mem2mem_fd.trace ++ [DeviceOp.select])
          (DeviceOp.VIDIOC_DQBUF V4L2_BUF_TYPE_VIDEO_OUTPUT_MPLANE
            obj_surface.input_buf_index)).ok = false →
        after.mem2mem_fd.trace = driver_data.mem2mem_fd.trace ++
          [DeviceOp.select,
            DeviceOp.VIDIOC_DQBUF V4L2_BUF_TYPE_VIDEO_OUTPUT_MPLANE
              obj_surface.input_buf_index]) := by
  have h1 : SURFACE (driver_data.issue DeviceOp.select).2 render_target = some obj_surface := h
  unfold sunxi_cedrus_SyncSurface
  simp only [h1]
  simp only [sunxi_cedrus_driver_data.issue, Device.call, List.append_assoc,
    List.singleton_append, List.cons_append, List.nil_append]
  split
  · rename_i hfail
    refine ⟨_, _, rfl, ?_, ?_, ?_⟩
    · intro hr1; simp [hr1] at hfail
    · intro hr1; simp [hr1] at hfail
    · intro _; rfl
  · rename_i hfirst
    split
    · rename_i hfail
      refine ⟨_, _, rfl, ?_, ?_, ?_⟩
      · intro _ hr2; simp [hr2] at hfail
      · intro _ _; rfl
      · intro hr1; simp [hr1] at hfirst
    · rename_i hsecond
      split
      · refine ⟨_, _, rfl, ?_, ?_, ?_⟩
        · intro _ _; rfl
        · intro _ hr2; simp [hr2] at hsecond
        · intro hr1; simp [hr1] at hfirst
      · refine ⟨_, _, rfl, ?_, ?_, ?_⟩
        · intro _ _; rfl
        · intro _ hr2; simp [hr2] at hsecond
        · intro hr1; simp [hr1] at hfirst

/-- C8, counterexample: on the example session with surface 0 being rendered and a device
that refuses the dequeue of the input buffer, `sunxi_cedrus_BeginPicture` on surface 0
returns success and assigns the new slots 1 and 1 and the request id 2, although the
synchronisation ended at the refused dequeue: the capture buffer was neither dequeued nor
re-queued. -/
theorem C8_begin_picture_sync_cut_short :
    (SURFACE (session_rendering_refused 1) (session_surface_id 0)).map object_surface.status =
      some VASurfaceRendering ∧
    (session_rendering_refused 1).mem2mem_fd.trace = [] ∧
    ∃ after,
      sunxi_cedrus_BeginPicture (session_rendering_refused 1) session_context_id
          (session_surface_id 0) =
        Outcome.returned VA_STATUS_SUCCESS () after ∧
      after.mem2mem_fd.trace =
        [DeviceOp.select, DeviceOp.VIDIOC_DQBUF V4L2_BUF_TYPE_VIDEO_OUTPUT_MPLANE 0] ∧
      (SURFACE after (session_surface_id 0)).map
          (fun s => (s.status, s.input_buf_index, s.output_buf_index, s.request)) =
        some (VASurfaceRendering, 1, 1, 2) :=
  ⟨rfl, rfl, _, rfl, rfl, rfl⟩

/-- C8, amended: `sunxi_cedrus_BeginPicture` on a surface whose status is
`VASurfaceRendering` is `sunxi_cedrus_SyncSurface` on that surface followed by the
assignments, made in the state the synchronisation left, whatever status the synchronisation
returned; the call returns success, the device sees nothing but the synchronisation, and
the surface has its new slots and request id and status `VASurfaceRendering`. When both
dequeues succeed, the device operations are the readiness wait, the dequeue of the input
buffer and the dequeue of the capture buffer at the slots the surface had before the call,
and the re-queue of the capture buffer; when a dequeue fails, they end at that dequeue. On
a surface whose status is `VASurfaceReady` the call leaves the device as it was: no device
operation is issued. -/
theorem C8_begin_picture_syncs_first (driver_data : sunxi_cedrus_driver_data)
    (context render_target : VAGenericID) (obj_context : object_context)
    (obj_surface : object_surface) (hc : CONTEXT driver_data context = some obj_context)
    (hs : SURFACE driver_data render_target = some obj_surface)
    (hN : driver_data.num_dst_bufs ≠ 0) :
    (obj_surface.status = VASurfaceRendering →
      ∃ vaStatus synced after,
        sunxi_cedrus_SyncSurface driver_data render_target =
          Outcome.returned vaStatus () synced ∧
        sunxi_cedrus_BeginPicture driver_data context render_target =
          sunxi_cedrus_BeginPicture.assign synced context render_target ∧
        sunxi_cedrus_BeginPicture driver_data context render_target =
          Outcome.returned VA_STATUS_SUCCESS () after ∧
        after.mem2mem_fd = synced.mem2mem_fd ∧
        SURFACE after render_target = some
          { obj_surface with
            status := VASurfaceRendering
            request := obj_context.num_rendered_surfaces % INPUT_BUFFERS_NUMBER + 1
            input_buf_index := obj_context.num_rendered_surfaces % INPUT_BUFFERS_NUMBER
            output_buf_index := obj_context.num_rendered_surfaces % driver_data.num_dst_bufs } ∧
        ((driver_data.mem2mem_fd.respond (driver_data.mem2mem_fd.trace ++ [DeviceOp.select])
            (DeviceOp.VIDIOC_DQBUF V4L2_BUF_TYPE_VIDEO_OUTPUT_MPLANE
              obj_surface.input_buf_index)).ok = true →
          (driver_data.mem2mem_fd.respond
            (driver_data.mem2mem_fd.trace ++
              [DeviceOp.select,
                DeviceOp.VIDIOC_DQBUF V4L2_BUF_TYPE_VIDEO_OUTPUT_MPLANE
                  obj_surface.input_buf_index])
            (DeviceOp.VIDIOC_DQBUF V4L2_BUF_TYPE_VIDEO_CAPTURE_MPLANE
              obj_surface.output_buf_index)).ok = true →
          after.mem2mem_fd.trace = driver_data.mem2mem_fd.trace ++
            [DeviceOp.select,
              DeviceOp.VIDIOC_DQBUF V4L2_BUF_TYPE_VIDEO_OUTPUT_MPLANE
                obj_surface.input_buf_index,
              DeviceOp.VIDIOC_DQBUF V4L2_BUF_TYPE_VIDEO_CAPTURE_MPLANE
                obj_surface.output_buf_index,
              DeviceOp.VIDIOC_QBUF V4L2_BUF_TYPE_VIDEO_CAPTURE_MPLANE
                (driver_data.mem2mem_fd.respond
                  (driver_data.mem2mem_fd.trace ++
                    [DeviceOp.select,
                      DeviceOp.VIDIOC_DQBUF V4L2_BUF_TYPE_VIDEO_OUTPUT_MPLANE
                        obj_surface.input_buf_index])
                  (DeviceOp.VIDIOC_DQBUF V4L2_BUF_TYPE_VIDEO_CAPTURE_MPLANE
                    obj_surface.output_buf_index)).index 0]) ∧
        ((driver_data.mem2mem_fd.respond (driver_data.mem2mem_fd.trace ++ [DeviceOp.select])
            (DeviceOp.VIDIOC_DQBUF V4L2_BUF_TYPE_VIDEO_OUTPUT_MPLANE
              obj_surface.input_buf_index)).ok = true →
          (driver_data.mem2mem_fd.respond
            (driver_data.mem2mem_fd.trace ++
              [DeviceOp.select,
                DeviceOp.VIDIOC_DQBUF V4L2_BUF_TYPE_VIDEO_OUTPUT_MPLANE
                  obj_surface.input_buf_index])
            (DeviceOp.VIDIOC_DQBUF V4L2_BUF_TYPE_VIDEO_CAPTURE_MPLANE
              obj_surface.output_buf_index)).ok = false →
          after.mem2mem_fd.trace = driver_data.mem2mem_fd.trace ++
            [DeviceOp.select,
              DeviceOp.VIDIOC_DQBUF V4L2_BUF_TYPE_VIDEO_OUTPUT_MPLANE
                obj_surface.input_buf_index,
              DeviceOp.VIDIOC_DQBUF V4L2_BUF_TYPE_VIDEO_CAPTURE_MPLANE
                obj_surface.output_buf_index]) ∧
        ((driver_data.mem2mem_fd.respond (driver_data.mem2mem_fd.trace ++ [DeviceOp.select])
            (DeviceOp.VIDIOC_DQBUF V4L2_BUF_TYPE_VIDEO_OUTPUT_MPLANE
              obj_surface.input_buf_index)).ok = false →
          after.mem2mem_fd.trace = driver_data.mem2mem_fd.trace ++
            [DeviceOp.select,
              DeviceOp.VIDIOC_DQBUF V4L2_BUF_TYPE_VIDEO_OUTPUT_MPLANE
                obj_surface.input_buf_index])) ∧
    (obj_surface.status = VASurfaceReady →
      ∃ after,
        sunxi_cedrus_BeginPicture driver_data context render_target =
          Outcome.returned VA_STATUS_SUCCESS () after ∧
        after.mem2mem_fd = driver_data.mem2mem_fd) := by
  obtain ⟨after, hret, _, _, _, _, _, hsurf, hready, hrend⟩ :=
    sunxi_cedrus_BeginPicture_spec driver_data context render_target obj_context
      obj_surface hc hs hN
  constructor
  · intro hr
    obtain ⟨vaStatus, synced, hsync, hdev⟩ := hrend hr
    obtain ⟨vaStatus2, synced2, hsync2, hfull, hsecond, hfirst⟩ :=
      sunxi_cedrus_SyncSurface_traces driver_data render_target obj_surface hs
    rw [hsync] at hsync2
    cases hsync2
    refine ⟨vaStatus, synced, after, hsync, ?_, hret, hdev, ?_, ?_, ?_, ?_⟩
    · unfold sunxi_cedrus_BeginPicture
      simp only [hc, hs, hr, if_true, hsync]
    · rw [hsurf render_target, if_pos rfl]
    · intro h1 h2
      rw [hdev, hfull h1 h2]
    · intro h1 h2
      rw [hdev, hsecond h1 h2]
    · intro h1
      rw [hdev, hfirst h1]
  · intro hr
    exact ⟨after, hret, hready (by rw [hr]; decide)⟩

theorem Device.willing_all_ok : Device.willing.all_ok := by
  intro trace op
  cases op <;> rfl

/-- C8, amended, at the scenario of the specification: two `sunxi_cedrus_BeginPicture`
calls on the same surface of the example session with no `sunxi_cedrus_SyncSurface` in
between. The second call finds the surface being rendered with slots 0 and 0, issues the
wait, the two dequeues at these slots and the re-queue, and then gives the surface the slots
1 and 1 and the request id 2; on a device that refuses the dequeue of the capture buffer,
the call returns success after the wait and the two dequeues. -/
theorem C8_begin_picture_syncs_first_witness :
    (SURFACE session_rendering (session_surface_id 0)).map object_surface.status =
      some VASurfaceRendering ∧
    session_rendering.mem2mem_fd.trace = [] ∧
    ∃ after,
      sunxi_cedrus_BeginPicture session_rendering session_context_id (session_surface_id 0) =
        Outcome.returned VA_STATUS_SUCCESS () after ∧
      after.mem2mem_fd.trace =
        [DeviceOp.select,
          DeviceOp.VIDIOC_DQBUF V4L2_BUF_TYPE_VIDEO_OUTPUT_MPLANE 0,
          DeviceOp.VIDIOC_DQBUF V4L2_BUF_TYPE_VIDEO_CAPTURE_MPLANE 0,
          DeviceOp.VIDIOC_QBUF V4L2_BUF_TYPE_VIDEO_CAPTURE_MPLANE 0 0] ∧
      (SURFACE after (session_surface_id 0)).map
          (fun s => (s.status, s.input_buf_index, s.output_buf_index, s.request)) =
        some (VASurfaceRendering, 1, 1, 2) ∧
      ∃ after_refused,
        sunxi_cedrus_BeginPicture (session_rendering_refused 2) session_context_id
            (session_surface_id 0) =
          Outcome.returned VA_STATUS_SUCCESS () after_refused ∧
        after_refused.mem2mem_fd.trace =
          [DeviceOp.select,
            DeviceOp.VIDIOC_DQBUF V4L2_BUF_TYPE_VIDEO_OUTPUT_MPLANE 0,
            DeviceOp.VIDIOC_DQBUF V4L2_BUF_TYPE_VIDEO_CAPTURE_MPLANE 0] := by
  refine ⟨rfl, rfl, ?_⟩
  obtain ⟨_, _, after, _, _, hret, _, hsurf, htrace, _, _⟩ :=
    (C8_begin_picture_syncs_first session_rendering session_context_id (session_surface_id 0)
      _ _ rfl rfl (by decide)).1 rfl
  obtain ⟨_, _, after_refused, _, _, hret2, _, _, _, htrace2, _⟩ :=
    (C8_begin_picture_syncs_first (session_rendering_refused 2) session_context_id
      (session_surface_id 0) _ _ rfl rfl (by decide)).1 rfl
  refine ⟨after, hret, ?_, ?_, after_refused, hret2, ?_⟩
  · rw [htrace rfl rfl]; rfl
  · rw [hsurf]; rfl
  · rw [htrace2 rfl rfl]; rfl

/-! ### Status transitions -/

theorem sunxi_cedrus_SyncSurface_returned_inv {driver_data after : sunxi_cedrus_driver_data}
    {render_target : VAGenericID} {vaStatus : VAStatus} {out : Unit}
    (h : sunxi_cedrus_SyncSurface driver_data render_target =
      Outcome.returned vaStatus out after) :
    ∃ obj_surface, SURFACE driver_data render_target = some obj_surface := by
  cases hs : SURFACE driver_data render_target with
  | some obj_surface => exact ⟨obj_surface, rfl⟩
  | none =>
    have h1 : SURFACE (driver_data.issue DeviceOp.select).2 render_target = none := hs
    unfold sunxi_cedrus_SyncSurface at h
    simp only [h1] at h
    cases h

/-- C10: every `sunxi_cedrus_BeginPicture` that returns leaves its target surface with
status `VASurfaceRendering`, every `sunxi_cedrus_SyncSurface` that returns success leaves
its surface with status `VASurfaceReady`, and neither changes another surface;
`sunxi_cedrus_RenderPicture` and `sunxi_cedrus_EndPicture` leave the whole surface heap as
it was, however they end; `sunxi_cedrus_QuerySurfaceStatus` stores the status the surface
has and leaves the driver state as it was. -/
theorem C10_status_transitions (driver_data : sunxi_cedrus_driver_data) :
    (∀ context render_target vaStatus out after,
      sunxi_cedrus_BeginPicture driver_data context render_target =
        Outcome.returned vaStatus out after →
      (SURFACE after render_target).map object_surface.status = some VASurfaceRendering ∧
      ∀ id, id ≠ render_target → SURFACE after id = SURFACE driver_data id) ∧
    (∀ render_target out after,
      sunxi_cedrus_SyncSurface driver_data render_target =
        Outcome.returned VA_STATUS_SUCCESS out after →
      (SURFACE after render_target).map object_surface.status = some VASurfaceReady ∧
      ∀ id, id ≠ render_target → SURFACE after id = SURFACE driver_data id) ∧
    (∀ context buffers,
      (sunxi_cedrus_RenderPicture driver_data context buffers).ends_in
        (fun after => after.surface_heap = driver_data.surface_heap)) ∧
    (∀ context,
      (sunxi_cedrus_EndPicture driver_data context).ends_in
        (fun after => after.surface_heap = driver_data.surface_heap)) ∧
    (∀ render_target,
      sunxi_cedrus_QuerySurfaceStatus driver_data render_target =
        match SURFACE driver_data render_target with
        | some obj_surface =>
          Outcome.returned VA_STATUS_SUCCESS obj_surface.status driver_data
        | none => Outcome.aborted driver_data) := by
  refine ⟨?_, ?_, ?_, ?_, ?_⟩
  · intro context render_target vaStatus out after h
    obtain ⟨obj_context, obj_surface, hc, hs, hN⟩ := sunxi_cedrus_BeginPicture_returned_inv h
    obtain ⟨after2, hret, _, _, _, _, _, hsurf, _, _⟩ :=
      sunxi_cedrus_BeginPicture_spec driver_data context render_target obj_context
        obj_surface hc hs hN
    rw [hret] at h
    cases h
    constructor
    · rw [hsurf render_target, if_pos rfl]; rfl
    · intro id hne
      rw [hsurf id, if_neg hne]
  · intro render_target out after h
    obtain ⟨obj_surface, hs⟩ := sunxi_cedrus_SyncSurface_returned_inv h
    obtain ⟨vaStatus, after2, hret, _, _, _, _, _, hothers, _, hready⟩ :=
      sunxi_cedrus_SyncSurface_spec driver_data render_target obj_surface hs
    rw [hret] at h
    cases h
    exact ⟨by rw [hready rfl]; rfl, hothers⟩
  · intro context buffers
    exact Outcome.ends_in_mono (sunxi_cedrus_RenderPicture_keeps driver_data context buffers)
      fun _ h => h.1
  · intro context
    exact Outcome.ends_in_mono (sunxi_cedrus_EndPicture_keeps driver_data context)
      fun _ h => h.1
  · intro render_target
    unfold sunxi_cedrus_QuerySurfaceStatus
    cases SURFACE driver_data render_target <;> rfl

/-- C10, at an example: on the example session a first `sunxi_cedrus_BeginPicture` leaves
surface 0 with status `VASurfaceRendering`, and the `sunxi_cedrus_SyncSurface` that follows
returns success and leaves it with status `VASurfaceReady`. -/
theorem C10_status_transitions_witness :
    ∃ begun synced,
      sunxi_cedrus_BeginPicture session_driver_data session_context_id (session_surface_id 0) =
        Outcome.returned VA_STATUS_SUCCESS () begun ∧
      (SURFACE begun (session_surface_id 0)).map object_surface.status =
        some VASurfaceRendering ∧
      sunxi_cedrus_SyncSurface begun (session_surface_id 0) =
        Outcome.returned VA_STATUS_SUCCESS () synced ∧
      (SURFACE synced (session_surface_id 0)).map object_surface.status =
        some VASurfaceReady :=
  ⟨_, _, rfl,
    ((C10_status_transitions session_driver_data).1 session_context_id (session_surface_id 0)
      VA_STATUS_SUCCESS () _ rfl).1,
    rfl,
    ((C10_status_transitions session_rendering).2.1 (session_surface_id 0) () _ rfl).1⟩

/-! ### The input-slot ring -/

/-- After a `sunxi_cedrus_SyncSurface` that returns, every surface being rendered was
being rendered before the call, with the same input slot. -/
theorem sunxi_cedrus_SyncSurface_rendering {before after : sunxi_cedrus_driver_data}
    {render_target : VAGenericID} {vaStatus : VAStatus} {out : Unit}
    (hret : sunxi_cedrus_SyncSurface before render_target =
      Outcome.returned vaStatus out after) :
    (∀ id, CONTEXT after id = CONTEXT before id) ∧
    ∀ id s1, SURFACE after id = some s1 → s1.status = VASurfaceRendering →
      ∃ s0, SURFACE before id = some s0 ∧ s0.status = VASurfaceRendering ∧
        s0.input_buf_index = s1.input_buf_index := by
  obtain ⟨obj_surface, hs⟩ := sunxi_cedrus_SyncSurface_returned_inv hret
  obtain ⟨st, after2, hret2, hctx, _, _, _, _, hothers, hself, _⟩ :=
    sunxi_cedrus_SyncSurface_spec before render_target obj_surface hs
  rw [hret2] at hret
  cases hret
  refine ⟨fun id => CONTEXT_congr hctx id, ?_⟩
  intro id s1 h1 hr
  by_cases hid : id = render_target
  · subst hid
    rcases hself with hself | hself
    · rw [hself] at h1; cases h1
      exact ⟨obj_surface, hs, hr, rfl⟩
    · rw [hself] at h1; cases h1
      cases hr
  · rw [hothers id hid] at h1
    exact ⟨s1, h1, hr, rfl⟩

/-- What a `sunxi_cedrus_BeginPicture` that returns leaves: the target surface being
rendered at the input slot `n mod 4`, for the counter `n` of the context before the call,
every other surface as it was, and the counter at `(n + 1) mod 2^32`. -/
theorem sunxi_cedrus_BeginPicture_returned_spec {before after : sunxi_cedrus_driver_data}
    {context render_target : VAGenericID} {vaStatus : VAStatus} {out : Unit}
    (hret : sunxi_cedrus_BeginPicture before context render_target =
      Outcome.returned vaStatus out after) :
    ∃ n target,
      submission_count before context = some n ∧
      submission_count after context = some ((n + 1) % 2 ^ 32) ∧
      SURFACE after render_target = some target ∧
      target.status = VASurfaceRendering ∧
      target.input_buf_index = n % INPUT_BUFFERS_NUMBER ∧
      ∀ id, id ≠ render_target → SURFACE after id = SURFACE before id := by
  obtain ⟨obj_context, obj_surface, hc, hs, hN⟩ := sunxi_cedrus_BeginPicture_returned_inv hret
  obtain ⟨after2, hret2, _, _, _, _, hctx, hsurf, _, _⟩ :=
    sunxi_cedrus_BeginPicture_spec before context render_target obj_context obj_surface
      hc hs hN
  rw [hret2] at hret
  cases hret
  refine ⟨obj_context.num_rendered_surfaces,
    { obj_surface with
      status := VASurfaceRendering
      request := obj_context.num_rendered_surfaces % INPUT_BUFFERS_NUMBER + 1
      input_buf_index := obj_context.num_rendered_surfaces % INPUT_BUFFERS_NUMBER
      output_buf_index := obj_context.num_rendered_surfaces % before.num_dst_bufs },
    ?_, ?_, ?_, rfl, rfl, ?_⟩
  · unfold submission_count
    rw [hc]; rfl
  · unfold submission_count
    rw [hctx context, if_pos rfl]; rfl
  · rw [hsurf render_target, if_pos rfl]
  · intro id hne
    rw [hsurf id, if_neg hne]

theorem one_in_flight_per_input_slot.kept_by_keeps {before after : sunxi_cedrus_driver_data}
    (hk : keeps_surfaces before after) (h : one_in_flight_per_input_slot before) :
    one_in_flight_per_input_slot after := by
  intro id1 id2 s1 s2 h1 h2
  rw [SURFACE_congr hk.1 id1] at h1
  rw [SURFACE_congr hk.1 id2] at h2
  exact h id1 id2 s1 s2 h1 h2

theorem one_in_flight_per_input_slot.kept_by_sync {before after : sunxi_cedrus_driver_data}
    {render_target : VAGenericID} {vaStatus : VAStatus} {out : Unit}
    (hret : sunxi_cedrus_SyncSurface before render_target =
      Outcome.returned vaStatus out after)
    (h : one_in_flight_per_input_slot before) : one_in_flight_per_input_slot after := by
  obtain ⟨_, hprev⟩ := sunxi_cedrus_SyncSurface_rendering hret
  intro id1 id2 s1 s2 h1 h2 hne hr1 hr2
  obtain ⟨a, ha, hra, hina⟩ := hprev id1 s1 h1 hr1
  obtain ⟨b, hb, hrb, hinb⟩ := hprev id2 s2 h2 hr2
  rw [← hina, ← hinb]
  exact h id1 id2 a b ha hb hne hra hrb

theorem one_in_flight_per_input_slot.kept_by_begin {before after : sunxi_cedrus_driver_data}
    {context render_target : VAGenericID} {vaStatus : VAStatus} {out : Unit}
    (hret : sunxi_cedrus_BeginPicture before context render_target =
      Outcome.returned vaStatus out after)
    (hfree : input_slot_free before context render_target)
    (h : one_in_flight_per_input_slot before) : one_in_flight_per_input_slot after := by
  obtain ⟨n, target, hn, _, htarget, _, hslot, hothers⟩ :=
    sunxi_cedrus_BeginPicture_returned_spec hret
  intro id1 id2 s1 s2 h1 h2 hne hr1 hr2
  by_cases hid1 : id1 = render_target
  · have hid2 : id2 ≠ render_target := fun h => hne (hid1.trans h.symm)
    rw [hid1, htarget] at h1
    cases h1
    rw [hothers id2 hid2] at h2
    rw [hslot]
    exact fun heq => hfree n id2 s2 hn hid2 h2 hr2 heq.symm
  · rw [hothers id1 hid1] at h1
    by_cases hid2 : id2 = render_target
    · rw [hid2, htarget] at h2
      cases h2
      rw [hslot]
      exact hfree n id1 s1 hn hid1 h1 hr1
    · rw [hothers id2 hid2] at h2
      exact h id1 id2 s1 s2 h1 h2 hne hr1 hr2

theorem one_in_flight_per_input_slot.kept_by_run {context : VAGenericID} :
    ∀ (calls : List PictureCall) (before after : sunxi_cedrus_driver_data),
      one_in_flight_per_input_slot before → slots_respected context before calls →
      run_calls context before calls = some after → one_in_flight_per_input_slot after := by
  intro calls
  induction calls with
  | nil =>
    intro before after h _ hrun
    unfold run_calls at hrun
    cases hrun
    exact h
  | cons call calls ih =>
    intro before after h hresp hrun
    unfold run_calls at hrun
    unfold slots_respected at hresp
    obtain ⟨hfree, hrest⟩ := hresp
    split at hrun
    · rename_i st out mid hcall
      rw [hcall] at hrest
      refine ih mid after ?_ hrest hrun
      cases call with
      | begin_picture render_target =>
        exact one_in_flight_per_input_slot.kept_by_begin hcall hfree h
      | render_picture buffers =>
        have hk := sunxi_cedrus_RenderPicture_keeps before context buffers
        simp only [PictureCall.invoke] at hcall
        rw [hcall] at hk
        exact one_in_flight_per_input_slot.kept_by_keeps hk h
      | end_picture =>
        have hk := sunxi_cedrus_EndPicture_keeps before context
        simp only [PictureCall.invoke] at hcall
        rw [hcall] at hk
        exact one_in_flight_per_input_slot.kept_by_keeps hk h
      | sync_surface render_target => exact one_in_flight_per_input_slot.kept_by_sync hcall h
    · cases hrun

theorem ring_invariant.of_keeps {start begun : Nat} {context : VAGenericID}
    {before after : sunxi_cedrus_driver_data} (hk : keeps_surfaces before after)
    (h : ring_invariant start begun context before) :
    ring_invariant start begun context after := by
  obtain ⟨hn, hslots, hone⟩ := h
  have hS : ∀ id, SURFACE after id = SURFACE before id := fun id => SURFACE_congr hk.1 id
  refine ⟨?_, ?_, fun hb => one_in_flight_per_input_slot.kept_by_keeps hk (hone hb)⟩
  · intro n hcount
    unfold submission_count at hcount
    rw [hk.2.2 context] at hcount
    exact hn n hcount
  · intro id obj_surface hs hr
    rw [hS id] at hs
    exact hslots id obj_surface hs hr

theorem ring_invariant.of_sync {start begun : Nat} {context render_target : VAGenericID}
    {before after : sunxi_cedrus_driver_data} {vaStatus : VAStatus} {out : Unit}
    (hret : sunxi_cedrus_SyncSurface before render_target =
      Outcome.returned vaStatus out after)
    (h : ring_invariant start begun context before) :
    ring_invariant start begun context after := by
  obtain ⟨hn, hslots, hone⟩ := h
  obtain ⟨hctx, hprev⟩ := sunxi_cedrus_SyncSurface_rendering hret
  refine ⟨?_, ?_, fun hb => one_in_flight_per_input_slot.kept_by_sync hret (hone hb)⟩
  · intro n hcount
    unfold submission_count at hcount
    rw [hctx context] at hcount
    exact hn n hcount
  · intro id s1 h1 hr
    obtain ⟨s0, h0, hr0, hin⟩ := hprev id s1 h1 hr
    rw [← hin]
    exact hslots id s0 h0 hr0

theorem ring_invariant.of_begin {start begun : Nat} {context render_target : VAGenericID}
    {before after : sunxi_cedrus_driver_data} {vaStatus : VAStatus} {out : Unit}
    (hret : sunxi_cedrus_BeginPicture before context render_target =
      Outcome.returned vaStatus out after)
    (h : ring_invariant start begun context before) :
    ring_invariant start (begun + 1) context after := by
  obtain ⟨hn, hslots, hone⟩ := h
  obtain ⟨n, target, hcount, hcount2, htarget, _, hslot, hothers⟩ :=
    sunxi_cedrus_BeginPicture_returned_spec hret
  have hmod := hn n hcount
  simp only [INPUT_BUFFERS_NUMBER] at hmod hslot
  refine ⟨?_, ?_, ?_⟩
  · intro m hm
    rw [hcount2] at hm
    cases hm
    simp only [INPUT_BUFFERS_NUMBER]
    omega
  · intro id s1 h1 hr
    by_cases hid : id = render_target
    · rw [hid, htarget] at h1
      cases h1
      refine ⟨begun, Nat.lt_succ_self _, ?_⟩
      simp only [INPUT_BUFFERS_NUMBER]
      omega
    · rw [hothers id hid] at h1
      obtain ⟨i, hi, hin⟩ := hslots id s1 h1 hr
      exact ⟨i, by omega, hin⟩
  · intro hb
    simp only [INPUT_BUFFERS_NUMBER] at hb
    apply one_in_flight_per_input_slot.kept_by_begin hret ?_ (hone (by
      simp only [INPUT_BUFFERS_NUMBER]; omega))
    intro m id s hm hne hs hr
    rw [hcount] at hm
    cases hm
    obtain ⟨i, hi, hin⟩ := hslots id s hs hr
    rw [hin]
    simp only [INPUT_BUFFERS_NUMBER]
    omega

theorem ring_invariant.of_run {start : Nat} {context : VAGenericID} :
    ∀ (calls : List PictureCall) (begun : Nat) (before after : sunxi_cedrus_driver_data),
      ring_invariant start begun context before → run_calls context before calls = some after →
      ring_invariant start (begun + calls.countP PictureCall.is_begin_picture) context
        after := by
  intro calls
  induction calls with
  | nil =>
    intro begun before after h hrun
    unfold run_calls at hrun
    cases hrun
    exact h
  | cons call calls ih =>
    intro begun before after h hrun
    unfold run_calls at hrun
    split at hrun
    · rename_i st out mid hcall
      cases call with
      | begin_picture render_target =>
        have hmid := ring_invariant.of_begin hcall h
        have hfin := ih (begun + 1) mid after hmid hrun
        have hcnt : begun + (PictureCall.begin_picture render_target :: calls).countP
            PictureCall.is_begin_picture =
            begun + 1 + calls.countP PictureCall.is_begin_picture := by
          rw [List.countP_cons_of_pos _ _ (by rfl)]
          omega
        rw [hcnt]
        exact hfin
      | render_picture buffers =>
        have hk := sunxi_cedrus_RenderPicture_keeps before context buffers
        simp only [PictureCall.invoke] at hcall
        rw [hcall] at hk
        have hfin := ih begun mid after (ring_invariant.of_keeps hk h) hrun
        rw [List.countP_cons_of_neg _ _ (by simp [PictureCall.is_begin_picture])]
        exact hfin
      | end_picture =>
        have hk := sunxi_cedrus_EndPicture_keeps before context
        simp only [PictureCall.invoke] at hcall
        rw [hcall] at hk
        have hfin := ih begun mid after (ring_invariant.of_keeps hk h) hrun
        rw [List.countP_cons_of_neg _ _ (by simp [PictureCall.is_begin_picture])]
        exact hfin
      | sync_surface render_target =>
        have hfin := ih begun mid after (ring_invariant.of_sync hcall h) hrun
        rw [List.countP_cons_of_neg _ _ (by simp [PictureCall.is_begin_picture])]
        exact hfin
    · cases hrun

theorem input_slot_free_of_check (driver_data : sunxi_cedrus_driver_data)
    (context render_target : VAGenericID)
    (h : input_slot_free_check driver_data context render_target = true) :
    input_slot_free driver_data context render_target := by
  intro n id obj_surface hn hne hs hr
  unfold input_slot_free_check at h
  rw [hn] at h
  simp only [List.all_eq_true, List.mem_range] at h
  unfold SURFACE object_heap_lookup at hs
  split at hs
  · rename_i i hi
    split at hs
    · rename_i obj hslot
      cases hs
      have hlt : i < driver_data.surface_heap.slots.length := by
        by_contra hge
        rw [List.getElem?_eq_none (by omega)] at hslot
        cases hslot
      have hcheck := h i hlt
      rw [hslot] at hcheck
      have hid : driver_data.surface_heap.id_of i ≠ render_target := by
        rw [object_heap.index_of_some hi]
        exact hne
      simp only [hid, decide_False, Bool.false_or, hr, ne_eq, not_true_eq_false,
        decide_not, Bool.not_eq_true', decide_eq_false_iff_not] at hcheck
      exact hcheck
    · cases hs
  · cases hs

theorem slots_respected_of_check (context : VAGenericID) :
    ∀ (calls : List PictureCall) (driver_data : sunxi_cedrus_driver_data),
      slots_respected_check context driver_data calls = true →
      slots_respected context driver_data calls := by
  intro calls
  induction calls with
  | nil => intro _ _; trivial
  | cons call calls ih =>
    intro driver_data h
    unfold slots_respected_check at h
    rw [Bool.and_eq_true] at h
    unfold slots_respected
    refine ⟨?_, ?_⟩
    · cases call with
      | begin_picture render_target => exact input_slot_free_of_check _ _ _ h.1
      | render_picture buffers => trivial
      | end_picture => trivial
      | sync_surface render_target => trivial
    · have h2 := h.2
      split
      · rename_i st out mid hcall
        rw [hcall] at h2
        exact ih mid h2
      · trivial

/-- C7, amended: make any sequence of begin, render, end and sync calls on one context, all
of which return. If no two surfaces being rendered share an input slot at the start and
every picture of the sequence is begun when the input slot it is assigned is free (no other
surface being rendered holds it), then no two distinct surfaces with status
`VASurfaceRendering` hold the same `input_buf_index` at the end, however many pictures were
begun. This is the case, with no condition on the calls, when no surface is being rendered
at the start (as after the surfaces are created) and the sequence begins at most four
(`INPUT_BUFFERS_NUMBER`) pictures. -/
theorem C7_one_in_flight_within_ring (context : VAGenericID) (calls : List PictureCall)
    (initial final : sunxi_cedrus_driver_data)
    (hrun : run_calls context initial calls = some final) :
    (one_in_flight_per_input_slot initial → slots_respected context initial calls →
      one_in_flight_per_input_slot final) ∧
    (no_surface_rendering initial →
      calls.countP PictureCall.is_begin_picture ≤ INPUT_BUFFERS_NUMBER →
      one_in_flight_per_input_slot final) := by
  constructor
  · intro hone hresp
    exact one_in_flight_per_input_slot.kept_by_run calls initial final hone hresp hrun
  · intro hstart hcount
    have h0 : ring_invariant ((submission_count initial context).getD 0) 0 context initial := by
      refine ⟨?_, fun id s hs hr => absurd hr (hstart id s hs),
        fun _ id1 _ s1 _ h1 _ _ hr1 _ => absurd hr1 (hstart id1 s1 h1)⟩
      intro n hn
      rw [hn]
      rfl
    have hfin := ring_invariant.of_run calls 0 initial final h0 hrun
    exact hfin.2.2 (by omega)

theorem session_no_surface_rendering : no_surface_rendering session_driver_data := by
  intro id obj_surface h hr
  unfold SURFACE object_heap_lookup at h
  split at h
  · rename_i i _
    have hslots : session_driver_data.surface_heap.slots =
        [some (session_surface 0), some (session_surface 1), some (session_surface 2),
          some (session_surface 3), some (session_surface 4), some (session_surface 5)] := rfl
    rw [hslots] at h
    rcases i with _ | _ | _ | _ | _ | _ | i
    all_goals simp at h
    all_goals (subst h; revert hr; decide)
  · cases h

/-- C7, counterexample: on the example session, whose six surfaces are freshly created,
five `sunxi_cedrus_BeginPicture` calls on five distinct surfaces all return, and afterwards
surface 0 and surface 4 both have status `VASurfaceRendering` and both hold input slot 0. -/
theorem C7_five_pictures_share_a_slot :
    no_surface_rendering session_driver_data ∧
    ∃ final,
      run_calls session_context_id session_driver_data
        ((List.range 5).map fun i => PictureCall.begin_picture (session_surface_id i)) =
          some final ∧
      session_surface_id 0 ≠ session_surface_id 4 ∧
      (SURFACE final (session_surface_id 0)).map
          (fun s => (s.status, s.input_buf_index)) = some (VASurfaceRendering, 0) ∧
      (SURFACE final (session_surface_id 4)).map
          (fun s => (s.status, s.input_buf_index)) = some (VASurfaceRendering, 0) ∧
      ¬ one_in_flight_per_input_slot final := by
  refine ⟨session_no_surface_rendering, _, rfl, by decide, rfl, rfl, ?_⟩
  intro h
  exact h (session_surface_id 0) (session_surface_id 4) _ _ rfl rfl (by decide) rfl rfl rfl

/-- C7, amended, at two examples on the example session: five pictures, the fifth begun
after the surface of the first has been synchronised, so that input slot 0 is free again;
and four pictures on four surfaces, with a render, an end and a sync in between. In both, no
two surfaces being rendered share an input slot afterwards. -/
theorem C7_one_in_flight_within_ring_witness :
    no_surface_rendering session_driver_data ∧
    session_pipelined_calls.countP PictureCall.is_begin_picture = 5 ∧
    (∃ final,
      run_calls session_context_id session_driver_data session_pipelined_calls = some final ∧
      submission_count final session_context_id = some 5 ∧
      (SURFACE final (session_surface_id 4)).map
          (fun s => (s.status, s.input_buf_index)) = some (VASurfaceRendering, 0) ∧
      one_in_flight_per_input_slot final) ∧
    ∃ final,
      run_calls session_context_id session_driver_data
        [PictureCall.begin_picture (session_surface_id 0),
          PictureCall.render_picture [],
          PictureCall.begin_picture (session_surface_id 1),
          PictureCall.end_picture,
          PictureCall.sync_surface (session_surface_id 0),
          PictureCall.begin_picture (session_surface_id 2),
          PictureCall.begin_picture (session_surface_id 3)] = some final ∧
      submission_count final session_context_id = some 4 ∧
      one_in_flight_per_input_slot final := by
  have hone : one_in_flight_per_input_slot session_driver_data :=
    fun id1 _ s1 _ h1 _ _ hr1 _ => absurd hr1 (session_no_surface_rendering id1 s1 h1)
  refine ⟨session_no_surface_rendering, by decide, ?_, ?_⟩
  · have hfinal : ∃ final,
        run_calls session_context_id session_driver_data session_pipelined_calls =
          some final ∧
        submission_count final session_context_id = some 5 ∧
        (SURFACE final (session_surface_id 4)).map
          (fun s => (s.status, s.input_buf_index)) = some (VASurfaceRendering, 0) :=
      ⟨_, rfl, rfl, rfl⟩
    obtain ⟨final, hrun, hcount, hslot⟩ := hfinal
    exact ⟨final, hrun, hcount, hslot,
      (C7_one_in_flight_within_ring session_context_id session_pipelined_calls
        session_driver_data final hrun).1 hone
        (slots_respected_of_check session_context_id session_pipelined_calls
          session_driver_data (by decide))⟩
  · have hfinal : ∃ final,
        run_calls session_context_id session_driver_data
          [PictureCall.begin_picture (session_surface_id 0),
            PictureCall.render_picture [],
            PictureCall.begin_picture (session_surface_id 1),
            PictureCall.end_picture,
            PictureCall.sync_surface (session_surface_id 0),
            PictureCall.begin_picture (session_surface_id 2),
            PictureCall.begin_picture (session_surface_id 3)] = some final ∧
        submission_count final session_context_id = some 4 := ⟨_, rfl, rfl⟩
    obtain ⟨final, hrun, hcount⟩ := hfinal
    exact ⟨final, hrun, hcount,
      (C7_one_in_flight_within_ring session_context_id _ session_driver_data final hrun).2
        session_no_surface_rendering (by decide)⟩

/-! ## Synchronisation -/

/-- C11: on a device that answers success to every call, `sunxi_cedrus_SyncSurface` on a
surface that resolves issues, after the readiness wait and in this order, the dequeue on the
output queue at the `input_buf_index` of the surface, the dequeue on the capture queue at
its `output_buf_index` and the re-queue of the capture buffer that was dequeued, and nothing
else; it returns success and the surface has status `VASurfaceReady`. -/
theorem C11_sync_surface_sequence (driver_data : sunxi_cedrus_driver_data)
    (render_target : VAGenericID) (obj_surface : object_surface)
    (hs : SURFACE driver_data render_target = some obj_surface)
    (hok : driver_data.mem2mem_fd.all_ok) :
    ∃ after, sunxi_cedrus_SyncSurface driver_data render_target =
        Outcome.returned VA_STATUS_SUCCESS () after ∧
      after.mem2mem_fd.trace = driver_data.mem2mem_fd.trace ++
        [DeviceOp.select,
          DeviceOp.VIDIOC_DQBUF V4L2_BUF_TYPE_VIDEO_OUTPUT_MPLANE obj_surface.input_buf_index,
          DeviceOp.VIDIOC_DQBUF V4L2_BUF_TYPE_VIDEO_CAPTURE_MPLANE obj_surface.output_buf_index,
          DeviceOp.VIDIOC_QBUF V4L2_BUF_TYPE_VIDEO_CAPTURE_MPLANE
            (driver_data.mem2mem_fd.respond
              (driver_data.mem2mem_fd.trace ++
                [DeviceOp.select,
                  DeviceOp.VIDIOC_DQBUF V4L2_BUF_TYPE_VIDEO_OUTPUT_MPLANE
                    obj_surface.input_buf_index])
              (DeviceOp.VIDIOC_DQBUF V4L2_BUF_TYPE_VIDEO_CAPTURE_MPLANE
                obj_surface.output_buf_index)).index 0] ∧
      SURFACE after render_target = some { obj_surface with status := VASurfaceReady } := by
  obtain ⟨after, hret, _, htrace⟩ :=
    sunxi_cedrus_SyncSurface_trace driver_data render_target obj_surface hs hok
  obtain ⟨vaStatus, after2, hret2, _, _, _, _, _, _, _, hready⟩ :=
    sunxi_cedrus_SyncSurface_spec driver_data render_target obj_surface hs
  rw [hret] at hret2
  cases hret2
  exact ⟨after, hret, htrace, hready rfl⟩

/-- C11, at an example: the surface 0 of the example session, being rendered with slots 0
and 0, on the willing device, which hands back the capture buffer 0. -/
theorem C11_sync_surface_sequence_witness :
    SURFACE session_rendering (session_surface_id 0) ≠ none ∧
    session_rendering.mem2mem_fd.trace = [] ∧
    ∃ after, sunxi_cedrus_SyncSurface session_rendering (session_surface_id 0) =
        Outcome.returned VA_STATUS_SUCCESS () after ∧
      after.mem2mem_fd.trace =
        [DeviceOp.select,
          DeviceOp.VIDIOC_DQBUF V4L2_BUF_TYPE_VIDEO_OUTPUT_MPLANE 0,
          DeviceOp.VIDIOC_DQBUF V4L2_BUF_TYPE_VIDEO_CAPTURE_MPLANE 0,
          DeviceOp.VIDIOC_QBUF V4L2_BUF_TYPE_VIDEO_CAPTURE_MPLANE 0 0] ∧
      (SURFACE after (session_surface_id 0)).map object_surface.status =
        some VASurfaceReady := by
  refine ⟨by decide, rfl, ?_⟩
  obtain ⟨after, hret, htrace, hsurf⟩ :=
    C11_sync_surface_sequence session_rendering (session_surface_id 0) _ rfl
      Device.willing_all_ok
  refine ⟨after, hret, ?_, ?_⟩
  · rw [htrace]; rfl
  · rw [hsurf]; rfl

/-- C12: let `sunxi_cedrus_SyncSurface` run on a surface that resolves. If the dequeue of
the input buffer fails, it returns `VA_STATUS_ERROR_UNKNOWN` and that dequeue is the last
device operation; if that dequeue succeeds and the dequeue of the capture buffer fails, it
returns `VA_STATUS_ERROR_UNKNOWN` and the second dequeue is the last device operation. In
every case the config, context, buffer and image heaps are left as they were and every
surface id resolves after the call exactly when it did before. -/
theorem C12_sync_surface_dequeue_failure (driver_data : sunxi_cedrus_driver_data)
    (render_target : VAGenericID) (obj_surface : object_surface)
    (hs : SURFACE driver_data render_target = some obj_surface) :
    ((driver_data.mem2mem_fd.respond (driver_data.mem2mem_fd.trace ++ [DeviceOp.select])
        (DeviceOp.VIDIOC_DQBUF V4L2_BUF_TYPE_VIDEO_OUTPUT_MPLANE
          obj_surface.input_buf_index)).ok = false →
      ∃ after, sunxi_cedrus_SyncSurface driver_data render_target =
          Outcome.returned VA_STATUS_ERROR_UNKNOWN () after ∧
        after.mem2mem_fd.trace = driver_data.mem2mem_fd.trace ++
          [DeviceOp.select,
            DeviceOp.VIDIOC_DQBUF V4L2_BUF_TYPE_VIDEO_OUTPUT_MPLANE
              obj_surface.input_buf_index]) ∧
    ((driver_data.mem2mem_fd.respond (driver_data.mem2mem_fd.trace ++ [DeviceOp.select])
        (DeviceOp.VIDIOC_DQBUF V4L2_BUF_TYPE_VIDEO_OUTPUT_MPLANE
          obj_surface.input_buf_index)).ok = true →
      (driver_data.mem2mem_fd.respond
        (driver_data.mem2mem_fd.trace ++
          [DeviceOp.select,
            DeviceOp.VIDIOC_DQBUF V4L2_BUF_TYPE_VIDEO_OUTPUT_MPLANE
              obj_surface.input_buf_index])
        (DeviceOp.VIDIOC_DQBUF V4L2_BUF_TYPE_VIDEO_CAPTURE_MPLANE
          obj_surface.output_buf_index)).ok = false →
      ∃ after, sunxi_cedrus_SyncSurface driver_data render_target =
          Outcome.returned VA_STATUS_ERROR_UNKNOWN () after ∧
        after.mem2mem_fd.trace = driver_data.mem2mem_fd.trace ++
          [DeviceOp.select,
            DeviceOp.VIDIOC_DQBUF V4L2_BUF_TYPE_VIDEO_OUTPUT_MPLANE
              obj_surface.input_buf_index,
            DeviceOp.VIDIOC_DQBUF V4L2_BUF_TYPE_VIDEO_CAPTURE_MPLANE
              obj_surface.output_buf_index]) ∧
    (∃ vaStatus after, sunxi_cedrus_SyncSurface driver_data render_target =
        Outcome.returned vaStatus () after ∧
      after.config_heap = driver_data.config_heap ∧
      after.context_heap = driver_data.context_heap ∧
      after.buffer_heap = driver_data.buffer_heap ∧
      after.image_heap = driver_data.image_heap ∧
      ∀ id, (SURFACE after id).isSome = (SURFACE driver_data id).isSome) := by
  have h1 : SURFACE (driver_data.issue DeviceOp.select).2 render_target = some obj_surface := hs
  refine ⟨?_, ?_, ?_⟩
  · intro hfail
    unfold sunxi_cedrus_SyncSurface
    simp only [h1]
    simp only [sunxi_cedrus_driver_data.issue, Device.call, hfail, Bool.not_false, if_true]
    refine ⟨_, rfl, ?_⟩
    simp only [List.append_assoc, List.singleton_append]
  · intro hfirst hfail
    unfold sunxi_cedrus_SyncSurface
    simp only [h1]
    simp only [sunxi_cedrus_driver_data.issue, Device.call, hfirst, Bool.not_true,
      Bool.false_eq_true, if_false, List.append_assoc, List.singleton_append, hfail,
      Bool.not_false, if_true]
    exact ⟨_, rfl, rfl⟩
  · obtain ⟨vaStatus, after, hret, hctx, hcfg, hbuf, himg, _, hothers, hself, _⟩ :=
      sunxi_cedrus_SyncSurface_spec driver_data render_target obj_surface hs
    refine ⟨vaStatus, after, hret, hcfg, hctx, hbuf, himg, fun id => ?_⟩
    by_cases hid : id = render_target
    · subst hid
      rcases hself with h | h <;> simp [h, hs]
    · rw [hothers id hid]

/-- C12, at two examples: the surface 0 of the example session, being rendered with slots 0
and 0, on a device that refuses the first dequeue, and on a device that refuses the second
dequeue. -/
theorem C12_sync_surface_dequeue_failure_witness :
    (∃ after, sunxi_cedrus_SyncSurface (session_rendering_refused 1) (session_surface_id 0) =
        Outcome.returned VA_STATUS_ERROR_UNKNOWN () after ∧
      after.mem2mem_fd.trace =
        [DeviceOp.select, DeviceOp.VIDIOC_DQBUF V4L2_BUF_TYPE_VIDEO_OUTPUT_MPLANE 0]) ∧
    (∃ after, sunxi_cedrus_SyncSurface (session_rendering_refused 2) (session_surface_id 0) =
        Outcome.returned VA_STATUS_ERROR_UNKNOWN () after ∧
      after.mem2mem_fd.trace =
        [DeviceOp.select, DeviceOp.VIDIOC_DQBUF V4L2_BUF_TYPE_VIDEO_OUTPUT_MPLANE 0,
          DeviceOp.VIDIOC_DQBUF V4L2_BUF_TYPE_VIDEO_CAPTURE_MPLANE 0]) :=
  ⟨(C12_sync_surface_dequeue_failure (session_rendering_refused 1) (session_surface_id 0) _
      rfl).1 rfl,
    (C12_sync_surface_dequeue_failure (session_rendering_refused 2) (session_surface_id 0) _
      rfl).2.1 rfl rfl⟩

/-! ## Context creation -/

theorem sunxi_cedrus_CreateContext.copy_invalid (driver_data current : sunxi_cedrus_driver_data)
    (hsurf : current.surface_heap = driver_data.surface_heap) :
    ∀ (render_targets : List VAGenericID) (i : Nat) (vaStatus : VAStatus)
      (owned : List VAGenericID),
      (∃ id ∈ render_targets, SURFACE driver_data id = none) →
      (sunxi_cedrus_CreateContext.copy current render_targets i vaStatus owned).1 =
        VA_STATUS_ERROR_INVALID_SURFACE := by
  intro render_targets
  induction render_targets with
  | nil => intro _ _ _ h; obtain ⟨_, hmem, _⟩ := h; cases hmem
  | cons render_target rest ih =>
    intro i vaStatus owned h
    unfold sunxi_cedrus_CreateContext.copy
    rw [SURFACE_congr hsurf]
    cases hs : SURFACE driver_data render_target with
    | none => rfl
    | some obj_surface =>
      simp only []
      apply ih
      obtain ⟨id, hmem, hnone⟩ := h
      rcases List.mem_cons.mp hmem with rfl | hrest
      · rw [hs] at hnone; cases hnone
      · exact ⟨id, hrest, hnone⟩

/-- On a device that answers success, the second half of `sunxi_cedrus_CreateContext`, for
a configuration with one of the eight known profiles, issues the format negotiation and
the buffer creation on the output queue and returns the status it was entered with. -/
theorem sunxi_cedrus_CreateContext.negotiate_ok (driver_data : sunxi_cedrus_driver_data)
    (vaStatus : VAStatus) (out : create_context_out) (obj_config : object_config)
    (picture_width picture_height : Int) (hknown : known_profile obj_config.profile)
    (hok : driver_data.mem2mem_fd.all_ok) :
    ∃ after pixelformat,
      sunxi_cedrus_CreateContext.negotiate driver_data vaStatus out obj_config picture_width
        picture_height = Outcome.returned vaStatus out after ∧
      after = { driver_data with mem2mem_fd := after.mem2mem_fd } ∧
      after.mem2mem_fd.respond = driver_data.mem2mem_fd.respond ∧
      after.mem2mem_fd.trace = driver_data.mem2mem_fd.trace ++
        [DeviceOp.VIDIOC_S_FMT V4L2_BUF_TYPE_VIDEO_OUTPUT_MPLANE picture_width picture_height
            pixelformat INPUT_BUFFER_MAX_SIZE 1,
          DeviceOp.VIDIOC_G_FMT V4L2_BUF_TYPE_VIDEO_OUTPUT_MPLANE,
          DeviceOp.VIDIOC_CREATE_BUFS V4L2_BUF_TYPE_VIDEO_OUTPUT_MPLANE INPUT_BUFFERS_NUMBER] := by
  have hfmt : ∀ pixelformat,
      ∃ after,
        (driver_data.assert_issue
          (DeviceOp.VIDIOC_S_FMT V4L2_BUF_TYPE_VIDEO_OUTPUT_MPLANE picture_width picture_height
            pixelformat INPUT_BUFFER_MAX_SIZE 1)
          fun _ driver_data =>
        driver_data.assert_issue (DeviceOp.VIDIOC_G_FMT V4L2_BUF_TYPE_VIDEO_OUTPUT_MPLANE)
          fun _ driver_data =>
        driver_data.assert_issue
          (DeviceOp.VIDIOC_CREATE_BUFS V4L2_BUF_TYPE_VIDEO_OUTPUT_MPLANE INPUT_BUFFERS_NUMBER)
          fun _ driver_data =>
        Outcome.returned vaStatus out driver_data) = Outcome.returned vaStatus out after ∧
        after = { driver_data with mem2mem_fd := after.mem2mem_fd } ∧
        after.mem2mem_fd.respond = driver_data.mem2mem_fd.respond ∧
        after.mem2mem_fd.trace = driver_data.mem2mem_fd.trace ++
          [DeviceOp.VIDIOC_S_FMT V4L2_BUF_TYPE_VIDEO_OUTPUT_MPLANE picture_width
              picture_height pixelformat INPUT_BUFFER_MAX_SIZE 1,
            DeviceOp.VIDIOC_G_FMT V4L2_BUF_TYPE_VIDEO_OUTPUT_MPLANE,
            DeviceOp.VIDIOC_CREATE_BUFS V4L2_BUF_TYPE_VIDEO_OUTPUT_MPLANE
              INPUT_BUFFERS_NUMBER] := by
    intro pixelformat
    simp only [sunxi_cedrus_driver_data.assert_issue, sunxi_cedrus_driver_data.issue,
      Device.call, hok _ _, if_true]
    refine ⟨_, rfl, rfl, rfl, ?_⟩
    simp only [List.append_assoc, List.singleton_append, List.cons_append, List.nil_append]
  unfold sunxi_cedrus_CreateContext.negotiate
  simp only []
  split
  · obtain ⟨after, h⟩ := hfmt v4l2_pixelformat.V4L2_PIX_FMT_MPEG2_FRAME
    exact ⟨after, _, h⟩
  · split
    · obtain ⟨after, h⟩ := hfmt v4l2_pixelformat.V4L2_PIX_FMT_MPEG4_FRAME
      exact ⟨after, _, h⟩
    · split
      · obtain ⟨after, h⟩ := hfmt v4l2_pixelformat.V4L2_PIX_FMT_H264_FRAME
        exact ⟨after, _, h⟩
      · exfalso
        unfold known_profile at hknown
        simp only [VAProfile] at *
        omega

/-- The path of `sunxi_cedrus_CreateContext` on which a render target does not resolve: the
error recovery frees the context and the render target list, and the function goes on into
its second half with status `INVALID_SURFACE` and the context id already stored. -/
theorem sunxi_cedrus_CreateContext.invalid_surface_path (driver_data : sunxi_cedrus_driver_data)
    (libc : Allocator) (config_id : VAGenericID) (picture_width picture_height flag : Int)
    (render_targets : List VAGenericID) (obj_config : object_config)
    (hcfg : CONFIG driver_data config_id = some obj_config)
    (hbad : ∃ id ∈ render_targets, SURFACE driver_data id = none)
    (hwf : driver_data.context_heap.wf) {contextID : VAGenericID}
    (hid : (object_heap_allocate driver_data.context_heap).1 = some contextID)
    (hmalloc : libc.refuses = false) :
    ∃ current : sunxi_cedrus_driver_data,
      sunxi_cedrus_CreateContext driver_data libc config_id picture_width picture_height flag
          render_targets =
        sunxi_cedrus_CreateContext.negotiate current VA_STATUS_ERROR_INVALID_SURFACE
          { context := some contextID, libc := libc } obj_config picture_width picture_height ∧
      current = { driver_data with context_heap := current.context_heap } ∧
      CONTEXT current contextID = none ∧
      (∀ id, CONTEXT current id = CONTEXT driver_data id) := by
  obtain ⟨_, _, hold, hnew, hother⟩ := object_heap.allocate_spec hwf hid
  have hcopy : ∀ (current : sunxi_cedrus_driver_data) (owned : List VAGenericID),
      current.surface_heap = driver_data.surface_heap →
      (sunxi_cedrus_CreateContext.copy current render_targets 0 VA_STATUS_SUCCESS owned).1 =
        VA_STATUS_ERROR_INVALID_SURFACE := fun current owned h =>
    sunxi_cedrus_CreateContext.copy_invalid driver_data current h render_targets 0
      VA_STATUS_SUCCESS owned hbad
  have hlibc : ∀ block : List VAGenericID,
      ({ live := libc.live + 1, refuses := false, junk := libc.junk } : Allocator).free
        (some block) = libc := by
    intro block
    cases libc
    simp only [Allocator.free] at hmalloc ⊢
    simp [hmalloc]
  unfold sunxi_cedrus_CreateContext
  simp only [hcfg, hid, object_heap.lookup_allocated, hnew, Allocator.malloc, hmalloc,
    Bool.false_eq_true, if_false]
  simp only [hcopy, ne_eq, reduceCtorEq, not_false_eq_true, if_true, hlibc]
  refine ⟨_, rfl, ?_, ?_, ?_⟩
  · rfl
  · unfold CONTEXT
    simp only [object_heap.lookup_free, if_true]
  · intro id
    unfold CONTEXT
    simp only [object_heap.lookup_free, object_heap.lookup_write]
    by_cases h : id = contextID
    · subst h; simp [hold]
    · simp [h, hother id h]

/-- C13: `sunxi_cedrus_CreateContext` with a render target list in which some id does not
resolve to a surface, for a configuration with a known profile, while the context heap and
`malloc` can allocate and the device answers success, returns `INVALID_SURFACE`; the
context id it allocated does not resolve afterwards (every context id resolves as before
the call), and the C allocator is as before the call: the render target list it owned has
been released. -/
theorem C13_create_context_invalid_surface (driver_data : sunxi_cedrus_driver_data)
    (libc : Allocator) (config_id : VAGenericID) (picture_width picture_height flag : Int)
    (render_targets : List VAGenericID) (obj_config : object_config)
    (hcfg : CONFIG driver_data config_id = some obj_config)
    (hknown : known_profile obj_config.profile)
    (hbad : ∃ id ∈ render_targets, SURFACE driver_data id = none)
    (hwf : driver_data.context_heap.wf)
    (hroom : (object_heap_allocate driver_data.context_heap).1 ≠ none)
    (hmalloc : libc.refuses = false) (hok : driver_data.mem2mem_fd.all_ok) :
    ∃ contextID out after,
      sunxi_cedrus_CreateContext driver_data libc config_id picture_width picture_height flag
        render_targets = Outcome.returned VA_STATUS_ERROR_INVALID_SURFACE out after ∧
      (object_heap_allocate driver_data.context_heap).1 = some contextID ∧
      CONTEXT after contextID = none ∧
      (∀ id, CONTEXT after id = CONTEXT driver_data id) ∧
      out.libc = libc := by
  obtain ⟨contextID, hid⟩ := Option.ne_none_iff_exists'.mp hroom
  obtain ⟨current, hpath, hcur, hfreed, hsame⟩ :=
    sunxi_cedrus_CreateContext.invalid_surface_path driver_data libc config_id picture_width
      picture_height flag render_targets obj_config hcfg hbad hwf hid hmalloc
  have hok2 : current.mem2mem_fd.all_ok := by rw [hcur]; exact hok
  obtain ⟨after, pixelformat, hret, hafter, _, _⟩ :=
    sunxi_cedrus_CreateContext.negotiate_ok current VA_STATUS_ERROR_INVALID_SURFACE
      { context := some contextID, libc := libc } obj_config picture_width picture_height
      hknown hok2
  have hctx : ∀ id, CONTEXT after id = CONTEXT current id := by
    intro id
    rw [hafter]
    rfl
  refine ⟨contextID, _, after, hpath.trans hret, hid, ?_, ?_, rfl⟩
  · rw [hctx, hfreed]
  · intro id
    rw [hctx, hsame]

/-- C15: `sunxi_cedrus_CreateContext` with a config id that does not resolve returns
`INVALID_CONFIG`, stores no context id, and leaves the driver state (the context heap and
the device among it) and the C allocator as they were. -/
theorem C15_create_context_invalid_config (driver_data : sunxi_cedrus_driver_data)
    (libc : Allocator) (config_id : VAGenericID) (picture_width picture_height flag : Int)
    (render_targets : List VAGenericID) (hcfg : CONFIG driver_data config_id = none) :
    sunxi_cedrus_CreateContext driver_data libc config_id picture_width picture_height flag
        render_targets =
      Outcome.returned VA_STATUS_ERROR_INVALID_CONFIG { context := none, libc := libc }
        driver_data := by
  unfold sunxi_cedrus_CreateContext
  simp only [hcfg]

/-- C13, at an example: the example session, whose configuration is MPEG2Main, with the
render targets surface 0, the id 5, which is no surface, and surface 1. -/
theorem C13_create_context_invalid_surface_witness :
    SURFACE session_driver_data 5 = none ∧
    ∃ out after,
      sunxi_cedrus_CreateContext session_driver_data { live := 0, refuses := false, junk := 7 }
          (CONFIG_ID_OFFSET : Int) 1920 1080 0
          [session_surface_id 0, 5, session_surface_id 1] =
        Outcome.returned VA_STATUS_ERROR_INVALID_SURFACE out after ∧
      CONTEXT after 0x02000001 = none ∧
      out.libc = { live := 0, refuses := false, junk := 7 } := by
  refine ⟨rfl, ?_⟩
  obtain ⟨contextID, out, after, hret, hid, hfreed, _, hlibc⟩ :=
    C13_create_context_invalid_surface session_driver_data
      { live := 0, refuses := false, junk := 7 } (CONFIG_ID_OFFSET : Int) 1920 1080 0
      [session_surface_id 0, 5, session_surface_id 1] _ rfl (by decide)
      ⟨5, by decide, rfl⟩ (by decide) (by decide) rfl Device.willing_all_ok
  have hc : contextID = 0x02000001 := by
    have h2 : (object_heap_allocate session_driver_data.context_heap).1 = some 0x02000001 := rfl
    rw [h2] at hid
    cases hid
    rfl
  subst hc
  exact ⟨out, after, hret, hfreed, hlibc⟩

/-- C14, the code at the failing input: `sunxi_cedrus_CreateContext` on the example session
with the render targets surface 0 and the id 5, which is no surface, returns
`INVALID_SURFACE`, but it has stored the id of the context it allocated (and freed again) to
`*context`, and it has issued the format negotiation and the creation of the four input
buffers on the output queue of the device. -/
theorem C14_create_context_partial_change :
    SURFACE session_driver_data 5 = none ∧
    session_driver_data.mem2mem_fd.trace = [] ∧
    ∃ out after,
      sunxi_cedrus_CreateContext session_driver_data { live := 0, refuses := false, junk := 7 }
          (CONFIG_ID_OFFSET : Int) 1920 1080 0 [session_surface_id 0, 5] =
        Outcome.returned VA_STATUS_ERROR_INVALID_SURFACE out after ∧
      out.context = some 0x02000001 ∧
      after.mem2mem_fd.trace =
        [DeviceOp.VIDIOC_S_FMT V4L2_BUF_TYPE_VIDEO_OUTPUT_MPLANE 1920 1080
            v4l2_pixelformat.V4L2_PIX_FMT_MPEG2_FRAME INPUT_BUFFER_MAX_SIZE 1,
          DeviceOp.VIDIOC_G_FMT V4L2_BUF_TYPE_VIDEO_OUTPUT_MPLANE,
          DeviceOp.VIDIOC_CREATE_BUFS V4L2_BUF_TYPE_VIDEO_OUTPUT_MPLANE INPUT_BUFFERS_NUMBER] :=
  ⟨rfl, rfl, _, _, rfl, rfl, rfl⟩

/-- C15, at an example: the example session and the config id 0, which does not
resolve. -/
theorem C15_create_context_invalid_config_witness :
    CONFIG session_driver_data 0 = none ∧
    sunxi_cedrus_CreateContext session_driver_data { live := 0, refuses := false, junk := 7 }
        0 1920 1080 0 [session_surface_id 0] =
      Outcome.returned VA_STATUS_ERROR_INVALID_CONFIG
        { context := none, libc := { live := 0, refuses := false, junk := 7 } }
        session_driver_data :=
  ⟨rfl, C15_create_context_invalid_config session_driver_data _ 0 1920 1080 0
    [session_surface_id 0] rfl⟩

/-! ## Render picture -/

theorem sunxi_cedrus_RenderPicture.dispatch_unhandled (driver_data : sunxi_cedrus_driver_data)
    (profile : VAProfile) (context : VAGenericID) (obj_surface : object_surface)
    (obj_buffer : object_buffer) (h : unhandled_buffer profile obj_buffer.type) :
    sunxi_cedrus_RenderPicture.dispatch driver_data VA_STATUS_SUCCESS profile context
      obj_surface obj_buffer = Outcome.returned VA_STATUS_SUCCESS () driver_data := by
  unfold sunxi_cedrus_RenderPicture.dispatch sunxi_cedrus_render_h264_slice_data
    sunxi_cedrus_render_h264_picture_parameter
  unfold unhandled_buffer at h
  simp only [VAProfileMPEG2Simple, VAProfileMPEG2Main, VAProfileMPEG4Simple,
    VAProfileMPEG4AdvancedSimple, VAProfileMPEG4Main, VAProfileH264Baseline,
    VAProfileH264Main, VAProfileH264High, VASliceDataBufferType,
    VAPictureParameterBufferType, VASliceParameterBufferType] at h ⊢
  repeat' split
  all_goals first
    | rfl
    | (exfalso; simp only [VAProfile, VABufferType, ne_eq] at *; omega)

theorem sunxi_cedrus_RenderPicture.loop_unhandled (profile : VAProfile)
    (context : VAGenericID) (obj_surface : object_surface)
    (driver_data : sunxi_cedrus_driver_data) :
    ∀ buffers : List VAGenericID,
      (∀ buffer ∈ buffers, ∃ obj_buffer, BUFFER driver_data buffer = some obj_buffer ∧
        unhandled_buffer profile obj_buffer.type) →
      sunxi_cedrus_RenderPicture.loop profile context obj_surface driver_data
        VA_STATUS_SUCCESS buffers = Outcome.returned VA_STATUS_SUCCESS () driver_data := by
  intro buffers
  induction buffers with
  | nil => intro _; rfl
  | cons buffer buffers ih =>
    intro h
    obtain ⟨obj_buffer, hb, hun⟩ := h buffer (List.mem_cons_self _ _)
    unfold sunxi_cedrus_RenderPicture.loop
    simp only [hb, sunxi_cedrus_RenderPicture.dispatch_unhandled driver_data profile context
      obj_surface obj_buffer hun]
    exact ih fun b hmem => h b (List.mem_cons_of_mem _ hmem)

/-- C18: `sunxi_cedrus_RenderPicture` on a context whose configuration and current render
target resolve, with buffers that all resolve and have no handler under the profile of the
configuration (MPEG-2: neither SliceData nor PictureParameter; MPEG-4: none of SliceData,
PictureParameter, SliceParameter; H.264: any type), returns success and leaves the driver
state as it was: the frame headers of the context, every surface and the device trace are
unchanged. -/
theorem C18_render_picture_ignores_unhandled (driver_data : sunxi_cedrus_driver_data)
    (context : VAGenericID) (buffers : List VAGenericID) (obj_context : object_context)
    (obj_config : object_config) (obj_surface : object_surface)
    (hc : CONTEXT driver_data context = some obj_context)
    (hcfg : CONFIG driver_data obj_context.config_id = some obj_config)
    (ht : SURFACE driver_data obj_context.current_render_target = some obj_surface)
    (hbufs : ∀ buffer ∈ buffers, ∃ obj_buffer, BUFFER driver_data buffer = some obj_buffer ∧
      unhandled_buffer obj_config.profile obj_buffer.type) :
    sunxi_cedrus_RenderPicture driver_data context buffers =
      Outcome.returned VA_STATUS_SUCCESS () driver_data := by
  unfold sunxi_cedrus_RenderPicture
  simp only [hc, hcfg, ht]
  exact sunxi_cedrus_RenderPicture.loop_unhandled _ _ _ _ buffers hbufs

/-- C18, at an example: the IQ matrix buffer of the example session, whose configuration is
MPEG2Main, rendered twice in one call. -/
theorem C18_render_picture_ignores_unhandled_witness :
    unhandled_buffer VAProfileMPEG2Main VAIQMatrixBufferType ∧
    sunxi_cedrus_RenderPicture session_decoding session_context_id
        [session_buffer_id 0, session_buffer_id 0] =
      Outcome.returned VA_STATUS_SUCCESS () session_decoding :=
  ⟨by decide,
    C18_render_picture_ignores_unhandled session_decoding session_context_id
      [session_buffer_id 0, session_buffer_id 0] _ _ _ rfl rfl rfl
      (fun buffer hmem => by
        have hb : buffer = session_buffer_id 0 := by
          rcases List.mem_cons.mp hmem with h | h
          · exact h
          · rcases List.mem_cons.mp h with h | h
            · exact h
            · cases h
        subst hb
        exact ⟨_, rfl, by decide⟩)⟩

/-- A call of `sunxi_cedrus_RenderPicture` with one buffer is the handler chosen for that
buffer, when that handler returns. -/
theorem sunxi_cedrus_RenderPicture.single (driver_data after : sunxi_cedrus_driver_data)
    (context buffer : VAGenericID) (obj_context : object_context)
    (obj_config : object_config) (obj_surface : object_surface) (obj_buffer : object_buffer)
    (vaStatus : VAStatus)
    (hc : CONTEXT driver_data context = some obj_context)
    (hcfg : CONFIG driver_data obj_context.config_id = some obj_config)
    (ht : SURFACE driver_data obj_context.current_render_target = some obj_surface)
    (hb : BUFFER driver_data buffer = some obj_buffer)
    (hd : sunxi_cedrus_RenderPicture.dispatch driver_data VA_STATUS_SUCCESS obj_config.profile
      context obj_surface obj_buffer = Outcome.returned vaStatus () after) :
    sunxi_cedrus_RenderPicture driver_data context [buffer] =
      Outcome.returned vaStatus () after := by
  unfold sunxi_cedrus_RenderPicture
  simp only [hc, hcfg, ht]
  unfold sunxi_cedrus_RenderPicture.loop
  simp only [hb, hd]
  rfl

theorem sunxi_cedrus_RenderPicture.dispatch_mpeg2 (driver_data : sunxi_cedrus_driver_data)
    (vaStatus : VAStatus) (profile : VAProfile) (context : VAGenericID)
    (obj_surface : object_surface) (obj_buffer : object_buffer)
    (hp : profile = VAProfileMPEG2Simple ∨ profile = VAProfileMPEG2Main) :
    (obj_buffer.type = VASliceDataBufferType →
      sunxi_cedrus_RenderPicture.dispatch driver_data vaStatus profile context obj_surface
          obj_buffer =
        sunxi_cedrus_render_mpeg2_slice_data driver_data context obj_surface obj_buffer) ∧
    (obj_buffer.type = VAPictureParameterBufferType →
      sunxi_cedrus_RenderPicture.dispatch driver_data vaStatus profile context obj_surface
          obj_buffer =
        sunxi_cedrus_render_mpeg2_picture_parameter driver_data context obj_surface
          obj_buffer) := by
  unfold sunxi_cedrus_RenderPicture.dispatch
  constructor
  · intro ht
    rw [if_pos hp, if_pos ht]
  · intro ht
    have hne : ¬ obj_buffer.type = VASliceDataBufferType := by rw [ht]; decide
    rw [if_pos hp, if_neg hne, if_pos ht]

theorem sunxi_cedrus_RenderPicture.dispatch_mpeg4 (driver_data : sunxi_cedrus_driver_data)
    (vaStatus : VAStatus) (profile : VAProfile) (context : VAGenericID)
    (obj_surface : object_surface) (obj_buffer : object_buffer)
    (hp : profile = VAProfileMPEG4Simple ∨ profile = VAProfileMPEG4AdvancedSimple ∨
      profile = VAProfileMPEG4Main) :
    (obj_buffer.type = VASliceDataBufferType →
      sunxi_cedrus_RenderPicture.dispatch driver_data vaStatus profile context obj_surface
          obj_buffer =
        sunxi_cedrus_render_mpeg4_slice_data driver_data context obj_surface obj_buffer) ∧
    (obj_buffer.type = VAPictureParameterBufferType →
      sunxi_cedrus_RenderPicture.dispatch driver_data vaStatus profile context obj_surface
          obj_buffer =
        sunxi_cedrus_render_mpeg4_picture_parameter driver_data context obj_surface
          obj_buffer) := by
  have hnot : ¬ (profile = VAProfileMPEG2Simple ∨ profile = VAProfileMPEG2Main) := by
    simp only [VAProfileMPEG2Simple, VAProfileMPEG2Main, VAProfileMPEG4Simple,
      VAProfileMPEG4AdvancedSimple, VAProfileMPEG4Main, VAProfile] at hp ⊢
    omega
  unfold sunxi_cedrus_RenderPicture.dispatch
  constructor
  · intro ht
    rw [if_neg hnot, if_pos hp, if_pos ht]
  · intro ht
    have hne : ¬ obj_buffer.type = VASliceDataBufferType := by rw [ht]; decide
    rw [if_neg hnot, if_pos hp, if_neg hne, if_pos ht]

/-- C19: render one PictureParameter buffer on a context whose configuration, current
render target and buffer resolve. For an MPEG-2 profile the MPEG-2 frame header of the
context, and for an MPEG-4 profile its MPEG-4 frame header, then has as `forward_index` the
`output_buf_index` of the surface the forward reference of the parameters resolves to, and
the `output_buf_index` of the current render target when that reference does not resolve;
`backward_index` is determined in the same way by the backward reference alone. -/
theorem C19_reference_indices (driver_data : sunxi_cedrus_driver_data)
    (context buffer : VAGenericID) (obj_context : object_context)
    (obj_config : object_config) (obj_surface : object_surface) (obj_buffer : object_buffer)
    (buffer_data : buffer_contents)
    (hc : CONTEXT driver_data context = some obj_context)
    (hcfg : CONFIG driver_data obj_context.config_id = some obj_config)
    (ht : SURFACE driver_data obj_context.current_render_target = some obj_surface)
    (hb : BUFFER driver_data buffer = some obj_buffer)
    (htype : obj_buffer.type = VAPictureParameterBufferType)
    (hdata : obj_buffer.buffer_data = some buffer_data) :
    ((obj_config.profile = VAProfileMPEG2Simple ∨ obj_config.profile = VAProfileMPEG2Main) →
      ∃ after updated,
        sunxi_cedrus_RenderPicture driver_data context [buffer] =
          Outcome.returned VA_STATUS_SUCCESS () after ∧
        CONTEXT after context = some updated ∧
        (∀ fwd_surface,
          SURFACE driver_data buffer_data.mpeg2_picture_parameter.forward_reference_picture =
            some fwd_surface →
          updated.mpeg2_frame_hdr.forward_index = fwd_surface.output_buf_index) ∧
        (SURFACE driver_data buffer_data.mpeg2_picture_parameter.forward_reference_picture =
            none →
          updated.mpeg2_frame_hdr.forward_index = obj_surface.output_buf_index) ∧
        (∀ bwd_surface,
          SURFACE driver_data buffer_data.mpeg2_picture_parameter.backward_reference_picture =
            some bwd_surface →
          updated.mpeg2_frame_hdr.backward_index = bwd_surface.output_buf_index) ∧
        (SURFACE driver_data buffer_data.mpeg2_picture_parameter.backward_reference_picture =
            none →
          updated.mpeg2_frame_hdr.backward_index = obj_surface.output_buf_index)) ∧
    ((obj_config.profile = VAProfileMPEG4Simple ∨
        obj_config.profile = VAProfileMPEG4AdvancedSimple ∨
        obj_config.profile = VAProfileMPEG4Main) →
      ∃ after updated,
        sunxi_cedrus_RenderPicture driver_data context [buffer] =
          Outcome.returned VA_STATUS_SUCCESS () after ∧
        CONTEXT after context = some updated ∧
        (∀ fwd_surface,
          SURFACE driver_data buffer_data.mpeg4_picture_parameter.forward_reference_picture =
            some fwd_surface →
          updated.mpeg4_frame_hdr.forward_index = fwd_surface.output_buf_index) ∧
        (SURFACE driver_data buffer_data.mpeg4_picture_parameter.forward_reference_picture =
            none →
          updated.mpeg4_frame_hdr.forward_index = obj_surface.output_buf_index) ∧
        (∀ bwd_surface,
          SURFACE driver_data buffer_data.mpeg4_picture_parameter.backward_reference_picture =
            some bwd_surface →
          updated.mpeg4_frame_hdr.backward_index = bwd_surface.output_buf_index) ∧
        (SURFACE driver_data buffer_data.mpeg4_picture_parameter.backward_reference_picture =
            none →
          updated.mpeg4_frame_hdr.backward_index = obj_surface.output_buf_index)) := by
  constructor
  · intro hp
    have hd := (sunxi_cedrus_RenderPicture.dispatch_mpeg2 driver_data VA_STATUS_SUCCESS
      obj_config.profile context obj_surface obj_buffer hp).2 htype
    unfold sunxi_cedrus_render_mpeg2_picture_parameter at hd
    simp only [hdata, hc] at hd
    have hret := sunxi_cedrus_RenderPicture.single driver_data _ context buffer obj_context
      obj_config obj_surface obj_buffer _ hc hcfg ht hb hd
    refine ⟨_, ?updated, hret, ?hctx, ?_, ?_, ?_, ?_⟩
    case hctx =>
      rw [CONTEXT_write driver_data _ context context _ rfl, if_pos ⟨rfl, by rw [hc]; rfl⟩]
      exact rfl
    · intro fwd_surface h; simp only [h]
    · intro h; simp only [h]
    · intro bwd_surface h; simp only [h]
    · intro h; simp only [h]
  · intro hp
    have hd := (sunxi_cedrus_RenderPicture.dispatch_mpeg4 driver_data VA_STATUS_SUCCESS
      obj_config.profile context obj_surface obj_buffer hp).2 htype
    unfold sunxi_cedrus_render_mpeg4_picture_parameter at hd
    simp only [hdata, hc] at hd
    have hret := sunxi_cedrus_RenderPicture.single driver_data _ context buffer obj_context
      obj_config obj_surface obj_buffer _ hc hcfg ht hb hd
    refine ⟨_, ?updated4, hret, ?hctx4, ?_, ?_, ?_, ?_⟩
    case hctx4 =>
      rw [CONTEXT_write driver_data _ context context _ rfl, if_pos ⟨rfl, by rw [hc]; rfl⟩]
      exact rfl
    · intro fwd_surface h; simp only [h]
    · intro h; simp only [h]
    · intro bwd_surface h; simp only [h]
    · intro h; simp only [h]

/-- C19, at an example: in the example session the picture parameters name surface 1, whose
output slot is 0, as forward reference and no surface as backward reference, and the
current render target, surface 0, has output slot 1: the header gets `forward_index = 0`
and `backward_index = 1`. -/
theorem C19_reference_indices_witness :
    (SURFACE session_decoding (session_surface_id 1)).map object_surface.output_buf_index =
      some 0 ∧
    SURFACE session_decoding VA_INVALID_SURFACE = none ∧
    (SURFACE session_decoding (session_surface_id 0)).map object_surface.output_buf_index =
      some 1 ∧
    ∃ after updated,
      sunxi_cedrus_RenderPicture session_decoding session_context_id [session_buffer_id 1] =
        Outcome.returned VA_STATUS_SUCCESS () after ∧
      CONTEXT after session_context_id = some updated ∧
      updated.mpeg2_frame_hdr.forward_index = 0 ∧
      updated.mpeg2_frame_hdr.backward_index = 1 := by
  refine ⟨rfl, rfl, rfl, ?_⟩
  obtain ⟨after, updated, hret, hctx, hfwd, _, _, hbwd⟩ :=
    (C19_reference_indices session_decoding session_context_id (session_buffer_id 1) _ _ _ _ _
      rfl rfl rfl rfl rfl rfl).1 (Or.inr rfl)
  exact ⟨after, updated, hret, hctx, hfwd _ rfl, hbwd rfl⟩

/-- On a device that answers success, `sunxi_cedrus_render_mpeg2_slice_data` with a buffer
that has data issues the query and the mapping of the input buffer, the copy of the payload,
one extended control write of the MPEG-2 frame header and one enqueue on the output queue,
and returns success. -/
theorem sunxi_cedrus_render_mpeg2_slice_data_trace (driver_data : sunxi_cedrus_driver_data)
    (context : VAGenericID) (obj_context : object_context) (obj_surface : object_surface)
    (obj_buffer : object_buffer) (buffer_data : buffer_contents)
    (hc : CONTEXT driver_data context = some obj_context)
    (hdata : obj_buffer.buffer_data = some buffer_data)
    (hok : driver_data.mem2mem_fd.all_ok) :
    ∃ after,
      sunxi_cedrus_render_mpeg2_slice_data driver_data context obj_surface obj_buffer =
        Outcome.returned VA_STATUS_SUCCESS () after ∧
      after.mem2mem_fd.trace = driver_data.mem2mem_fd.trace ++
        [DeviceOp.VIDIOC_QUERYBUF V4L2_BUF_TYPE_VIDEO_OUTPUT_MPLANE obj_surface.input_buf_index,
          DeviceOp.mmap V4L2_BUF_TYPE_VIDEO_OUTPUT_MPLANE obj_surface.input_buf_index 0,
          DeviceOp.memcpy V4L2_BUF_TYPE_VIDEO_OUTPUT_MPLANE obj_surface.input_buf_index
            (buffer_data.bytes.take obj_buffer.size),
          DeviceOp.VIDIOC_S_EXT_CTRLS
            (v4l2_ext_control.V4L2_CID_MPEG_VIDEO_MPEG2_FRAME_HDR
              { obj_context.mpeg2_frame_hdr with
                slice_pos := 0
                slice_len := obj_buffer.size
                type := mpeg_type.MPEG2 })
            obj_surface.request,
          DeviceOp.VIDIOC_QBUF V4L2_BUF_TYPE_VIDEO_OUTPUT_MPLANE obj_surface.input_buf_index
            obj_surface.request] := by
  have hc2 : ∀ d : Device,
      CONTEXT { driver_data with mem2mem_fd := d } context = some obj_context := fun _ => hc
  unfold sunxi_cedrus_render_mpeg2_slice_data
  simp only [sunxi_cedrus_driver_data.assert_issue, sunxi_cedrus_driver_data.issue,
    Device.call, hok _ _, if_true, hdata, hc2]
  refine ⟨_, rfl, ?_⟩
  simp only [List.append_assoc, List.singleton_append, List.cons_append, List.nil_append]

/-- On a device that answers success, `sunxi_cedrus_render_mpeg4_slice_data` with a buffer
that has data issues the query and the mapping of the input buffer, the copy of the payload,
one extended control write of the MPEG-4 frame header and one enqueue on the output queue,
and returns success. -/
theorem sunxi_cedrus_render_mpeg4_slice_data_trace (driver_data : sunxi_cedrus_driver_data)
    (context : VAGenericID) (obj_context : object_context) (obj_surface : object_surface)
    (obj_buffer : object_buffer) (buffer_data : buffer_contents)
    (hc : CONTEXT driver_data context = some obj_context)
    (hdata : obj_buffer.buffer_data = some buffer_data)
    (hok : driver_data.mem2mem_fd.all_ok) :
    ∃ after,
      sunxi_cedrus_render_mpeg4_slice_data driver_data context obj_surface obj_buffer =
        Outcome.returned VA_STATUS_SUCCESS () after ∧
      after.mem2mem_fd.trace = driver_data.mem2mem_fd.trace ++
        [DeviceOp.VIDIOC_QUERYBUF V4L2_BUF_TYPE_VIDEO_OUTPUT_MPLANE obj_surface.input_buf_index,
          DeviceOp.mmap V4L2_BUF_TYPE_VIDEO_OUTPUT_MPLANE obj_surface.input_buf_index 0,
          DeviceOp.memcpy V4L2_BUF_TYPE_VIDEO_OUTPUT_MPLANE obj_surface.input_buf_index
            (buffer_data.bytes.take obj_buffer.size),
          DeviceOp.VIDIOC_S_EXT_CTRLS
            (v4l2_ext_control.V4L2_CID_MPEG_VIDEO_MPEG4_FRAME_HDR obj_context.mpeg4_frame_hdr)
            obj_surface.request,
          DeviceOp.VIDIOC_QBUF V4L2_BUF_TYPE_VIDEO_OUTPUT_MPLANE obj_surface.input_buf_index
            obj_surface.request] := by
  have hc2 : ∀ d : Device,
      CONTEXT { driver_data with mem2mem_fd := d } context = some obj_context := fun _ => hc
  unfold sunxi_cedrus_render_mpeg4_slice_data
  simp only [sunxi_cedrus_driver_data.assert_issue, sunxi_cedrus_driver_data.issue,
    Device.call, hok _ _, if_true, hdata, hc2]
  refine ⟨_, rfl, ?_⟩
  simp only [List.append_assoc, List.singleton_append, List.cons_append, List.nil_append]

/-- C20: render one SliceData buffer that has data, on a context whose configuration,
current render target and buffer resolve, on a device that answers success. The call
returns success and issues, after the query, the mapping and the copy into the input
buffer, exactly one extended control write followed by exactly one enqueue on the output
queue; both carry the request id of the render target, the enqueued buffer index is its
`input_buf_index`, and the control is the MPEG-2 frame header for an MPEG-2 profile and the
MPEG-4 frame header for an MPEG-4 profile. -/
theorem C20_slice_data_submission (driver_data : sunxi_cedrus_driver_data)
    (context buffer : VAGenericID) (obj_context : object_context)
    (obj_config : object_config) (obj_surface : object_surface) (obj_buffer : object_buffer)
    (buffer_data : buffer_contents)
    (hc : CONTEXT driver_data context = some obj_context)
    (hcfg : CONFIG driver_data obj_context.config_id = some obj_config)
    (ht : SURFACE driver_data obj_context.current_render_target = some obj_surface)
    (hb : BUFFER driver_data buffer = some obj_buffer)
    (htype : obj_buffer.type = VASliceDataBufferType)
    (hdata : obj_buffer.buffer_data = some buffer_data)
    (hok : driver_data.mem2mem_fd.all_ok) :
    ((obj_config.profile = VAProfileMPEG2Simple ∨ obj_config.profile = VAProfileMPEG2Main) →
      ∃ after,
        sunxi_cedrus_RenderPicture driver_data context [buffer] =
          Outcome.returned VA_STATUS_SUCCESS () after ∧
        after.mem2mem_fd.trace = driver_data.mem2mem_fd.trace ++
          [DeviceOp.VIDIOC_QUERYBUF V4L2_BUF_TYPE_VIDEO_OUTPUT_MPLANE
              obj_surface.input_buf_index,
            DeviceOp.mmap V4L2_BUF_TYPE_VIDEO_OUTPUT_MPLANE obj_surface.input_buf_index 0,
            DeviceOp.memcpy V4L2_BUF_TYPE_VIDEO_OUTPUT_MPLANE obj_surface.input_buf_index
              (buffer_data.bytes.take obj_buffer.size),
            DeviceOp.VIDIOC_S_EXT_CTRLS
              (v4l2_ext_control.V4L2_CID_MPEG_VIDEO_MPEG2_FRAME_HDR
                { obj_context.mpeg2_frame_hdr with
                  slice_pos := 0
                  slice_len := obj_buffer.size
                  type := mpeg_type.MPEG2 })
              obj_surface.request,
            DeviceOp.VIDIOC_QBUF V4L2_BUF_TYPE_VIDEO_OUTPUT_MPLANE obj_surface.input_buf_index
              obj_surface.request]) ∧
    ((obj_config.profile = VAProfileMPEG4Simple ∨
        obj_config.profile = VAProfileMPEG4AdvancedSimple ∨
        obj_config.profile = VAProfileMPEG4Main) →
      ∃ after,
        sunxi_cedrus_RenderPicture driver_data context [buffer] =
          Outcome.returned VA_STATUS_SUCCESS () after ∧
        after.mem2mem_fd.trace = driver_data.mem2mem_fd.trace ++
          [DeviceOp.VIDIOC_QUERYBUF V4L2_BUF_TYPE_VIDEO_OUTPUT_MPLANE
              obj_surface.input_buf_index,
            DeviceOp.mmap V4L2_BUF_TYPE_VIDEO_OUTPUT_MPLANE obj_surface.input_buf_index 0,
            DeviceOp.memcpy V4L2_BUF_TYPE_VIDEO_OUTPUT_MPLANE obj_surface.input_buf_index
              (buffer_data.bytes.take obj_buffer.size),
            DeviceOp.VIDIOC_S_EXT_CTRLS
              (v4l2_ext_control.V4L2_CID_MPEG_VIDEO_MPEG4_FRAME_HDR obj_context.mpeg4_frame_hdr)
              obj_surface.request,
            DeviceOp.VIDIOC_QBUF V4L2_BUF_TYPE_VIDEO_OUTPUT_MPLANE obj_surface.input_buf_index
              obj_surface.request]) := by
  constructor
  · intro hp
    obtain ⟨after, hret, htrace⟩ :=
      sunxi_cedrus_render_mpeg2_slice_data_trace driver_data context obj_context obj_surface
        obj_buffer buffer_data hc hdata hok
    have hd := (sunxi_cedrus_RenderPicture.dispatch_mpeg2 driver_data VA_STATUS_SUCCESS
      obj_config.profile context obj_surface obj_buffer hp).1 htype
    exact ⟨after, sunxi_cedrus_RenderPicture.single driver_data after context buffer
      obj_context obj_config obj_surface obj_buffer _ hc hcfg ht hb (hd.trans hret), htrace⟩
  · intro hp
    obtain ⟨after, hret, htrace⟩ :=
      sunxi_cedrus_render_mpeg4_slice_data_trace driver_data context obj_context obj_surface
        obj_buffer buffer_data hc hdata hok
    have hd := (sunxi_cedrus_RenderPicture.dispatch_mpeg4 driver_data VA_STATUS_SUCCESS
      obj_config.profile context obj_surface obj_buffer hp).1 htype
    exact ⟨after, sunxi_cedrus_RenderPicture.single driver_data after context buffer
      obj_context obj_config obj_surface obj_buffer _ hc hcfg ht hb (hd.trans hret), htrace⟩

/-- C20, at an example: the slice data buffer of the example session, whose configuration
is MPEG2Main and whose current render target, surface 0, has input slot 1 and request id 2;
the buffer has size 4 and its first four bytes are copied. -/
theorem C20_slice_data_submission_witness :
    (SURFACE session_decoding (session_surface_id 0)).map
        (fun s => (s.input_buf_index, s.request)) = some (1, 2) ∧
    session_decoding.mem2mem_fd.trace = [] ∧
    ∃ after,
      sunxi_cedrus_RenderPicture session_decoding session_context_id [session_buffer_id 2] =
        Outcome.returned VA_STATUS_SUCCESS () after ∧
      after.mem2mem_fd.trace =
        [DeviceOp.VIDIOC_QUERYBUF V4L2_BUF_TYPE_VIDEO_OUTPUT_MPLANE 1,
          DeviceOp.mmap V4L2_BUF_TYPE_VIDEO_OUTPUT_MPLANE 1 0,
          DeviceOp.memcpy V4L2_BUF_TYPE_VIDEO_OUTPUT_MPLANE 1 [0, 0, 1, 179],
          DeviceOp.VIDIOC_S_EXT_CTRLS
            (v4l2_ext_control.V4L2_CID_MPEG_VIDEO_MPEG2_FRAME_HDR
              { (default : v4l2_ctrl_mpeg2_frame_hdr) with
                slice_pos := 0
                slice_len := 4
                type := mpeg_type.MPEG2 })
            2,
          DeviceOp.VIDIOC_QBUF V4L2_BUF_TYPE_VIDEO_OUTPUT_MPLANE 1 2] := by
  refine ⟨rfl, rfl, ?_⟩
  obtain ⟨after, hret, htrace⟩ :=
    (C20_slice_data_submission session_decoding session_context_id (session_buffer_id 2)
      _ _ _ _ _ rfl rfl rfl rfl rfl rfl Device.willing_all_ok).1 (Or.inr rfl)
  exact ⟨after, hret, by rw [htrace]; rfl⟩

/-! ## Surface creation -/

theorem object_heap.countP_set_free (b : α) :
    ∀ (l : List (Option α)) (i : Nat), l[i]? = some none →
      (l.set i (some b)).countP Option.isNone + 1 = l.countP Option.isNone := by
  intro l
  induction l with
  | nil => intro i h; simp at h
  | cons x xs ih =>
    intro i h
    cases i with
    | zero =>
      simp only [List.getElem?_cons_zero, Option.some.injEq] at h
      subst h
      simp [List.countP_cons]
    | succ i =>
      simp only [List.getElem?_cons_succ] at h
      have := ih i h
      simp only [List.set_cons_succ, List.countP_cons]
      omega

theorem object_heap.countP_set_live (b : α) :
    ∀ (l : List (Option α)) (i : Nat) (a : α), l[i]? = some (some a) →
      (l.set i (some b)).countP Option.isNone = l.countP Option.isNone := by
  intro l
  induction l with
  | nil => intro i a h; simp at h
  | cons x xs ih =>
    intro i a h
    cases i with
    | zero =>
      simp only [List.getElem?_cons_zero, Option.some.injEq] at h
      subst h
      simp [List.countP_cons]
    | succ i =>
      simp only [List.getElem?_cons_succ] at h
      have := ih i a h
      simp only [List.set_cons_succ, List.countP_cons]
      omega

/-- A heap without room is exhausted. -/
theorem object_heap.allocate_of_no_room (heap : object_heap α) (h : heap.room = 0) :
    object_heap_allocate heap = (none, heap) := by
  unfold object_heap.room at h
  have hc : heap.slots.countP Option.isNone = 0 := by omega
  have hfree : ¬ heap.slots.findIdx Option.isNone < heap.slots.length := by
    intro hlt
    have hex := List.findIdx_lt_length.mp hlt
    have hpos := List.countP_pos_iff.mpr hex
    omega
  unfold object_heap_allocate
  simp only [hfree, if_false]
  have hcap : ¬ heap.slots.length < heap.capacity := by omega
  simp only [hcap, if_false]

/-- A heap with room allocates, and has one less room afterwards. -/
theorem object_heap.allocate_of_room (heap : object_heap α) (h : 0 < heap.room) :
    ∃ id, (object_heap_allocate heap).1 = some id ∧
      (object_heap_allocate heap).2.room + 1 = heap.room := by
  unfold object_heap.room at h ⊢
  have hle : heap.slots.findIdx Option.isNone ≤ heap.slots.length := List.findIdx_le_length _
  by_cases hlt : heap.slots.findIdx Option.isNone < heap.slots.length
  · have hfree : heap.slots[heap.slots.findIdx Option.isNone]? = some none := by
      have := @List.findIdx_getElem _ Option.isNone heap.slots hlt
      rw [List.getElem?_eq_getElem hlt]
      rcases hx : heap.slots[heap.slots.findIdx Option.isNone] with _ | a
      · rfl
      · rw [hx] at this; simp at this
    have hcount := object_heap.countP_set_free heap.blank heap.slots _ hfree
    unfold object_heap_allocate
    simp only [hlt, if_true]
    refine ⟨_, rfl, ?_⟩
    simp only [List.length_set]
    omega
  · have hc : heap.slots.countP Option.isNone = 0 := by
      by_contra hne
      have hpos : 0 < heap.slots.countP Option.isNone := Nat.pos_of_ne_zero hne
      exact hlt (List.findIdx_lt_length.mpr (List.countP_pos_iff.mp hpos))
    have hcap : heap.slots.length < heap.capacity := by omega
    unfold object_heap_allocate
    simp only [hlt, if_false, hcap, if_true]
    refine ⟨_, rfl, ?_⟩
    simp only [List.countP_append, List.length_append, List.length_singleton,
      List.countP_cons, List.countP_nil]
    simp only [Option.isNone_some, Bool.false_eq_true, if_false]
    omega

theorem object_heap.write_room (heap : object_heap α) (id : VAGenericID) (obj : α) :
    (heap.write id obj).room = heap.room := by
  unfold object_heap.write
  split
  · rename_i i _
    split
    · rename_i a hslot
      unfold object_heap.room
      simp only [List.length_set]
      rw [object_heap.countP_set_live obj heap.slots i a hslot]
    · rfl
  · rfl

theorem object_heap.write_wf (heap : object_heap α) (id : VAGenericID) (obj : α)
    (h : heap.wf) : (heap.write id obj).wf := by
  unfold object_heap.write
  split
  · split
    · exact ⟨h.1, h.2.1, by simpa using h.2.2⟩
    · exact h
  · exact h

/-- One turn of the loop of `sunxi_cedrus_CreateSurfaces` on a heap with room, with a
device that answers success and with slot `i` inside the caller's array. -/
theorem sunxi_cedrus_CreateSurfaces.loop_step (width height : Int) (index remaining i : Nat)
    (driver_data : sunxi_cedrus_driver_data) (surfaces : List VAGenericID)
    (hok : driver_data.mem2mem_fd.all_ok) (hwf : driver_data.surface_heap.wf)
    (hroom : 0 < driver_data.surface_heap.room) (hi : i < surfaces.length) :
    ∃ id after,
      sunxi_cedrus_CreateSurfaces.loop width height index (remaining + 1) i driver_data
          surfaces =
        sunxi_cedrus_CreateSurfaces.loop width height index remaining (i + 1) after
          (surfaces.set i id) ∧
      SURFACE driver_data id = none ∧
      (∃ obj, SURFACE after id = some obj ∧ obj.surface_id = id ∧
        obj.status = VASurfaceReady ∧ obj.width = width ∧ obj.height = height ∧
        obj.input_buf_index = 0 ∧ obj.output_buf_index = 0) ∧
      (∀ id2, id2 ≠ id → SURFACE after id2 = SURFACE driver_data id2) ∧
      after.surface_heap.wf ∧
      after.surface_heap.room + 1 = driver_data.surface_heap.room ∧
      after.mem2mem_fd.respond = driver_data.mem2mem_fd.respond ∧
      after.mem2mem_fd.trace =
        driver_data.mem2mem_fd.trace ++ capture_buffer_setup index 1 i ∧
      after.config_heap = driver_data.config_heap ∧
      after.context_heap = driver_data.context_heap ∧
      after.buffer_heap = driver_data.buffer_heap ∧
      after.image_heap = driver_data.image_heap ∧
      after.num_dst_bufs = driver_data.num_dst_bufs := by
  obtain ⟨id, hid, hdec⟩ := object_heap.allocate_of_room driver_data.surface_heap hroom
  obtain ⟨hwf1, _, hnew, hlook, hother⟩ := object_heap.allocate_spec hwf hid
  refine ⟨id,
    { driver_data with
      surface_heap :=
        ((object_heap_allocate driver_data.surface_heap).2.write id
          { driver_data.surface_heap.blank with surface_id := id }).write id
          { driver_data.surface_heap.blank with
            surface_id := id
            input_buf_index := 0
            output_buf_index := 0
            width := width
            height := height
            status := VASurfaceReady }
      mem2mem_fd :=
        { driver_data.mem2mem_fd with
          trace := driver_data.mem2mem_fd.trace ++ capture_buffer_setup index 1 i } },
    ?_, hnew, ?_, ?_, ?_, ?_, rfl, rfl, rfl, rfl, rfl, rfl, rfl⟩
  · have hfd : ∀ trace op, (driver_data.mem2mem_fd.respond trace op).ok = true := hok
    simp only [sunxi_cedrus_CreateSurfaces.loop, hid, object_heap.lookup_allocated, hlook, hi,
      if_true, sunxi_cedrus_driver_data.assert_issue, sunxi_cedrus_driver_data.issue,
      Device.call, hfd, capture_buffer_setup, List.append_assoc, List.singleton_append,
      List.cons_append, List.nil_append, List.append_nil]
  · refine ⟨{ driver_data.surface_heap.blank with
        surface_id := id
        input_buf_index := 0
        output_buf_index := 0
        width := width
        height := height
        status := VASurfaceReady }, ?_, rfl, rfl, rfl, rfl, rfl, rfl⟩
    unfold SURFACE
    simp [object_heap.lookup_write, hlook]
  · intro id2 hne
    unfold SURFACE
    simp only [object_heap.lookup_write, hne, false_and, if_false]
    exact hother id2 hne
  · exact object_heap.write_wf _ _ _ (object_heap.write_wf _ _ _ hwf1)
  · show (object_heap.write _ _ _).room + 1 = _
    rw [object_heap.write_room, object_heap.write_room]
    exact hdec

/-- The loop of `sunxi_cedrus_CreateSurfaces` stops at once on an exhausted heap. -/
theorem sunxi_cedrus_CreateSurfaces.loop_exhausted (width height : Int)
    (index remaining i : Nat) (driver_data : sunxi_cedrus_driver_data)
    (surfaces : List VAGenericID) (hroom : driver_data.surface_heap.room = 0) :
    sunxi_cedrus_CreateSurfaces.loop width height index (remaining + 1) i driver_data
        surfaces =
      Outcome.returned VA_STATUS_ERROR_ALLOCATION_FAILED (i, surfaces) driver_data := by
  simp only [sunxi_cedrus_CreateSurfaces.loop,
    object_heap.allocate_of_no_room driver_data.surface_heap hroom]

/-- The loop of `sunxi_cedrus_CreateSurfaces` with a device that answers success: it
creates one surface for each buffer as long as the heap has room, `ids` in order, stores
them in the caller's array from slot `i` on, and ends with success when the heap had room
for all of them and with `ALLOCATION_FAILED` otherwise. -/
theorem sunxi_cedrus_CreateSurfaces.loop_spec (width height : Int) (index : Nat) :
    ∀ (remaining i : Nat) (driver_data : sunxi_cedrus_driver_data)
      (surfaces : List VAGenericID),
      driver_data.mem2mem_fd.all_ok → driver_data.surface_heap.wf →
      i + min remaining driver_data.surface_heap.room ≤ surfaces.length →
      ∃ (ids : List VAGenericID) (after : sunxi_cedrus_driver_data)
          (out : List VAGenericID),
        sunxi_cedrus_CreateSurfaces.loop width height index remaining i driver_data
            surfaces =
          Outcome.returned
            (if remaining ≤ driver_data.surface_heap.room then VA_STATUS_SUCCESS
              else VA_STATUS_ERROR_ALLOCATION_FAILED)
            (i + ids.length, out) after ∧
        ids.length = min remaining driver_data.surface_heap.room ∧
        ids.Nodup ∧
        out.length = surfaces.length ∧
        (∀ k, k < ids.length → out[i + k]? = ids[k]?) ∧
        (∀ j, j < i ∨ i + ids.length ≤ j → out[j]? = surfaces[j]?) ∧
        (∀ id, id ∈ ids → SURFACE driver_data id = none ∧
          ∃ obj, SURFACE after id = some obj ∧ obj.surface_id = id ∧
            obj.status = VASurfaceReady ∧ obj.width = width ∧ obj.height = height ∧
            obj.input_buf_index = 0 ∧ obj.output_buf_index = 0) ∧
        (∀ id, id ∉ ids → SURFACE after id = SURFACE driver_data id) ∧
        after.surface_heap.wf ∧
        after.surface_heap.room + ids.length = driver_data.surface_heap.room ∧
        after.mem2mem_fd.respond = driver_data.mem2mem_fd.respond ∧
        after.mem2mem_fd.trace =
          driver_data.mem2mem_fd.trace ++ capture_buffer_setup index ids.length i ∧
        after.config_heap = driver_data.config_heap ∧
        after.context_heap = driver_data.context_heap ∧
        after.buffer_heap = driver_data.buffer_heap ∧
        after.image_heap = driver_data.image_heap ∧
        after.num_dst_bufs = driver_data.num_dst_bufs := by
  intro remaining
  induction remaining with
  | zero =>
    intro i driver_data surfaces _ hwf _
    refine ⟨[], driver_data, surfaces, ?_, ?_, List.nodup_nil, rfl, ?_, ?_, ?_, ?_, hwf, rfl,
      rfl, ?_, rfl, rfl, rfl, rfl, rfl⟩
    · simp [sunxi_cedrus_CreateSurfaces.loop]
    · simp
    · intro k hk; simp at hk
    · intro j _; rfl
    · intro id hid; simp at hid
    · intro id _; rfl
    · simp [capture_buffer_setup]
  | succ remaining ih =>
    intro i driver_data surfaces hok hwf hlen
    by_cases hroom : driver_data.surface_heap.room = 0
    · refine ⟨[], driver_data, surfaces, ?_, ?_, List.nodup_nil, rfl, ?_, ?_, ?_, ?_, hwf, rfl,
        rfl, ?_, rfl, rfl, rfl, rfl, rfl⟩
      · rw [sunxi_cedrus_CreateSurfaces.loop_exhausted _ _ _ _ _ _ _ hroom, hroom]
        simp
      · simp [hroom]
      · intro k hk; simp at hk
      · intro j _; rfl
      · intro id hid; simp at hid
      · intro id _; rfl
      · simp [capture_buffer_setup]
    · have hpos : 0 < driver_data.surface_heap.room := Nat.pos_of_ne_zero hroom
      have hi : i < surfaces.length := by omega
      obtain ⟨id, d1, hstep, hfresh, ⟨obj, hobj, hobjp⟩, hothers, hwf1, hroom1, hresp1,
        htrace1, hf1, hf2, hf3, hf4, hf5⟩ :=
        sunxi_cedrus_CreateSurfaces.loop_step width height index remaining i driver_data
          surfaces hok hwf hpos hi
      have hok1 : d1.mem2mem_fd.all_ok := by
        intro trace op
        rw [hresp1]
        exact hok trace op
      have hlen1 : i + 1 + min remaining d1.surface_heap.room ≤ (surfaces.set i id).length := by
        rw [List.length_set]
        omega
      obtain ⟨ids, after, out, hrun, hcount, hnodup, houtlen, hin, hout, hids, hrest, hwf2,
        hroom2, hresp2, htrace2, hg1, hg2, hg3, hg4, hg5⟩ :=
        ih (i + 1) d1 (surfaces.set i id) hok1 hwf1 hlen1
      have hnotin : id ∉ ids := by
        intro hmem
        have := (hids id hmem).1
        rw [hobj] at this
        cases this
      refine ⟨id :: ids, after, out, ?_, ?_, ?_, ?_, ?_, ?_, ?_, ?_, hwf2, ?_, ?_, ?_, ?_, ?_,
        ?_, ?_, ?_⟩
      · rw [hstep, hrun]
        have hiff : (remaining ≤ d1.surface_heap.room) ↔
            (remaining + 1 ≤ driver_data.surface_heap.room) := by omega
        simp only [hiff, List.length_cons]
        have : i + 1 + ids.length = i + (ids.length + 1) := by omega
        rw [this]
      · simp only [List.length_cons, hcount]
        omega
      · exact List.nodup_cons.mpr ⟨hnotin, hnodup⟩
      · rw [houtlen, List.length_set]
      · intro k hk
        cases k with
        | zero =>
          rw [Nat.add_zero, hout i (Or.inl (Nat.lt_succ_self i))]
          simp [List.getElem?_set, hi]
        | succ k =>
          simp only [List.length_cons] at hk
          have := hin k (by omega)
          rw [show i + (k + 1) = i + 1 + k by omega, this]
          simp
      · intro j hj
        simp only [List.length_cons] at hj
        rw [hout j (by omega)]
        have hne : i ≠ j := by omega
        simp [List.getElem?_set, hne]
      · intro id2 hmem
        rcases List.mem_cons.mp hmem with heq | hmem2
        · subst heq
          refine ⟨hfresh, ?_⟩
          rw [hrest id2 hnotin]
          exact ⟨obj, hobj, hobjp⟩
        · have hne : id2 ≠ id := by
            intro heq
            exact hnotin (heq ▸ hmem2)
          obtain ⟨hnone, hsome⟩ := hids id2 hmem2
          refine ⟨?_, hsome⟩
          rw [← hothers id2 hne]
          exact hnone
      · intro id2 hmem
        have hne : id2 ≠ id := fun heq => hmem (heq ▸ List.mem_cons_self _ _)
        have hmem2 : id2 ∉ ids := fun h => hmem (List.mem_cons_of_mem _ h)
        rw [hrest id2 hmem2, hothers id2 hne]
      · simp only [List.length_cons]
        omega
      · rw [hresp2, hresp1]
      · rw [htrace2, htrace1]
        simp only [List.length_cons, capture_buffer_setup, List.append_assoc,
          List.singleton_append, List.cons_append, List.nil_append, List.append_nil]
      · rw [hg1, hf1]
      · rw [hg2, hf2]
      · rw [hg3, hf3]
      · rw [hg4, hf4]
      · rw [hg5, hf5]

/-- The error recovery loop of `sunxi_cedrus_CreateSurfaces`, entered with `i`, when the
slots below `i` of the caller's array hold pairwise distinct ids of live surfaces: it
frees these surfaces and stores the invalid-surface marker in their slots. -/
theorem sunxi_cedrus_CreateSurfaces.recover_spec :
    ∀ (i : Nat) (driver_data : sunxi_cedrus_driver_data) (surfaces : List VAGenericID),
      (∀ j, j < i → ∃ id, surfaces[j]? = some id ∧ (SURFACE driver_data id).isSome) →
      (∀ j1 j2, j1 < i → j2 < i → surfaces[j1]? = surfaces[j2]? → j1 = j2) →
      ∃ (after : sunxi_cedrus_driver_data) (out : List VAGenericID),
        sunxi_cedrus_CreateSurfaces.recover i driver_data surfaces =
          Outcome.returned VA_STATUS_SUCCESS out after ∧
        out.length = surfaces.length ∧
        (∀ j, j < i → out[j]? = some VA_INVALID_SURFACE) ∧
        (∀ j, i ≤ j → out[j]? = surfaces[j]?) ∧
        (∀ j id, j < i → surfaces[j]? = some id → SURFACE after id = none) ∧
        (∀ id, (∀ j, j < i → surfaces[j]? ≠ some id) →
          SURFACE after id = SURFACE driver_data id) ∧
        after.mem2mem_fd = driver_data.mem2mem_fd ∧
        after.config_heap = driver_data.config_heap ∧
        after.context_heap = driver_data.context_heap ∧
        after.buffer_heap = driver_data.buffer_heap ∧
        after.image_heap = driver_data.image_heap ∧
        after.num_dst_bufs = driver_data.num_dst_bufs := by
  intro i
  induction i with
  | zero =>
    intro driver_data surfaces _ _
    refine ⟨driver_data, surfaces, ?_, rfl, ?_, ?_, ?_, ?_, rfl, rfl, rfl, rfl, rfl, rfl⟩
    · simp [sunxi_cedrus_CreateSurfaces.recover]
    · intro j hj; omega
    · intro j _; rfl
    · intro j id hj; omega
    · intro id _; rfl
  | succ i ih =>
    intro driver_data surfaces hres hinj
    obtain ⟨id, hget, hsome⟩ := hres i (Nat.lt_succ_self i)
    obtain ⟨obj, hobj⟩ := Option.isSome_iff_exists.mp hsome
    have hi : i < surfaces.length := by
      by_contra hge
      rw [List.getElem?_eq_none (by omega)] at hget
      cases hget
    have hfree : ∀ id2,
        SURFACE { driver_data with
            surface_heap := object_heap_free driver_data.surface_heap id } id2 =
          if id2 = id then none else SURFACE driver_data id2 := by
      intro id2
      unfold SURFACE
      exact object_heap.lookup_free _ _ _
    have hset : ∀ j, j ≠ i → (surfaces.set i VA_INVALID_SURFACE)[j]? = surfaces[j]? := by
      intro j hne
      have hne2 : i ≠ j := fun h => hne h.symm
      simp [List.getElem?_set, hne2]
    have hres1 : ∀ j, j < i → ∃ id2, (surfaces.set i VA_INVALID_SURFACE)[j]? = some id2 ∧
        (SURFACE { driver_data with
            surface_heap := object_heap_free driver_data.surface_heap id } id2).isSome := by
      intro j hj
      obtain ⟨id2, hget2, hsome2⟩ := hres j (by omega)
      refine ⟨id2, by rw [hset j (by omega), hget2], ?_⟩
      have hne : id2 ≠ id := by
        intro heq
        have := hinj j i (by omega) (by omega) (by rw [hget2, hget, heq])
        omega
      rw [hfree, if_neg hne]
      exact hsome2
    have hinj1 : ∀ j1 j2, j1 < i → j2 < i →
        (surfaces.set i VA_INVALID_SURFACE)[j1]? = (surfaces.set i VA_INVALID_SURFACE)[j2]? →
        j1 = j2 := by
      intro j1 j2 h1 h2 heq
      rw [hset j1 (by omega), hset j2 (by omega)] at heq
      exact hinj j1 j2 (by omega) (by omega) heq
    obtain ⟨after, out, hrun, houtlen, hmarked, hkept, hfreed, hrest, hg0, hg1, hg2, hg3, hg4,
      hg5⟩ := ih _ _ hres1 hinj1
    refine ⟨after, out, ?_, ?_, ?_, ?_, ?_, ?_, ?_, ?_, ?_, ?_, ?_, ?_⟩
    · simp only [sunxi_cedrus_CreateSurfaces.recover, hget, hobj]
      exact hrun
    · rw [houtlen, List.length_set]
    · intro j hj
      by_cases hji : j < i
      · exact hmarked j hji
      · have hje : j = i := by omega
        subst hje
        rw [hkept j (Nat.le_refl j)]
        simp [List.getElem?_set, hi]
    · intro j hj
      rw [hkept j (by omega), hset j (by omega)]
    · intro j id2 hj hget2
      by_cases hji : j < i
      · exact hfreed j id2 hji (by rw [hset j (by omega), hget2])
      · have hje : j = i := by omega
        subst hje
        have hid : id2 = id := by
          rw [hget] at hget2
          cases hget2
          rfl
        subst hid
        have hnot : ∀ j2, j2 < j → (surfaces.set j VA_INVALID_SURFACE)[j2]? ≠ some id2 := by
          intro j2 hj2 heq
          rw [hset j2 (by omega)] at heq
          have := hinj j2 j (by omega) (by omega) (by rw [heq, hget])
          omega
        rw [hrest id2 hnot, hfree, if_pos rfl]
    · intro id2 hnot
      have hne : id2 ≠ id := by
        intro heq
        exact hnot i (Nat.lt_succ_self i) (by rw [hget, heq])
      have hnot1 : ∀ j2, j2 < i → (surfaces.set i VA_INVALID_SURFACE)[j2]? ≠ some id2 := by
        intro j2 hj2
        rw [hset j2 (by omega)]
        exact hnot j2 (by omega)
      rw [hrest id2 hnot1, hfree, if_neg hne]
    · rw [hg0]
    · rw [hg1]
    · rw [hg2]
    · rw [hg3]
    · rw [hg4]
    · rw [hg5]

/-- With a device that answers success, `sunxi_cedrus_CreateSurfaces` for the format
YUV420 is its loop and its error recovery, run from the entry state. -/
theorem sunxi_cedrus_CreateSurfaces_entry (driver_data : sunxi_cedrus_driver_data)
    (width height : Int) (num_surfaces : Nat) (surfaces : List VAGenericID)
    (hok : driver_data.mem2mem_fd.all_ok) :
    sunxi_cedrus_CreateSurfaces driver_data width height VA_RT_FORMAT_YUV420 num_surfaces
        surfaces =
      match sunxi_cedrus_CreateSurfaces.loop width height
          (sunxi_cedrus_CreateSurfaces.entry driver_data width height num_surfaces).1.index
          (sunxi_cedrus_CreateSurfaces.entry driver_data width height num_surfaces).1.count 0
          (sunxi_cedrus_CreateSurfaces.entry driver_data width height num_surfaces).2
          surfaces with
      | Outcome.returned vaStatus (i, surfaces) driver_data =>
        if VA_STATUS_SUCCESS ≠ vaStatus then
          match sunxi_cedrus_CreateSurfaces.recover i driver_data surfaces with
          | Outcome.returned _ surfaces driver_data =>
            Outcome.returned vaStatus surfaces driver_data
          | Outcome.aborted driver_data => Outcome.aborted driver_data
          | Outcome.diverged => Outcome.diverged
        else Outcome.returned vaStatus surfaces driver_data
      | Outcome.aborted driver_data => Outcome.aborted driver_data
      | Outcome.diverged => Outcome.diverged := by
  have hfd : ∀ trace op, (driver_data.mem2mem_fd.respond trace op).ok = true := hok
  simp only [sunxi_cedrus_CreateSurfaces, sunxi_cedrus_CreateSurfaces.entry,
    sunxi_cedrus_driver_data.assert_issue, sunxi_cedrus_driver_data.issue, Device.call, hfd,
    if_true, ne_eq, not_true_eq_false, if_false]

/-- The entry state of the loop of `sunxi_cedrus_CreateSurfaces` differs from the state of
the call in the device trace and in `num_dst_bufs` only. -/
theorem sunxi_cedrus_CreateSurfaces.entry_spec (driver_data : sunxi_cedrus_driver_data)
    (width height : Int) (num_surfaces : Nat) :
    (sunxi_cedrus_CreateSurfaces.entry driver_data width height num_surfaces).2.surface_heap =
      driver_data.surface_heap ∧
    (sunxi_cedrus_CreateSurfaces.entry driver_data width height
      num_surfaces).2.mem2mem_fd.respond = driver_data.mem2mem_fd.respond ∧
    (sunxi_cedrus_CreateSurfaces.entry driver_data width height
      num_surfaces).2.mem2mem_fd.trace =
      driver_data.mem2mem_fd.trace ++
        [DeviceOp.VIDIOC_S_FMT V4L2_BUF_TYPE_VIDEO_CAPTURE_MPLANE width height
            v4l2_pixelformat.V4L2_PIX_FMT_NV12M 0 2,
          DeviceOp.VIDIOC_G_FMT V4L2_BUF_TYPE_VIDEO_CAPTURE_MPLANE,
          DeviceOp.VIDIOC_CREATE_BUFS V4L2_BUF_TYPE_VIDEO_CAPTURE_MPLANE num_surfaces] ∧
    (sunxi_cedrus_CreateSurfaces.entry driver_data width height num_surfaces).2.num_dst_bufs =
      (sunxi_cedrus_CreateSurfaces.entry driver_data width height num_surfaces).1.count := by
  refine ⟨rfl, rfl, ?_, rfl⟩
  simp [sunxi_cedrus_CreateSurfaces.entry, sunxi_cedrus_driver_data.issue, Device.call]

/-- The capture enqueues among the operations of the loop of `sunxi_cedrus_CreateSurfaces`:
one for each buffer, in order. -/
theorem capture_buffer_setup_enqueues (index : Nat) :
    ∀ n i, (capture_buffer_setup index n i).filter DeviceOp.is_capture_enqueue =
      (List.range n).map fun k =>
        DeviceOp.VIDIOC_QBUF V4L2_BUF_TYPE_VIDEO_CAPTURE_MPLANE (index + (i + k)) 0 := by
  intro n
  induction n with
  | zero => intro i; rfl
  | succ n ih =>
    intro i
    rw [List.range_succ_eq_map]
    simp only [capture_buffer_setup, List.cons_append, List.nil_append, List.filter_cons,
      DeviceOp.is_capture_enqueue, ih, List.map_cons, List.map_map, Nat.add_zero]
    simp only [Bool.false_eq_true, if_false, if_true, List.cons.injEq, true_and]
    apply List.map_congr_left
    intro k _
    simp only [Function.comp, Nat.succ_eq_add_one]
    congr 1
    omega

/-- A list that agrees with `ids` on its first slots and with `surfaces` behind them. -/
theorem sunxi_cedrus_CreateSurfaces.filled_eq (ids out surfaces : List VAGenericID)
    (hin : ∀ k, k < ids.length → out[k]? = ids[k]?)
    (hout : ∀ j, ids.length ≤ j → out[j]? = surfaces[j]?) :
    out = ids ++ surfaces.drop ids.length := by
  apply List.ext_getElem?
  intro n
  by_cases hn : n < ids.length
  · rw [hin n hn, List.getElem?_append_left hn]
  · rw [hout n (by omega), List.getElem?_append_right (by omega), List.getElem?_drop]
    congr 1
    omega

/-- C16: when the device answers success and grants `N` capture buffers, the surface heap
has room for `N` surfaces (no allocation fails) and the caller's array holds `N` ids,
`sunxi_cedrus_CreateSurfaces` with the format YUV420 returns success and stores `N`
pairwise distinct surface ids, none of which resolved before; each of them resolves to a
surface with status `VASurfaceReady` and the requested width and height, for which
`sunxi_cedrus_QuerySurfaceStatus` returns `VASurfaceReady`; and the capture enqueues among
the device operations of the call are one for each granted buffer, in order. -/
theorem C16_create_surfaces_ready (driver_data : sunxi_cedrus_driver_data)
    (width height : Int) (num_surfaces N : Nat) (surfaces : List VAGenericID)
    (hok : driver_data.mem2mem_fd.all_ok) (hwf : driver_data.surface_heap.wf)
    (hgrant :
      (sunxi_cedrus_CreateSurfaces.entry driver_data width height num_surfaces).1.count = N)
    (hroom : N ≤ driver_data.surface_heap.room) (hlen : N ≤ surfaces.length) :
    ∃ (ids : List VAGenericID) (after : sunxi_cedrus_driver_data) (issued : List DeviceOp),
      sunxi_cedrus_CreateSurfaces driver_data width height VA_RT_FORMAT_YUV420 num_surfaces
          surfaces =
        Outcome.returned VA_STATUS_SUCCESS (ids ++ surfaces.drop N) after ∧
      ids.length = N ∧ ids.Nodup ∧
      (∀ id, id ∈ ids → SURFACE driver_data id = none ∧
        ∃ obj, SURFACE after id = some obj ∧ obj.status = VASurfaceReady ∧
          obj.width = width ∧ obj.height = height ∧
          sunxi_cedrus_QuerySurfaceStatus after id =
            Outcome.returned VA_STATUS_SUCCESS VASurfaceReady after) ∧
      after.mem2mem_fd.trace = driver_data.mem2mem_fd.trace ++ issued ∧
      issued.filter DeviceOp.is_capture_enqueue =
        (List.range N).map fun k =>
          DeviceOp.VIDIOC_QBUF V4L2_BUF_TYPE_VIDEO_CAPTURE_MPLANE
            ((sunxi_cedrus_CreateSurfaces.entry driver_data width height
              num_surfaces).1.index + k) 0 := by
  obtain ⟨hheap, hresp, htrace, _⟩ :=
    sunxi_cedrus_CreateSurfaces.entry_spec driver_data width height num_surfaces
  have hok1 :
      (sunxi_cedrus_CreateSurfaces.entry driver_data width height
        num_surfaces).2.mem2mem_fd.all_ok := by
    intro trace op
    rw [hresp]
    exact hok trace op
  obtain ⟨ids, after, out, hrun, hcount, hnodup, _, hin, hout, hids, _, _, _, _, htrace2, _⟩ :=
    sunxi_cedrus_CreateSurfaces.loop_spec width height
      (sunxi_cedrus_CreateSurfaces.entry driver_data width height num_surfaces).1.index
      (sunxi_cedrus_CreateSurfaces.entry driver_data width height num_surfaces).1.count 0
      (sunxi_cedrus_CreateSurfaces.entry driver_data width height num_surfaces).2 surfaces
      hok1 (by rw [hheap]; exact hwf) (by rw [hheap, hgrant]; omega)
  rw [hheap, hgrant] at hrun hcount
  rw [if_pos hroom] at hrun
  have hlenids : ids.length = N := by omega
  simp only [Nat.zero_add] at hrun hin hout
  have hfilled := sunxi_cedrus_CreateSurfaces.filled_eq ids out surfaces hin
    (fun j hj => hout j (Or.inr hj))
  rw [hlenids] at hfilled
  refine ⟨ids, after,
    [DeviceOp.VIDIOC_S_FMT V4L2_BUF_TYPE_VIDEO_CAPTURE_MPLANE width height
        v4l2_pixelformat.V4L2_PIX_FMT_NV12M 0 2,
      DeviceOp.VIDIOC_G_FMT V4L2_BUF_TYPE_VIDEO_CAPTURE_MPLANE,
      DeviceOp.VIDIOC_CREATE_BUFS V4L2_BUF_TYPE_VIDEO_CAPTURE_MPLANE num_surfaces] ++
      capture_buffer_setup
        (sunxi_cedrus_CreateSurfaces.entry driver_data width height num_surfaces).1.index
        N 0,
    ?_, hlenids, hnodup, ?_, ?_, ?_⟩
  · rw [sunxi_cedrus_CreateSurfaces_entry _ _ _ _ _ hok, hgrant, hrun, ← hfilled]
    simp
  · intro id hmem
    obtain ⟨hnone, obj, hobj, _, hstatus, hwidth, hheight, _, _⟩ := hids id hmem
    refine ⟨?_, obj, hobj, hstatus, hwidth, hheight, ?_⟩
    · rw [← SURFACE_congr hheap id]
      exact hnone
    · simp only [sunxi_cedrus_QuerySurfaceStatus, hobj, hstatus]
  · rw [htrace2, htrace, hlenids]
    simp only [List.append_assoc]
  · rw [List.filter_append, capture_buffer_setup_enqueues]
    simp [DeviceOp.is_capture_enqueue]

/-- C16, at an example: four surfaces of 1920x1080 on the fresh driver state, whose device
grants the four buffers asked for. -/
theorem C16_create_surfaces_ready_witness :
    (sunxi_cedrus_CreateSurfaces.entry fresh_driver_data 1920 1080 4).1.count = 4 ∧
    ∃ (ids : List VAGenericID) (after : sunxi_cedrus_driver_data) (issued : List DeviceOp),
      sunxi_cedrus_CreateSurfaces fresh_driver_data 1920 1080 VA_RT_FORMAT_YUV420 4
          [0, 0, 0, 0] =
        Outcome.returned VA_STATUS_SUCCESS (ids ++ ([0, 0, 0, 0] : List VAGenericID).drop 4)
          after ∧
      ids.length = 4 ∧ ids.Nodup ∧
      (∀ id, id ∈ ids → SURFACE fresh_driver_data id = none ∧
        ∃ obj, SURFACE after id = some obj ∧ obj.status = VASurfaceReady ∧
          obj.width = 1920 ∧ obj.height = 1080 ∧
          sunxi_cedrus_QuerySurfaceStatus after id =
            Outcome.returned VA_STATUS_SUCCESS VASurfaceReady after) ∧
      after.mem2mem_fd.trace = fresh_driver_data.mem2mem_fd.trace ++ issued ∧
      issued.filter DeviceOp.is_capture_enqueue =
        (List.range 4).map fun k =>
          DeviceOp.VIDIOC_QBUF V4L2_BUF_TYPE_VIDEO_CAPTURE_MPLANE
            ((sunxi_cedrus_CreateSurfaces.entry fresh_driver_data 1920 1080 4).1.index + k) 0 :=
  ⟨rfl, C16_create_surfaces_ready fresh_driver_data 1920 1080 4 4 [0, 0, 0, 0]
    Device.willing_all_ok (by decide) rfl (by decide) (by decide)⟩

/-- C17: when the device answers success and the surface heap has room for `k` surfaces
only, fewer than the buffers the device grants, the loop of `sunxi_cedrus_CreateSurfaces`
creates `k` surfaces, with pairwise distinct ids, and stops at buffer `k`, where the
allocation fails; the call returns `ALLOCATION_FAILED`, none of the `k` ids resolves
afterwards (every surface id resolves as before the call), and the slots `0..k-1` of the
caller's array hold `VA_INVALID_SURFACE`, the other slots being as they were. -/
theorem C17_create_surfaces_unwinds (driver_data : sunxi_cedrus_driver_data)
    (width height : Int) (num_surfaces k : Nat) (surfaces : List VAGenericID)
    (hok : driver_data.mem2mem_fd.all_ok) (hwf : driver_data.surface_heap.wf)
    (hroom : driver_data.surface_heap.room = k)
    (hfail :
      k < (sunxi_cedrus_CreateSurfaces.entry driver_data width height num_surfaces).1.count)
    (hlen : k ≤ surfaces.length) :
    ∃ (ids : List VAGenericID) (created after : sunxi_cedrus_driver_data),
      sunxi_cedrus_CreateSurfaces.loop width height
          (sunxi_cedrus_CreateSurfaces.entry driver_data width height num_surfaces).1.index
          (sunxi_cedrus_CreateSurfaces.entry driver_data width height num_surfaces).1.count 0
          (sunxi_cedrus_CreateSurfaces.entry driver_data width height num_surfaces).2
          surfaces =
        Outcome.returned VA_STATUS_ERROR_ALLOCATION_FAILED (k, ids ++ surfaces.drop k)
          created ∧
      ids.length = k ∧ ids.Nodup ∧
      (∀ id, id ∈ ids → SURFACE driver_data id = none ∧ (SURFACE created id).isSome) ∧
      (object_heap_allocate created.surface_heap).1 = none ∧
      sunxi_cedrus_CreateSurfaces driver_data width height VA_RT_FORMAT_YUV420 num_surfaces
          surfaces =
        Outcome.returned VA_STATUS_ERROR_ALLOCATION_FAILED
          (List.replicate k VA_INVALID_SURFACE ++ surfaces.drop k) after ∧
      (∀ id, id ∈ ids → SURFACE after id = none) ∧
      (∀ id, SURFACE after id = SURFACE driver_data id) := by
  obtain ⟨hheap, hresp, _, _⟩ :=
    sunxi_cedrus_CreateSurfaces.entry_spec driver_data width height num_surfaces
  have hok1 :
      (sunxi_cedrus_CreateSurfaces.entry driver_data width height
        num_surfaces).2.mem2mem_fd.all_ok := by
    intro trace op
    rw [hresp]
    exact hok trace op
  obtain ⟨ids, created, out, hrun, hcount, hnodup, _, hin, hout, hids, hrest, _, hroom2, _⟩ :=
    sunxi_cedrus_CreateSurfaces.loop_spec width height
      (sunxi_cedrus_CreateSurfaces.entry driver_data width height num_surfaces).1.index
      (sunxi_cedrus_CreateSurfaces.entry driver_data width height num_surfaces).1.count 0
      (sunxi_cedrus_CreateSurfaces.entry driver_data width height num_surfaces).2 surfaces
      hok1 (by rw [hheap]; exact hwf) (by rw [hheap, hroom]; omega)
  rw [hheap, hroom] at hrun hcount hroom2
  rw [if_neg (by omega)] at hrun
  have hlenids : ids.length = k := by omega
  simp only [Nat.zero_add] at hrun hin hout
  have hfilled := sunxi_cedrus_CreateSurfaces.filled_eq ids out surfaces hin
    (fun j hj => hout j (Or.inr hj))
  rw [hlenids] at hfilled hrun
  have hres : ∀ j, j < k → ∃ id, out[j]? = some id ∧ (SURFACE created id).isSome := by
    intro j hj
    have hj2 : j < ids.length := by omega
    refine ⟨ids[j], ?_, ?_⟩
    · rw [hin j hj2, List.getElem?_eq_getElem hj2]
    · obtain ⟨_, obj, hobj, _⟩ := hids ids[j] (List.getElem_mem hj2)
      rw [hobj]
      rfl
  have hinj : ∀ j1 j2, j1 < k → j2 < k → out[j1]? = out[j2]? → j1 = j2 := by
    intro j1 j2 h1 h2 heq
    rw [hin j1 (by omega), hin j2 (by omega)] at heq
    exact List.getElem?_inj (by omega) hnodup heq
  obtain ⟨after, out2, hrec, _, hmarked, hkept, hfreed, hrest2, _⟩ :=
    sunxi_cedrus_CreateSurfaces.recover_spec k created out hres hinj
  have hslot : ∀ id, id ∈ ids → ∃ j, j < k ∧ out[j]? = some id := by
    intro id hmem
    obtain ⟨j, hj, hget⟩ := List.getElem_of_mem hmem
    refine ⟨j, by omega, ?_⟩
    rw [hin j hj, List.getElem?_eq_getElem hj, hget]
  have hgone : ∀ id, id ∈ ids → SURFACE after id = none := by
    intro id hmem
    obtain ⟨j, hj, hget⟩ := hslot id hmem
    exact hfreed j id hj hget
  have hfresh : ∀ id, id ∈ ids → SURFACE driver_data id = none := by
    intro id hmem
    rw [← SURFACE_congr hheap id]
    exact (hids id hmem).1
  have hmarks : out2 = List.replicate k VA_INVALID_SURFACE ++ surfaces.drop k := by
    have hlenrep : (List.replicate k VA_INVALID_SURFACE).length = k := List.length_replicate _ _
    have := sunxi_cedrus_CreateSurfaces.filled_eq (List.replicate k VA_INVALID_SURFACE) out2
      surfaces
      (by
        intro j hj
        rw [hlenrep] at hj
        rw [hmarked j hj, List.getElem?_replicate, if_pos hj])
      (by
        intro j hj
        rw [hlenrep] at hj
        rw [hkept j hj, hout j (Or.inr (by omega))])
    rw [hlenrep] at this
    exact this
  refine ⟨ids, created, after, ?_, hlenids, hnodup, ?_, ?_, ?_, hgone, ?_⟩
  · rw [hrun, ← hfilled]
  · intro id hmem
    obtain ⟨_, obj, hobj, _⟩ := hids id hmem
    exact ⟨hfresh id hmem, by rw [hobj]; rfl⟩
  · rw [object_heap.allocate_of_no_room created.surface_heap (by omega)]
  · rw [sunxi_cedrus_CreateSurfaces_entry _ _ _ _ _ hok, hrun]
    simp only [ne_eq, reduceCtorEq, not_false_eq_true, if_true, hrec, hmarks]
  · intro id
    by_cases hmem : id ∈ ids
    · rw [hgone id hmem, hfresh id hmem]
    · have hnot : ∀ j, j < k → out[j]? ≠ some id := by
        intro j hj heq
        have hj2 : j < ids.length := by omega
        rw [hin j hj2, List.getElem?_eq_getElem hj2] at heq
        cases heq
        exact hmem (List.getElem_mem hj2)
      rw [hrest2 id hnot, hrest id hmem]
      exact SURFACE_congr hheap id

/-- C17, at an example: four surfaces asked for on a driver state whose surface heap has
room for two; the allocation fails at buffer 2. -/
theorem C17_create_surfaces_unwinds_witness :
    cramped_driver_data.surface_heap.room = 2 ∧
    (sunxi_cedrus_CreateSurfaces.entry cramped_driver_data 1920 1080 4).1.count = 4 ∧
    ∃ (ids : List VAGenericID) (after : sunxi_cedrus_driver_data),
      ids.length = 2 ∧ ids.Nodup ∧
      sunxi_cedrus_CreateSurfaces cramped_driver_data 1920 1080 VA_RT_FORMAT_YUV420 4
          [0, 0, 0, 0] =
        Outcome.returned VA_STATUS_ERROR_ALLOCATION_FAILED
          [VA_INVALID_SURFACE, VA_INVALID_SURFACE, 0, 0] after ∧
      (∀ id, id ∈ ids → SURFACE after id = none) ∧
      (∀ id, SURFACE after id = SURFACE cramped_driver_data id) := by
  refine ⟨rfl, rfl, ?_⟩
  obtain ⟨ids, _, after, _, hlen, hnodup, _, _, hret, hgone, hsame⟩ :=
    C17_create_surfaces_unwinds cramped_driver_data 1920 1080 4 2 [0, 0, 0, 0]
      Device.willing_all_ok (by decide) rfl (by decide) (by decide)
  exact ⟨ids, after, hlen, hnodup, hret, hgone, hsame⟩

/-! ## End picture -/

/-- What `sunxi_cedrus_EndPicture` does on a context that resolves, with a current render
target that resolves, when the device answers success. -/
theorem sunxi_cedrus_EndPicture_spec (driver_data : sunxi_cedrus_driver_data)
    (context : VAGenericID) (obj_context : object_context) (obj_surface : object_surface)
    (hc : CONTEXT driver_data context = some obj_context)
    (ht : SURFACE driver_data obj_context.current_render_target = some obj_surface)
    (hok : driver_data.mem2mem_fd.all_ok) :
    sunxi_cedrus_EndPicture driver_data context =
      Outcome.returned VA_STATUS_SUCCESS ()
        { driver_data with
          context_heap := driver_data.context_heap.write context
            { obj_context with current_render_target := -1 }
          mem2mem_fd :=
            { driver_data.mem2mem_fd with
              trace := driver_data.mem2mem_fd.trace ++
                [DeviceOp.VIDIOC_STREAMON V4L2_BUF_TYPE_VIDEO_OUTPUT_MPLANE,
                  DeviceOp.VIDIOC_STREAMON V4L2_BUF_TYPE_VIDEO_CAPTURE_MPLANE] } } := by
  have hfd : ∀ trace op, (driver_data.mem2mem_fd.respond trace op).ok = true := hok
  simp only [sunxi_cedrus_EndPicture, hc, ht, sunxi_cedrus_driver_data.assert_issue,
    sunxi_cedrus_driver_data.issue, Device.call, hfd, if_true, List.append_assoc,
    List.singleton_append]

/-- C21: `sunxi_cedrus_EndPicture` on a context that resolves, with a current render target
that resolves, on a device that answers success, returns success; it sets the current
render target of the context to -1 and leaves its other fields, every other context and the
config, surface, buffer and image heaps and `num_dst_bufs` as they were; the device
operations it issues are exactly the stream start of the output queue followed by the
stream start of the capture queue. In every later state (one whose device trace extends
the trace after this call) the call issues the same two commands again. -/
theorem C21_end_picture_streams (driver_data : sunxi_cedrus_driver_data)
    (context : VAGenericID) (obj_context : object_context) (obj_surface : object_surface)
    (hc : CONTEXT driver_data context = some obj_context)
    (ht : SURFACE driver_data obj_context.current_render_target = some obj_surface)
    (hok : driver_data.mem2mem_fd.all_ok) :
    ∃ after : sunxi_cedrus_driver_data,
      sunxi_cedrus_EndPicture driver_data context =
        Outcome.returned VA_STATUS_SUCCESS () after ∧
      CONTEXT after context = some { obj_context with current_render_target := -1 } ∧
      (∀ id, id ≠ context → CONTEXT after id = CONTEXT driver_data id) ∧
      after.mem2mem_fd.trace = driver_data.mem2mem_fd.trace ++
        [DeviceOp.VIDIOC_STREAMON V4L2_BUF_TYPE_VIDEO_OUTPUT_MPLANE,
          DeviceOp.VIDIOC_STREAMON V4L2_BUF_TYPE_VIDEO_CAPTURE_MPLANE] ∧
      after.mem2mem_fd.respond = driver_data.mem2mem_fd.respond ∧
      after.config_heap = driver_data.config_heap ∧
      after.surface_heap = driver_data.surface_heap ∧
      after.buffer_heap = driver_data.buffer_heap ∧
      after.image_heap = driver_data.image_heap ∧
      after.num_dst_bufs = driver_data.num_dst_bufs ∧
      ∀ (later : sunxi_cedrus_driver_data) (later_context : object_context)
        (later_surface : object_surface),
        after.mem2mem_fd.trace <+: later.mem2mem_fd.trace →
        CONTEXT later context = some later_context →
        SURFACE later later_context.current_render_target = some later_surface →
        later.mem2mem_fd.all_ok →
        ∃ after_later : sunxi_cedrus_driver_data,
          sunxi_cedrus_EndPicture later context =
            Outcome.returned VA_STATUS_SUCCESS () after_later ∧
          after_later.mem2mem_fd.trace = later.mem2mem_fd.trace ++
            [DeviceOp.VIDIOC_STREAMON V4L2_BUF_TYPE_VIDEO_OUTPUT_MPLANE,
              DeviceOp.VIDIOC_STREAMON V4L2_BUF_TYPE_VIDEO_CAPTURE_MPLANE] := by
  refine ⟨_, sunxi_cedrus_EndPicture_spec driver_data context obj_context obj_surface hc ht hok,
    ?_, ?_, rfl, rfl, rfl, rfl, rfl, rfl, rfl, ?_⟩
  · rw [CONTEXT_write driver_data _ context context _ rfl]
    simp [hc]
  · intro id hne
    rw [CONTEXT_write driver_data _ context id _ rfl]
    simp [hne]
  · intro later later_context later_surface _ hc2 ht2 hok2
    exact ⟨_, sunxi_cedrus_EndPicture_spec later context later_context later_surface hc2 ht2
      hok2, rfl⟩

/-- C21, at an example: the first picture of the example session, on its surface 0, and
its second picture, on its surface 1, whose device trace holds the two stream starts of the
first picture already. -/
theorem C21_end_picture_streams_witness :
    (session_second_picture.mem2mem_fd.trace.filter DeviceOp.is_stream_start).length = 2 ∧
    ∃ after after_later : sunxi_cedrus_driver_data,
      sunxi_cedrus_EndPicture session_rendering session_context_id =
        Outcome.returned VA_STATUS_SUCCESS () after ∧
      (CONTEXT after session_context_id).map object_context.current_render_target =
        some (-1) ∧
      after.mem2mem_fd.trace =
        [DeviceOp.VIDIOC_STREAMON V4L2_BUF_TYPE_VIDEO_OUTPUT_MPLANE,
          DeviceOp.VIDIOC_STREAMON V4L2_BUF_TYPE_VIDEO_CAPTURE_MPLANE] ∧
      sunxi_cedrus_EndPicture session_second_picture session_context_id =
        Outcome.returned VA_STATUS_SUCCESS () after_later ∧
      after_later.mem2mem_fd.trace = session_second_picture.mem2mem_fd.trace ++
        [DeviceOp.VIDIOC_STREAMON V4L2_BUF_TYPE_VIDEO_OUTPUT_MPLANE,
          DeviceOp.VIDIOC_STREAMON V4L2_BUF_TYPE_VIDEO_CAPTURE_MPLANE] := by
  refine ⟨by decide, ?_⟩
  obtain ⟨after, hret, hctx, _, htrace, _, _, _, _, _, _, hlater⟩ :=
    C21_end_picture_streams session_rendering session_context_id _ _ rfl rfl
      Device.willing_all_ok
  have htrace2 : after.mem2mem_fd.trace =
      [DeviceOp.VIDIOC_STREAMON V4L2_BUF_TYPE_VIDEO_OUTPUT_MPLANE,
        DeviceOp.VIDIOC_STREAMON V4L2_BUF_TYPE_VIDEO_CAPTURE_MPLANE] := by
    rw [htrace]; rfl
  obtain ⟨after_later, hret2, htrace3⟩ :=
    hlater session_second_picture _ _ (by rw [htrace2]; exact ⟨[], rfl⟩) rfl rfl
      Device.willing_all_ok
  exact ⟨after, after_later, hret, by rw [hctx]; rfl, htrace2, hret2, htrace3⟩

/-! ## Id spaces -/

/-- An id of the form `2^a | i` with `i < 2^24` does not have the form of the ids of a heap
whose offset is another power of two `2^b`, both from bit 24 up. -/
theorem object_heap.index_of_foreign (heap : object_heap α) (a b i : Nat)
    (hoff : heap.id_offset = 2 ^ b) (hab : a ≠ b) (hb : 24 ≤ b)
    (hi : i < 2 ^ 24) : heap.index_of (((2 ^ a ||| i : Nat) : Int)) = none := by
  unfold object_heap.index_of
  split
  · split
    · rename_i _ heq
      exfalso
      unfold object_heap.id_of at heq
      have hnat : heap.id_offset ||| ((((2 ^ a ||| i : Nat) : Int) - heap.id_offset).toNat) =
          2 ^ a ||| i := by exact_mod_cast heq
      have hbit := congrArg (fun n => Nat.testBit n b) hnat
      have hlow : i < 2 ^ b := lt_of_lt_of_le hi (Nat.pow_le_pow_right (by decide) hb)
      simp only [Nat.testBit_or, hoff, Nat.testBit_two_pow_self, Bool.true_or,
        Nat.testBit_two_pow_of_ne hab, Nat.testBit_lt_two_pow hlow, Bool.or_self] at hbit
      cases hbit
    · rfl
  · rfl

/-- The type offsets are powers of two from bit 24 up. -/
theorem type_offsets_bits (offset : Nat) (h : offset ∈ type_offsets) :
    ∃ bit, 24 ≤ bit ∧ bit < 29 ∧ offset = 2 ^ bit := by
  simp only [type_offsets, List.mem_cons, List.mem_singleton, List.mem_nil_iff, or_false] at h
  rcases h with h | h | h | h | h
  · exact ⟨24, by decide, by decide, by rw [h]; rfl⟩
  · exact ⟨25, by decide, by decide, by rw [h]; rfl⟩
  · exact ⟨26, by decide, by decide, by rw [h]; rfl⟩
  · exact ⟨27, by decide, by decide, by rw [h]; rfl⟩
  · exact ⟨28, by decide, by decide, by rw [h]; rfl⟩

/-- C22: the five type offsets are pairwise distinct and each is a single bit, at or above
bit 24; for two distinct offsets `offset_A`, `offset_B` among them and indices `i`, `j`
below `2^24`, the ids `offset_A | i` and `offset_B | j` differ, and the id `offset_A | i`
does not resolve in a heap whose type offset is `offset_B`, whatever that heap holds. -/
theorem C22_id_spaces_disjoint :
    type_offsets.Nodup ∧
    (∀ offset, offset ∈ type_offsets → ∃ bit, 24 ≤ bit ∧ offset = 2 ^ bit) ∧
    ∀ offset_A offset_B, offset_A ∈ type_offsets → offset_B ∈ type_offsets →
      offset_A ≠ offset_B → ∀ i j, i < 2 ^ 24 → j < 2 ^ 24 →
        (offset_A ||| i) ≠ (offset_B ||| j) ∧
        ∀ (β : Type) (heap : object_heap β), heap.id_offset = offset_B →
          object_heap_lookup heap (((offset_A ||| i : Nat) : Int)) = none := by
  refine ⟨by decide, ?_, ?_⟩
  · intro offset h
    obtain ⟨bit, h24, _, heq⟩ := type_offsets_bits offset h
    exact ⟨bit, h24, heq⟩
  · intro offset_A offset_B hA hB hne i j hi hj
    obtain ⟨a, _, _, hAeq⟩ := type_offsets_bits offset_A hA
    obtain ⟨b, hb, _, hBeq⟩ := type_offsets_bits offset_B hB
    have hab : a ≠ b := by
      intro h
      exact hne (by rw [hAeq, hBeq, h])
    subst hAeq
    subst hBeq
    constructor
    · intro heq
      have hbit := congrArg (fun n => Nat.testBit n b) heq
      have hlow : i < 2 ^ b := lt_of_lt_of_le hi (Nat.pow_le_pow_right (by decide) hb)
      simp only [Nat.testBit_or, Nat.testBit_two_pow_self, Bool.true_or,
        Nat.testBit_two_pow_of_ne hab, Nat.testBit_lt_two_pow hlow, Bool.or_self] at hbit
      cases hbit
    · intro β heap hoff
      unfold object_heap_lookup
      rw [object_heap.index_of_foreign heap a b i hoff hab hb hi]

/-- C22, at an example: the id of surface 3 and the id of context 3 differ, and the surface
id resolves neither as a config, a context nor a buffer of the example session, whose heaps
hold an object at index 0. -/
theorem C22_id_spaces_disjoint_witness :
    (SURFACE_ID_OFFSET ||| 3) ≠ (CONTEXT_ID_OFFSET ||| 3) ∧
    CONTEXT session_driver_data (((SURFACE_ID_OFFSET ||| 0 : Nat) : Int)) = none ∧
    CONFIG session_driver_data (((SURFACE_ID_OFFSET ||| 0 : Nat) : Int)) = none ∧
    SURFACE session_driver_data (((SURFACE_ID_OFFSET ||| 0 : Nat) : Int)) ≠ none :=
  ⟨(C22_id_spaces_disjoint.2.2 SURFACE_ID_OFFSET CONTEXT_ID_OFFSET (by decide) (by decide)
      (by decide) 3 3 (by decide) (by decide)).1,
    (C22_id_spaces_disjoint.2.2 SURFACE_ID_OFFSET CONTEXT_ID_OFFSET (by decide) (by decide)
      (by decide) 0 0 (by decide) (by decide)).2 _ session_driver_data.context_heap rfl,
    (C22_id_spaces_disjoint.2.2 SURFACE_ID_OFFSET CONFIG_ID_OFFSET (by decide) (by decide)
      (by decide) 0 0 (by decide) (by decide)).2 _ session_driver_data.config_heap rfl,
    by decide⟩

/-! ## Failure paths of the synchronisation -/

/-- C23: let `sunxi_cedrus_SyncSurface` run on a surface that resolves. If the dequeue of
the input buffer fails, the call returns `VA_STATUS_ERROR_UNKNOWN` and leaves the surface
heap, hence the surface and its status, exactly as it was. If that dequeue succeeds and the
dequeue of the capture buffer fails, the call returns `VA_STATUS_ERROR_UNKNOWN` with the
status of the surface set to `VASurfaceReady`, its other fields as they were, and it has
issued no enqueue: its device operations are the wait and the two dequeues. -/
theorem C23_sync_surface_failure_status (driver_data : sunxi_cedrus_driver_data)
    (render_target : VAGenericID) (obj_surface : object_surface)
    (hs : SURFACE driver_data render_target = some obj_surface) :
    ((driver_data.mem2mem_fd.respond (driver_data.mem2mem_fd.trace ++ [DeviceOp.select])
        (DeviceOp.VIDIOC_DQBUF V4L2_BUF_TYPE_VIDEO_OUTPUT_MPLANE
          obj_surface.input_buf_index)).ok = false →
      ∃ after : sunxi_cedrus_driver_data,
        sunxi_cedrus_SyncSurface driver_data render_target =
          Outcome.returned VA_STATUS_ERROR_UNKNOWN () after ∧
        after.surface_heap = driver_data.surface_heap ∧
        SURFACE after render_target = some obj_surface) ∧
    ((driver_data.mem2mem_fd.respond (driver_data.mem2mem_fd.trace ++ [DeviceOp.select])
        (DeviceOp.VIDIOC_DQBUF V4L2_BUF_TYPE_VIDEO_OUTPUT_MPLANE
          obj_surface.input_buf_index)).ok = true →
      (driver_data.mem2mem_fd.respond
        (driver_data.mem2mem_fd.trace ++
          [DeviceOp.select,
            DeviceOp.VIDIOC_DQBUF V4L2_BUF_TYPE_VIDEO_OUTPUT_MPLANE
              obj_surface.input_buf_index])
        (DeviceOp.VIDIOC_DQBUF V4L2_BUF_TYPE_VIDEO_CAPTURE_MPLANE
          obj_surface.output_buf_index)).ok = false →
      ∃ (after : sunxi_cedrus_driver_data) (issued : List DeviceOp),
        sunxi_cedrus_SyncSurface driver_data render_target =
          Outcome.returned VA_STATUS_ERROR_UNKNOWN () after ∧
        SURFACE after render_target = some { obj_surface with status := VASurfaceReady } ∧
        after.mem2mem_fd.trace = driver_data.mem2mem_fd.trace ++ issued ∧
        issued =
          [DeviceOp.select,
            DeviceOp.VIDIOC_DQBUF V4L2_BUF_TYPE_VIDEO_OUTPUT_MPLANE
              obj_surface.input_buf_index,
            DeviceOp.VIDIOC_DQBUF V4L2_BUF_TYPE_VIDEO_CAPTURE_MPLANE
              obj_surface.output_buf_index] ∧
        issued.filter DeviceOp.is_enqueue = []) := by
  have h1 : SURFACE (driver_data.issue DeviceOp.select).2 render_target = some obj_surface := hs
  refine ⟨?_, ?_⟩
  · intro hfail
    unfold sunxi_cedrus_SyncSurface
    simp only [h1]
    simp only [sunxi_cedrus_driver_data.issue, Device.call, hfail, Bool.not_false, if_true]
    exact ⟨_, rfl, rfl, hs⟩
  · intro hfirst hfail
    unfold sunxi_cedrus_SyncSurface
    simp only [h1]
    simp only [sunxi_cedrus_driver_data.issue, Device.call, hfirst, Bool.not_true,
      Bool.false_eq_true, if_false, List.append_assoc, List.singleton_append, hfail,
      Bool.not_false, if_true]
    refine ⟨_, _, rfl, ?_, rfl, rfl, rfl⟩
    rw [SURFACE_write driver_data _ render_target render_target _ rfl]
    simp [hs]

/-- C23, at two examples: the surface 0 of the example session, being rendered, on a device
that refuses the first dequeue, after which the surface is still being rendered, and on a
device that refuses the second dequeue, after which the surface is ready. -/
theorem C23_sync_surface_failure_status_witness :
    (SURFACE (session_rendering_refused 1) (session_surface_id 0)).map object_surface.status =
      some VASurfaceRendering ∧
    (∃ after : sunxi_cedrus_driver_data,
      sunxi_cedrus_SyncSurface (session_rendering_refused 1) (session_surface_id 0) =
        Outcome.returned VA_STATUS_ERROR_UNKNOWN () after ∧
      (SURFACE after (session_surface_id 0)).map object_surface.status =
        some VASurfaceRendering) ∧
    (∃ after : sunxi_cedrus_driver_data,
      sunxi_cedrus_SyncSurface (session_rendering_refused 2) (session_surface_id 0) =
        Outcome.returned VA_STATUS_ERROR_UNKNOWN () after ∧
      (SURFACE after (session_surface_id 0)).map object_surface.status =
        some VASurfaceReady ∧
      after.mem2mem_fd.trace =
        [DeviceOp.select, DeviceOp.VIDIOC_DQBUF V4L2_BUF_TYPE_VIDEO_OUTPUT_MPLANE 0,
          DeviceOp.VIDIOC_DQBUF V4L2_BUF_TYPE_VIDEO_CAPTURE_MPLANE 0]) := by
  refine ⟨rfl, ?_, ?_⟩
  · obtain ⟨after, hret, _, hsurf⟩ :=
      (C23_sync_surface_failure_status (session_rendering_refused 1) (session_surface_id 0) _
        rfl).1 rfl
    exact ⟨after, hret, by rw [hsurf]; rfl⟩
  · obtain ⟨after, issued, hret, hsurf, htrace, hissued, _⟩ :=
      (C23_sync_surface_failure_status (session_rendering_refused 2) (session_surface_id 0) _
        rfl).2 rfl rfl
    refine ⟨after, hret, by rw [hsurf]; rfl, ?_⟩
    rw [htrace, hissued]
    rfl

/-! ## Advertised and accepted pairs -/

/-- With room for two entrypoints, `sunxi_cedrus_QueryConfigEntrypoints` returns the list of
its `switch`. -/
theorem sunxi_cedrus_QueryConfigEntrypoints_eq (MAX : Nat)
    (driver_data : sunxi_cedrus_driver_data) (profile : VAProfile) (hmax : 2 ≤ MAX) :
    sunxi_cedrus_QueryConfigEntrypoints MAX driver_data profile =
      Outcome.returned VA_STATUS_SUCCESS
        (if profile = VAProfileMPEG2Simple ∨ profile = VAProfileMPEG2Main then
          [VAEntrypointVLD, VAEntrypointMoComp]
        else if profile = VAProfileMPEG4Simple ∨ profile = VAProfileMPEG4AdvancedSimple
            ∨ profile = VAProfileMPEG4Main then
          [VAEntrypointVLD]
        else if profile = VAProfileH264Baseline ∨ profile = VAProfileH264Main
            ∨ profile = VAProfileH264High then
          [VAEntrypointVLD]
        else []) driver_data := by
  unfold sunxi_cedrus_QueryConfigEntrypoints
  simp only []
  rw [if_pos]
  repeat' split
  all_goals simp only [List.length_cons, List.length_nil]
  all_goals omega

/-- C24: with capacities that let the two queries return (`8 ≤ SUNXI_CEDRUS_MAX_PROFILES`
and `2 ≤ SUNXI_CEDRUS_MAX_ENTRYPOINTS`, which their assertions demand), for every profile
`sunxi_cedrus_QueryConfigEntrypoints` returns a list of entrypoints, the validation of
`sunxi_cedrus_CreateConfig` accepts the profile with an entrypoint exactly when the
entrypoint is in that list, and the list is not empty exactly when the profile is one of the
eight distinct profiles that `sunxi_cedrus_QueryConfigProfiles` returns. -/
theorem C24_advertised_pairs_accepted (MAX_PROFILES MAX_ENTRYPOINTS : Nat)
    (driver_data : sunxi_cedrus_driver_data) (hprofiles : 8 ≤ MAX_PROFILES)
    (hentrypoints : 2 ≤ MAX_ENTRYPOINTS) :
    ∃ profile_list : List VAProfile,
      sunxi_cedrus_QueryConfigProfiles MAX_PROFILES driver_data =
        Outcome.returned VA_STATUS_SUCCESS profile_list driver_data ∧
      profile_list.length = 8 ∧ profile_list.Nodup ∧
      ∀ profile : VAProfile, ∃ entrypoint_list : List VAEntrypoint,
        sunxi_cedrus_QueryConfigEntrypoints MAX_ENTRYPOINTS driver_data profile =
          Outcome.returned VA_STATUS_SUCCESS entrypoint_list driver_data ∧
        (∀ entrypoint : VAEntrypoint,
          sunxi_cedrus_CreateConfig.validate profile entrypoint = VA_STATUS_SUCCESS ↔
            entrypoint ∈ entrypoint_list) ∧
        (profile ∈ profile_list ↔ entrypoint_list ≠ []) := by
  refine ⟨[VAProfileMPEG2Simple, VAProfileMPEG2Main, VAProfileMPEG4Simple,
    VAProfileMPEG4AdvancedSimple, VAProfileMPEG4Main, VAProfileH264Baseline,
    VAProfileH264Main, VAProfileH264High], ?_, ?_, ?_, ?_⟩
  · unfold sunxi_cedrus_QueryConfigProfiles
    simp only [List.length_cons, List.length_nil]
    rw [if_pos (by omega)]
  · rfl
  · decide
  · intro profile
    refine ⟨_, sunxi_cedrus_QueryConfigEntrypoints_eq MAX_ENTRYPOINTS driver_data profile
      hentrypoints, ?_, ?_⟩
    · intro entrypoint
      unfold sunxi_cedrus_CreateConfig.validate
      simp only [VAProfileMPEG2Simple, VAProfileMPEG2Main, VAProfileMPEG4Simple,
        VAProfileMPEG4AdvancedSimple, VAProfileMPEG4Main, VAProfileH264Baseline,
        VAProfileH264Main, VAProfileH264High, VAEntrypointVLD, VAEntrypointMoComp]
      repeat' split
      all_goals simp only [VAProfile, VAEntrypoint] at *
      all_goals simp only [List.mem_cons, List.mem_singleton, List.mem_nil_iff, or_false,
        reduceCtorEq, true_iff, false_iff, iff_false, iff_true]
      all_goals omega
    · simp only [VAProfileMPEG2Simple, VAProfileMPEG2Main, VAProfileMPEG4Simple,
        VAProfileMPEG4AdvancedSimple, VAProfileMPEG4Main, VAProfileH264Baseline,
        VAProfileH264Main, VAProfileH264High, List.mem_cons, List.mem_singleton,
        List.mem_nil_iff, or_false]
      repeat' split
      all_goals simp only [VAProfile] at *
      all_goals simp only [ne_eq, List.cons_ne_nil, not_false_eq_true, not_true_eq_false,
        iff_true, iff_false, reduceCtorEq]
      all_goals omega

/-- C24, at an example: capacities 8 and 2, on the fresh driver state; MPEG2Main advertises
VLD and MoComp, and the profile 9, which is not advertised, no entrypoint. -/
theorem C24_advertised_pairs_accepted_witness :
    ∃ profile_list : List VAProfile,
      sunxi_cedrus_QueryConfigProfiles 8 fresh_driver_data =
        Outcome.returned VA_STATUS_SUCCESS profile_list fresh_driver_data ∧
      profile_list.length = 8 ∧ profile_list.Nodup ∧
      ∀ profile : VAProfile, ∃ entrypoint_list : List VAEntrypoint,
        sunxi_cedrus_QueryConfigEntrypoints 2 fresh_driver_data profile =
          Outcome.returned VA_STATUS_SUCCESS entrypoint_list fresh_driver_data ∧
        (∀ entrypoint : VAEntrypoint,
          sunxi_cedrus_CreateConfig.validate profile entrypoint = VA_STATUS_SUCCESS ↔
            entrypoint ∈ entrypoint_list) ∧
        (profile ∈ profile_list ↔ entrypoint_list ≠ []) :=
  C24_advertised_pairs_accepted 8 2 fresh_driver_data (by decide) (by decide)

/-! ## Bounds of the attribute array -/

/-- The first loop of `sunxi_cedrus_update_attribute` accesses no entry: its guard fails at
index 0. -/
theorem sunxi_cedrus_update_attribute.scan_accesses_zero (obj_config : object_config)
    (attrib : VAConfigAttrib) (fuel : Nat) :
    sunxi_cedrus_update_attribute.scan_accesses obj_config attrib fuel 0 = [] := by
  cases fuel with
  | zero => rfl
  | succ fuel =>
    unfold sunxi_cedrus_update_attribute.scan_accesses
    rw [if_neg (Nat.not_lt_zero _)]

/-- The accesses of one call of `sunxi_cedrus_update_attribute`: the two stores of the
append, at `attrib_count`, when there is room, and none otherwise. -/
theorem sunxi_cedrus_update_attribute.accesses_eq (MAX fuel : Nat) (obj_config : object_config)
    (attrib : VAConfigAttrib) :
    sunxi_cedrus_update_attribute.accesses MAX (fuel + 1) obj_config attrib =
      if obj_config.attrib_count < MAX then
        [obj_config.attrib_count, obj_config.attrib_count]
      else [] := by
  unfold sunxi_cedrus_update_attribute.accesses
  rw [sunxi_cedrus_update_attribute.scan_accesses_zero,
    sunxi_cedrus_update_attribute.scan_zero]
  rfl

/-- The merge loop of `sunxi_cedrus_CreateConfig`, entered with a count between 1 and the
capacity: every step accesses `attrib_list` below the capacity and leaves a count between 1
and the capacity, and the loop ends with success or `MAX_NUM_EXCEEDED` and such a count. -/
theorem sunxi_cedrus_CreateConfig.merge_bounds (MAX fuel : Nat) :
    ∀ (attrib_list : List VAConfigAttrib) (vaStatus : VAStatus) (obj_config : object_config),
      1 ≤ obj_config.attrib_count → obj_config.attrib_count ≤ MAX →
      (vaStatus = VA_STATUS_SUCCESS ∨ vaStatus = VA_STATUS_ERROR_MAX_NUM_EXCEEDED) →
      (∀ step, step ∈ sunxi_cedrus_CreateConfig.merge_steps MAX (fuel + 1) obj_config
          attrib_list →
        (∀ i, i ∈ step.1 → i < MAX) ∧ 1 ≤ step.2 ∧ step.2 ≤ MAX) ∧
      ∃ (status : VAStatus) (merged : object_config),
        sunxi_cedrus_CreateConfig.merge MAX (fuel + 1) vaStatus obj_config attrib_list =
          some (status, merged) ∧
        (status = VA_STATUS_SUCCESS ∨ status = VA_STATUS_ERROR_MAX_NUM_EXCEEDED) ∧
        1 ≤ merged.attrib_count ∧ merged.attrib_count ≤ MAX := by
  intro attrib_list
  induction attrib_list with
  | nil =>
    intro vaStatus obj_config h1 hmax hst
    refine ⟨?_, vaStatus, obj_config, rfl, hst, h1, hmax⟩
    intro step hstep
    simp [sunxi_cedrus_CreateConfig.merge_steps] at hstep
  | cons attrib rest ih =>
    intro vaStatus obj_config h1 hmax _
    unfold sunxi_cedrus_CreateConfig.merge_steps sunxi_cedrus_CreateConfig.merge
    rw [sunxi_cedrus_update_attribute_eq, sunxi_cedrus_update_attribute.accesses_eq]
    by_cases hroom : obj_config.attrib_count < MAX
    · simp only [hroom, if_true, ne_eq, not_true_eq_false, if_false]
      obtain ⟨hsteps, hend⟩ := ih VA_STATUS_SUCCESS
        { obj_config with
          attrib_list := Function.update obj_config.attrib_list obj_config.attrib_count attrib
          attrib_count := obj_config.attrib_count + 1 }
        (Nat.le_add_left 1 _) hroom (Or.inl rfl)
      refine ⟨?_, hend⟩
      intro step hstep
      rcases List.mem_cons.mp hstep with heq | hmem
      · subst heq
        refine ⟨?_, Nat.le_add_left 1 _, hroom⟩
        intro i hi
        simp only [List.mem_cons, List.mem_singleton, List.mem_nil_iff, or_false,
          or_self] at hi
        omega
      · exact hsteps step hmem
    · simp only [hroom, if_false, ne_eq, reduceCtorEq, not_false_eq_true, if_true]
      refine ⟨?_, _, _, rfl, Or.inr rfl, h1, hmax⟩
      intro step hstep
      simp only [List.mem_singleton] at hstep
      subst hstep
      refine ⟨?_, h1, hmax⟩
      intro i hi
      simp at hi

/-- C25: for a capacity `MAX ≥ 1` and every caller attribute list, in the merge loop that
`sunxi_cedrus_CreateConfig` enters with the seeded configuration (one attribute, at index
0), every call of `sunxi_cedrus_update_attribute` reads and writes `attrib_list` at indices
below `MAX` only and leaves `attrib_count` between 1 and `MAX`; the loop ends, with success
or with `MAX_NUM_EXCEEDED`, and `attrib_count` is between 1 and `MAX` at its end. -/
theorem C25_attribute_bounds (MAX fuel : Nat) (obj_config : object_config)
    (profile : VAProfile) (entrypoint : VAEntrypoint) (attrib_list : List VAConfigAttrib)
    (hmax : 1 ≤ MAX) :
    (∀ step, step ∈ sunxi_cedrus_CreateConfig.merge_steps MAX (fuel + 1)
        (seeded_config obj_config profile entrypoint) attrib_list →
      (∀ i, i ∈ step.1 → i < MAX) ∧ 1 ≤ step.2 ∧ step.2 ≤ MAX) ∧
    ∃ (status : VAStatus) (merged : object_config),
      sunxi_cedrus_CreateConfig.merge MAX (fuel + 1) VA_STATUS_SUCCESS
          (seeded_config obj_config profile entrypoint) attrib_list =
        some (status, merged) ∧
      (status = VA_STATUS_SUCCESS ∨ status = VA_STATUS_ERROR_MAX_NUM_EXCEEDED) ∧
      1 ≤ merged.attrib_count ∧ merged.attrib_count ≤ MAX :=
  sunxi_cedrus_CreateConfig.merge_bounds MAX fuel attrib_list VA_STATUS_SUCCESS
    (seeded_config obj_config profile entrypoint) (Nat.le_refl 1) hmax (Or.inl rfl)

/-- C25, at an example: capacity 2 and three caller attributes on the MPEG2Main
configuration; the second merge step finds the array full. -/
theorem C25_attribute_bounds_witness :
    (sunxi_cedrus_CreateConfig.merge_steps 2 1
        (seeded_config fresh_driver_data.config_heap.blank VAProfileMPEG2Main VAEntrypointVLD)
        [{ type := 1, value := 7 }, { type := 2, value := 8 }, { type := 3, value := 9 }] =
      [([1, 1], 2), ([], 2)]) ∧
    (∀ step, step ∈ sunxi_cedrus_CreateConfig.merge_steps 2 1
        (seeded_config fresh_driver_data.config_heap.blank VAProfileMPEG2Main VAEntrypointVLD)
        [{ type := 1, value := 7 }, { type := 2, value := 8 }, { type := 3, value := 9 }] →
      (∀ i, i ∈ step.1 → i < 2) ∧ 1 ≤ step.2 ∧ step.2 ≤ 2) ∧
    ∃ (status : VAStatus) (merged : object_config),
      sunxi_cedrus_CreateConfig.merge 2 1 VA_STATUS_SUCCESS
          (seeded_config fresh_driver_data.config_heap.blank VAProfileMPEG2Main
            VAEntrypointVLD)
          [{ type := 1, value := 7 }, { type := 2, value := 8 }, { type := 3, value := 9 }] =
        some (status, merged) ∧
      (status = VA_STATUS_SUCCESS ∨ status = VA_STATUS_ERROR_MAX_NUM_EXCEEDED) ∧
      1 ≤ merged.attrib_count ∧ merged.attrib_count ≤ 2 :=
  ⟨rfl, C25_attribute_bounds 2 0 fresh_driver_data.config_heap.blank VAProfileMPEG2Main
    VAEntrypointVLD
    [{ type := 1, value := 7 }, { type := 2, value := 8 }, { type := 3, value := 9 }]
    (by decide)⟩

end SunxiCedrus
